import Mathlib

set_option maxRecDepth 1000000

/-!
# Verification of the sudoku solver/generator repository

This file gives a shallow embedding, in Lean 4, of the Rust sudoku
repository (board storage, candidate sets, the propagation strategies, the
recursive solver of `solver/mod.rs`, the stack-based enumerator of
`solver/solver.rs`, and the puzzle generator of `generator.rs`), together
with theorems settling the specification claims about it.

Modelling conventions:
* Machine integers are `Nat`.  The `[u8; 41]` array backing `Board` is one
  `Nat` holding 41 bytes (byte `i` at bits `8*i ..< 8*i+8`), and the
  729-bit candidate bit-array is one `Nat`; both are manipulated with the
  same shift/mask operations as the source.
* Panics (`assert!`, `panic!`, `expect`) on *content* conditions are
  modelled by `Option` (`none` = panic).  Coordinate/value range asserts
  (`x < WIDTH`, `value <= 9`) are not reified: every call site in the
  embedded code passes statically in-range arguments, and theorems carry
  the corresponding range hypotheses.  `debug_assert!` is compiled out in
  release builds and is modelled as a no-op.
* `&mut` parameters become explicit state passing: a function mutating a
  value returns the new value (paired with its result).
* Recursion that Rust bounds by the shrinking number of empty cells is
  given an explicit fuel parameter; fuel exhaustion is `none`, so no
  theorem about a `some` result is weakened by it.
-/

/-! ## Constants (board.rs) -/

def WIDTH : Nat := 9
def HEIGHT : Nat := 9
def NUM_FIELDS : Nat := WIDTH * HEIGHT
def MAX_VALUE : Nat := 9

/-- `div_ceil(NUM_FIELDS, 2)`; `utils::div_ceil` is a trivial external
utility (spec §1 places it out of scope). -/
def NUM_BYTES : Nat := (NUM_FIELDS + 1) / 2

def BOARD_BITS : Nat := 8 * NUM_BYTES

/-! ## Board (board.rs)

`Board` stores two cells per byte, first cell in the low 4 bits.  Cells are
ordered by columns: index `x * HEIGHT + y`. -/

structure Board where
  compressed_board : Nat
deriving DecidableEq

inductive FieldSubindex where
  | firstHalfByte
  | secondHalfByte
deriving DecidableEq

/-- Reading `compressed_board[i]` of the `[u8; NUM_BYTES]` array. -/
def Board.readByte (b : Board) (i : Nat) : Nat :=
  (b.compressed_board >>> (8 * i)) &&& 255

/-- Writing `compressed_board[i] = byte` of the `[u8; NUM_BYTES]` array. -/
def Board.writeByte (b : Board) (i byte : Nat) : Board :=
  ⟨(b.compressed_board &&& ((2 ^ BOARD_BITS - 1) ^^^ (255 <<< (8 * i)))) |||
    (byte <<< (8 * i))⟩

/-- `FieldRef::get` (board.rs): extract one cell from its byte; `0` models
`None` (empty cell).  The source asserts `value <= 9`, which holds for
every board built by the embedded operations. -/
def FieldRef.get (field : Nat) : FieldSubindex → Nat
  | .firstHalfByte => field &&& 0x0F
  | .secondHalfByte => field >>> 4

/-- `FieldRef::set` (board.rs): store one cell into its byte (`0` = empty). -/
def FieldRef.set (field value : Nat) : FieldSubindex → Nat
  | .firstHalfByte => (field &&& 0xF0) ||| value
  | .secondHalfByte => (field &&& 0x0F) ||| (value <<< 4)

/-- `Board::index` (board.rs). -/
def Board.index (x y : Nat) : Nat × FieldSubindex :=
  let index := x * HEIGHT + y
  (index / 2, if index % 2 = 0 then .firstHalfByte else .secondHalfByte)

/-- `board.field(x, y).get()`, with `None` as `0`. -/
def Board.field (b : Board) (x y : Nat) : Nat :=
  match Board.index x y with
  | (i, sub) => FieldRef.get (b.readByte i) sub

/-- `board.field_mut(x, y).set(value)`, with `None` as `0`. -/
def Board.setField (b : Board) (x y value : Nat) : Board :=
  match Board.index x y with
  | (i, sub) => b.writeByte i (FieldRef.set (b.readByte i) value sub)

def Board.new_empty : Board := ⟨0⟩

/-- All 81 coordinates in the scan order of the source's nested
`for x in 0..WIDTH { for y in 0..HEIGHT }` loops (column-major). -/
def allCoords : List (Nat × Nat) :=
  (List.range WIDTH).flatMap fun x => (List.range HEIGHT).map fun y => (x, y)

/-- `Board::first_empty_field_index` (board.rs): first empty cell in
column-major order. -/
def Board.first_empty_field_index (b : Board) : Option (Nat × Nat) :=
  allCoords.find? fun c => b.field c.1 c.2 == 0

/-- `Board::is_filled` (board.rs). -/
def Board.is_filled (b : Board) : Bool :=
  b.first_empty_field_index.isNone

/-- `Board::row_iter` coordinates. -/
def rowCoords (row : Nat) : List (Nat × Nat) :=
  (List.range WIDTH).map fun x => (x, row)

/-- `Board::col_iter` coordinates. -/
def colCoords (col : Nat) : List (Nat × Nat) :=
  (List.range HEIGHT).map fun y => (col, y)

/-- `Board::region_iter` coordinates (outer loop over x, inner over y). -/
def regionCoords (region_x region_y : Nat) : List (Nat × Nat) :=
  (List.range 3).flatMap fun x =>
    (List.range 3).map fun y => (region_x * 3 + x, region_y * 3 + y)

/-- Loop body of `Board::has_conflicts_in_fields` (board.rs); `seen` is the
`[bool; 9]` array as a 9-bit mask. -/
def Board.hasConflictsInFieldsGo (b : Board) : List (Nat × Nat) → Nat → Bool
  | [], _ => false
  | c :: rest, seen =>
    let v := b.field c.1 c.2
    if v = 0 then
      b.hasConflictsInFieldsGo rest seen
    else if seen.testBit (v - 1) then
      true
    else
      b.hasConflictsInFieldsGo rest (seen ||| (1 <<< (v - 1)))

def Board.has_conflicts_in_fields (b : Board) (cells : List (Nat × Nat)) : Bool :=
  b.hasConflictsInFieldsGo cells 0

/-- The 27 units in the order `Board::has_conflicts` checks them:
9 rows, 9 cols, 9 regions (region_x outer). -/
def allUnits : List (List (Nat × Nat)) :=
  ((List.range HEIGHT).map rowCoords) ++
    ((List.range WIDTH).map colCoords) ++
    ((List.range 3).flatMap fun rx => (List.range 3).map fun ry => regionCoords rx ry)

/-- `Board::has_conflicts` (board.rs). -/
def Board.has_conflicts (b : Board) : Bool :=
  allUnits.any fun u => b.has_conflicts_in_fields u

/-- `Board::is_subset_of` (board.rs). -/
def Board.is_subset_of (b rhs : Board) : Bool :=
  allCoords.all fun c =>
    b.field c.1 c.2 = 0 || b.field c.1 c.2 == rhs.field c.1 c.2

/-- `Board::num_empty` (board.rs). -/
def Board.num_empty (b : Board) : Nat :=
  allCoords.countP fun c => b.field c.1 c.2 == 0

/-- `Board::from_str` (board.rs) with its character stream already decoded:
entry `0` for `'_'`, `1..=9` for digits, in row-major order (outer loop
over y, inner over x). -/
def Board.fromCells (cells : List Nat) : Board :=
  let coords := (List.range HEIGHT).flatMap fun y => (List.range WIDTH).map fun x => (x, y)
  (coords.zip cells).foldl (fun b cv => b.setField cv.1.1 cv.1.2 cv.2) Board.new_empty

/-- The Rust `Board` is `[u8; 41]`: its content always fits in
`BOARD_BITS` bits.  All boards built by the embedded operations satisfy
this. -/
def Board.WF (b : Board) : Prop := b.compressed_board < 2 ^ BOARD_BITS

/-! ## PossibleValues (solver/possible_values.rs)

A 729-bit array (`9` bits per cell) stored as one `Nat`; bit set = value
considered possible. -/

def NUM_VALUES_PER_FIELD : Nat := 9

def PV_BITS : Nat := NUM_FIELDS * NUM_VALUES_PER_FIELD

structure PossibleValues where
  values : Nat
deriving DecidableEq

/-- `PossibleValues::new_all_is_possible`. -/
def PossibleValues.new_all_is_possible : PossibleValues :=
  ⟨2 ^ PV_BITS - 1⟩

/-- `PossibleValues::field_start_index`. -/
def PossibleValues.field_start_index (x y : Nat) : Nat :=
  NUM_VALUES_PER_FIELD * (x * HEIGHT + y)

/-- `PossibleValues::index` (for `value` in `1..=9`). -/
def PossibleValues.bitIndex (x y value : Nat) : Nat :=
  PossibleValues.field_start_index x y + value - 1

/-- `PossibleValues::is_possible`. -/
def PossibleValues.is_possible (pv : PossibleValues) (x y value : Nat) : Bool :=
  pv.values.testBit (PossibleValues.bitIndex x y value)

/-- `PossibleValues::possible_values_for_field`: digits `1..=9` whose bit
is set, ascending. -/
def PossibleValues.possible_values_for_field (pv : PossibleValues) (x y : Nat) : List Nat :=
  (List.range' 1 9).filter fun i =>
    pv.values.testBit (PossibleValues.field_start_index x y + i - 1)

/-- `PossibleValues::first_possible_value_for_field`. -/
def PossibleValues.first_possible_value_for_field (pv : PossibleValues) (x y : Nat) :
    Option Nat :=
  (pv.possible_values_for_field x y).head?

/-- `bitvec`'s `values.set(index, false)` on the fixed-width 729-bit array. -/
def PossibleValues.clearBit (pv : PossibleValues) (index : Nat) : PossibleValues :=
  ⟨pv.values &&& ((2 ^ PV_BITS - 1) ^^^ (1 <<< index))⟩

/-- `PossibleValues::remove` — asserts the bit was set (`none` = panic). -/
def PossibleValues.remove (pv : PossibleValues) (x y value : Nat) :
    Option PossibleValues :=
  let index := PossibleValues.bitIndex x y value
  if pv.values.testBit index then some (pv.clearBit index) else none

/-- `PossibleValues::remove_if_set`. -/
def PossibleValues.remove_if_set (pv : PossibleValues) (x y value : Nat) :
    PossibleValues :=
  pv.clearBit (PossibleValues.bitIndex x y value)

/-- `PossibleValues::remove_value_from_col`. -/
def PossibleValues.remove_value_from_col (pv : PossibleValues) (value x : Nat) :
    PossibleValues :=
  (List.range HEIGHT).foldl (fun pv y => pv.remove_if_set x y value) pv

/-- `PossibleValues::remove_value_from_row`. -/
def PossibleValues.remove_value_from_row (pv : PossibleValues) (value y : Nat) :
    PossibleValues :=
  (List.range WIDTH).foldl (fun pv x => pv.remove_if_set x y value) pv

/-- `PossibleValues::remove_value_from_region`. -/
def PossibleValues.remove_value_from_region (pv : PossibleValues) (value cell_x cell_y : Nat) :
    PossibleValues :=
  (List.range 3).foldl
    (fun pv x => (List.range 3).foldl
      (fun pv y => pv.remove_if_set (3 * cell_x + x) (3 * cell_y + y) value) pv)
    pv

/-- `PossibleValues::remove_conflicting`. -/
def PossibleValues.remove_conflicting (pv : PossibleValues) (x y value : Nat) :
    PossibleValues :=
  (((pv.remove_value_from_col value x).remove_value_from_row value y).remove_value_from_region
    value (x / 3) (y / 3))

/-- `PossibleValues::from_board`. -/
def PossibleValues.from_board (b : Board) : PossibleValues :=
  allCoords.foldl
    (fun pv c =>
      let v := b.field c.1 c.2
      if v ≠ 0 then pv.remove_conflicting c.1 c.2 v else pv)
    PossibleValues.new_all_is_possible

/-! ## The recursive solver (solver/mod.rs) -/

inductive SolverError where
  | NotSolvable
  | Ambigious
deriving DecidableEq

inductive ValueInfo where
  | NoPossiblePlacementFound
  | AlreadyPlaced
  | CanOnlyBePlacedAtIndex (c : Nat × Nat)
  | MultiplePossiblePlacementsFound
deriving DecidableEq

/-- The `value_infos` array of `_solve_fast_fields`, one entry per value
`1..=MAX_VALUE` (entry for `value` at index `value - 1`). -/
def initValueInfos : List ValueInfo :=
  List.replicate MAX_VALUE .NoPossiblePlacementFound

/-- The inner loop of `_solve_fast_fields`'s first pass over an *empty*
field `c`: record in which fields each possible value could be placed.
`none` models the `panic!("Something's wrong with our PossibleValues ...")`. -/
def recordPossiblePlacements (c : Nat × Nat) :
    List Nat → List ValueInfo → Option (List ValueInfo)
  | [], infos => some infos
  | value :: rest, infos =>
    match infos.getD (value - 1) .NoPossiblePlacementFound with
    | .NoPossiblePlacementFound =>
      recordPossiblePlacements c rest (infos.set (value - 1) (.CanOnlyBePlacedAtIndex c))
    | .AlreadyPlaced => none
    | .CanOnlyBePlacedAtIndex _ =>
      recordPossiblePlacements c rest (infos.set (value - 1) .MultiplePossiblePlacementsFound)
    | .MultiplePossiblePlacementsFound =>
      recordPossiblePlacements c rest infos

/-- First pass of `_solve_fast_fields`: loop over all fields of the unit,
record placed values and possible placements.  `none` models the two
`panic!` calls. -/
def collectValueInfos (b : Board) (pv : PossibleValues) :
    List (Nat × Nat) → List ValueInfo → Option (List ValueInfo)
  | [], infos => some infos
  | c :: rest, infos =>
    let v := b.field c.1 c.2
    if v = 0 then
      match recordPossiblePlacements c (pv.possible_values_for_field c.1 c.2) infos with
      | none => none
      | some infos' => collectValueInfos b pv rest infos'
    else
      match infos.getD (v - 1) .NoPossiblePlacementFound with
      | .NoPossiblePlacementFound => collectValueInfos b pv rest (infos.set (v - 1) .AlreadyPlaced)
      | _ => none

/-- Second pass of `_solve_fast_fields`: for each checked value, place it
if it has exactly one possible position.  NOTE: the source iterates
`for value in 1u8..MAX_VALUE`, an *exclusive* range — values `1..=8`;
value 9 is never checked.  This pass is therefore run on
`List.range' 1 (MAX_VALUE - 1) = [1, ..., 8]`. -/
def placeUniqueValues (infos : List ValueInfo) :
    Board → PossibleValues → Bool → List Nat →
      Option (Except SolverError (Board × PossibleValues × Bool))
  | b, pv, found, [] => some (.ok (b, pv, found))
  | b, pv, found, value :: rest =>
    match infos.getD (value - 1) .NoPossiblePlacementFound with
    | .NoPossiblePlacementFound => some (.error .NotSolvable)
    | .CanOnlyBePlacedAtIndex (x, y) =>
      if b.field x y ≠ 0 then some (.error .NotSolvable)
      else placeUniqueValues infos (b.setField x y value)
        (pv.remove_conflicting x y value) true rest
    | .AlreadyPlaced => placeUniqueValues infos b pv found rest
    | .MultiplePossiblePlacementsFound => placeUniqueValues infos b pv found rest

/-- `_solve_fast_fields` (solver/mod.rs). -/
def _solve_fast_fields (b : Board) (pv : PossibleValues) (field_coords : List (Nat × Nat)) :
    Option (Except SolverError (Board × PossibleValues × Bool)) :=
  match collectValueInfos b pv field_coords initValueInfos with
  | none => none
  | some infos => placeUniqueValues infos b pv false (List.range' 1 (MAX_VALUE - 1))

/-- The three unit loops of `_solve_fast`, flattened over `allUnits`
(which lists rows, then cols, then 3x3 regions, exactly in the source's
order); `found` accumulates `found_something`. -/
def _solve_fast_units (b : Board) (pv : PossibleValues) (found : Bool) :
    List (List (Nat × Nat)) →
      Option (Except SolverError (Board × PossibleValues × Bool))
  | [] => some (.ok (b, pv, found))
  | u :: rest =>
    match _solve_fast_fields b pv u with
    | none => none
    | some (.error e) => some (.error e)
    | some (.ok (b', pv', f)) => _solve_fast_units b' pv' (found || f) rest

/-- `_solve_fast` (solver/mod.rs). -/
def _solve_fast (b : Board) (pv : PossibleValues) :
    Option (Except SolverError (Option (Board × PossibleValues))) :=
  match _solve_fast_units b pv false allUnits with
  | none => none
  | some (.error e) => some (.error e)
  | some (.ok (b', pv', found)) =>
    some (.ok (if found then some (b', pv') else none))

/-- The `for value in possible_values.possible_values_for_field(x, y)`
loop of `_solve`, with `sol` the `solution` accumulator and `solveRec`
the recursive call to `_solve` (passed explicitly so that `_solve` is
structurally recursive on its fuel).  Each branch undoes the tentative
placement (`board.field_mut(x, y).set(None)`) exactly where the source
does. -/
def solveGuessLoop
    (solveRec : Board → PossibleValues → Option (Board × Except SolverError Board)) :
    Board → PossibleValues → Nat → Nat → List Nat →
      Option Board → Option (Board × Except SolverError Board)
  | board, _, _, _, [], sol =>
    some (board, match sol with
      | some s => .ok s
      | none => .error .NotSolvable)
  | board, pv, x, y, value :: rest, sol =>
    if board.field x y ≠ 0 then none
    else
      match solveRec (board.setField x y value) (pv.remove_conflicting x y value) with
      | none => none
      | some (b2, .ok newSol) =>
        match sol with
        | none => solveGuessLoop solveRec (b2.setField x y 0) pv x y rest (some newSol)
        | some _ => some (b2.setField x y 0, .error .Ambigious)
      | some (b2, .error .Ambigious) => some (b2.setField x y 0, .error .Ambigious)
      | some (b2, .error .NotSolvable) =>
        solveGuessLoop solveRec (b2.setField x y 0) pv x y rest sol

/-- `_solve` (solver/mod.rs).  The returned `Board` is the final value of
the `&mut Board` argument (the function's documented invariant is that it
equals the argument at entry); the `Except` is the Rust return value.
`none` models a panic or fuel exhaustion (the Rust recursion depth is
bounded by the number of empty cells). -/
def _solve : Nat → Board → PossibleValues → Option (Board × Except SolverError Board)
  | 0, _, _ => none
  | fuel + 1, board, pv =>
    match _solve_fast board pv with
    | none => none
    | some (.error e) => some (board, .error e)
    | some (.ok (some (b', pv'))) =>
      match _solve fuel b' pv' with
      | none => none
      | some (_, r) => some (board, r)
    | some (.ok none) =>
      match board.first_empty_field_index with
      | none => some (board, .ok board)
      | some (x, y) =>
        solveGuessLoop (_solve fuel) board pv x y (pv.possible_values_for_field x y) none

/-- Sufficient fuel for `_solve`: its recursion depth is bounded by the
number of empty cells plus one. -/
def SOLVE_FUEL : Nat := NUM_FIELDS + 1

/-- `solve` (solver/mod.rs); the two `assert!`s on the solution are the
final `if`s (`none` = panic). -/
def solve (board : Board) : Option (Except SolverError Board) :=
  match _solve SOLVE_FUEL board (PossibleValues.from_board board) with
  | none => none
  | some (_, .error e) => some (.error e)
  | some (_, .ok solution) =>
    if solution.is_filled then
      if !solution.has_conflicts then some (.ok solution) else none
    else none

/-! ## Propagation strategies (solver/strategies.rs) and SolvingState
(solver/board_being_solved.rs)

`BoardBeingSolved` couples the board with its candidate set.  The Rust
functions mutate it in place; here each returns the new state paired with
the `SimpleSolverResult`, inside `Option` (`none` = panic or fuel
exhaustion).  The mutual recursion between
`set_empty_field_to_value_and_apply_simple_strategies` and
`solve_simple_strategies_triggered_by_modification` is bounded in Rust by
the shrinking number of empty cells; here the strategy helpers take the
recursive call (`setF`) as an explicit argument and
`set_empty_field_to_value_and_apply_simple_strategies` recurses
structurally on fuel. -/

structure BoardBeingSolved where
  board : Board
  possible_values : PossibleValues
deriving DecidableEq

inductive SimpleSolverResult where
  | FoundSomething
  | FoundNothing
  | NotSolvable
deriving DecidableEq

/-- The type of `set_empty_field_to_value_and_apply_simple_strategies`,
threaded through the strategy helpers as `setF`. -/
def SetFieldFn : Type :=
  BoardBeingSolved → Nat → Nat → Nat → Option (BoardBeingSolved × SimpleSolverResult)

/-- The loop-with-result-accumulator pattern every strategy function of
strategies.rs repeats: run `f` on each element in turn; `FoundSomething`
upgrades the accumulated result, `FoundNothing` keeps it, `NotSolvable`
returns immediately. -/
def runStrategySteps {α : Type} (f : BoardBeingSolved → α → Option (BoardBeingSolved × SimpleSolverResult)) :
    BoardBeingSolved → List α → SimpleSolverResult →
      Option (BoardBeingSolved × SimpleSolverResult)
  | s, [], acc => some (s, acc)
  | s, a :: rest, acc =>
    match f s a with
    | none => none
    | some (s', .FoundSomething) => runStrategySteps f s' rest .FoundSomething
    | some (s', .FoundNothing) => runStrategySteps f s' rest acc
    | some (s', .NotSolvable) => some (s', .NotSolvable)

/-- `_solve_known_values_for_field` (strategies.rs): fill the field if it
has exactly one possible value; `NotSolvable` if it has none. -/
def solveKnownValuesForField (setF : SetFieldFn) (s : BoardBeingSolved) (x y : Nat) :
    Option (BoardBeingSolved × SimpleSolverResult) :=
  if s.board.field x y = 0 then
    match s.possible_values.possible_values_for_field x y with
    | [] => some (s, .NotSolvable)
    | [value] =>
      match setF s x y value with
      | none => none
      | some (s', .FoundSomething) => some (s', .FoundSomething)
      | some (s', .FoundNothing) => some (s', .FoundSomething)
      | some (s', .NotSolvable) => some (s', .NotSolvable)
    | _ => some (s, .FoundNothing)
  else some (s, .FoundNothing)

/-- `solve_known_values` (strategies.rs): scan all 81 fields. -/
def solve_known_values (setF : SetFieldFn) (s : BoardBeingSolved) :
    Option (BoardBeingSolved × SimpleSolverResult) :=
  runStrategySteps (fun s c => solveKnownValuesForField setF s c.1 c.2) s allCoords
    .FoundNothing

/-- The fields checked by `solve_known_values_triggered_by_modification`:
the modified cell's row, then its column, then its 3x3 region. -/
def knownTriggerCoords (modification_x modification_y : Nat) : List (Nat × Nat) :=
  rowCoords modification_y ++ colCoords modification_x ++
    regionCoords (modification_x / 3) (modification_y / 3)

/-- `solve_known_values_triggered_by_modification` (strategies.rs). -/
def solve_known_values_triggered (setF : SetFieldFn) (s : BoardBeingSolved)
    (modification_x modification_y : Nat) :
    Option (BoardBeingSolved × SimpleSolverResult) :=
  runStrategySteps (fun s c => solveKnownValuesForField setF s c.1 c.2) s
    (knownTriggerCoords modification_x modification_y) .FoundNothing

inductive HiddenScanOutcome where
  | skip                    -- value already placed in the unit, or ≥ 2 possible cells
  | noPlacement             -- no cell of the unit can take the value
  | unique (c : Nat × Nat)  -- exactly one possible cell
deriving DecidableEq

/-- The per-value scan of `_solve_hidden_candidates` (strategies.rs):
find the place(s) where `value` can be put in the unit. -/
def hiddenScan (s : BoardBeingSolved) (value : Nat) :
    List (Nat × Nat) → Option (Nat × Nat) → HiddenScanOutcome
  | [], placement =>
    match placement with
    | none => .noPlacement
    | some c => .unique c
  | c :: rest, placement =>
    let cur := s.board.field c.1 c.2
    if cur = value then .skip
    else if cur = 0 then
      if s.possible_values.is_possible c.1 c.2 value then
        match placement with
        | none => hiddenScan s value rest (some c)
        | some _ => .skip
      else hiddenScan s value rest placement
    else hiddenScan s value rest placement

/-- One `value` iteration of `_solve_hidden_candidates`' outer loop. -/
def hiddenCandidateStep (setF : SetFieldFn) (coords : List (Nat × Nat))
    (s : BoardBeingSolved) (value : Nat) :
    Option (BoardBeingSolved × SimpleSolverResult) :=
  match hiddenScan s value coords none with
  | .skip => some (s, .FoundNothing)
  | .noPlacement => some (s, .NotSolvable)
  | .unique c =>
    match setF s c.1 c.2 value with
    | none => none
    | some (s', .FoundSomething) => some (s', .FoundSomething)
    | some (s', .FoundNothing) => some (s', .FoundSomething)
    | some (s', .NotSolvable) => some (s', .NotSolvable)

/-- `_solve_hidden_candidates` (strategies.rs): values `1..=MAX_VALUE`
(inclusive, unlike mod.rs's `_solve_fast_fields`). -/
def _solve_hidden_candidates (setF : SetFieldFn) (s : BoardBeingSolved)
    (field_coords : List (Nat × Nat)) :
    Option (BoardBeingSolved × SimpleSolverResult) :=
  runStrategySteps (hiddenCandidateStep setF field_coords) s (List.range' 1 MAX_VALUE)
    .FoundNothing

/-- `solve_hidden_candidates` (strategies.rs): all rows, then all
columns, then all 3x3 regions — the units of `allUnits`, in order. -/
def solve_hidden_candidates (setF : SetFieldFn) (s : BoardBeingSolved) :
    Option (BoardBeingSolved × SimpleSolverResult) :=
  runStrategySteps (fun s u => _solve_hidden_candidates setF s u) s allUnits .FoundNothing

/-- `_solve_hidden_candidates_triggered_by_modification` (strategies.rs):
only the modified cell's row, column and region. -/
def solve_hidden_candidates_triggered (setF : SetFieldFn) (s : BoardBeingSolved)
    (modification_x modification_y : Nat) :
    Option (BoardBeingSolved × SimpleSolverResult) :=
  runStrategySteps (fun s u => _solve_hidden_candidates setF s u) s
    [rowCoords modification_y, colCoords modification_x,
      regionCoords (modification_x / 3) (modification_y / 3)] .FoundNothing

/-- The result combination of `solve_simple_strategies` /
`solve_simple_strategies_triggered_by_modification`: the accumulated
`result` after both strategies ran without `NotSolvable`. -/
def SimpleSolverResult.combine : SimpleSolverResult → SimpleSolverResult → SimpleSolverResult
  | .FoundSomething, _ => .FoundSomething
  | _, .FoundSomething => .FoundSomething
  | _, _ => .FoundNothing

/-- `solve_simple_strategies` (strategies.rs), parameterised by `setF`. -/
def solve_simple_strategiesP (setF : SetFieldFn) (s : BoardBeingSolved) :
    Option (BoardBeingSolved × SimpleSolverResult) :=
  match solve_known_values setF s with
  | none => none
  | some (s1, .NotSolvable) => some (s1, .NotSolvable)
  | some (s1, r1) =>
    match solve_hidden_candidates setF s1 with
    | none => none
    | some (s2, .NotSolvable) => some (s2, .NotSolvable)
    | some (s2, r2) => some (s2, r1.combine r2)

/-- `solve_simple_strategies_triggered_by_modification` (strategies.rs),
parameterised by `setF`. -/
def solve_simple_strategies_triggeredP (setF : SetFieldFn) (s : BoardBeingSolved)
    (modification_x modification_y : Nat) :
    Option (BoardBeingSolved × SimpleSolverResult) :=
  match solve_known_values_triggered setF s modification_x modification_y with
  | none => none
  | some (s1, .NotSolvable) => some (s1, .NotSolvable)
  | some (s1, r1) =>
    match solve_hidden_candidates_triggered setF s1 modification_x modification_y with
    | none => none
    | some (s2, .NotSolvable) => some (s2, .NotSolvable)
    | some (s2, r2) => some (s2, r1.combine r2)

/-- `BoardBeingSolved::set_empty_field_to_value_and_apply_simple_strategies`
(board_being_solved.rs): assert the field is empty (`none` = panic), set
it, update the candidate set, then run the scoped strategies. -/
def set_empty_field_to_value_and_apply_simple_strategies :
    Nat → BoardBeingSolved → Nat → Nat → Nat →
      Option (BoardBeingSolved × SimpleSolverResult)
  | 0, _, _, _, _ => none
  | fuel + 1, s, x, y, value =>
    if s.board.field x y ≠ 0 then none
    else
      solve_simple_strategies_triggeredP
        (set_empty_field_to_value_and_apply_simple_strategies fuel)
        ⟨s.board.setField x y value, s.possible_values.remove_conflicting x y value⟩ x y

/-- `solve_simple_strategies` with the recursion knot tied at `fuel`. -/
def solve_simple_strategies (fuel : Nat) (s : BoardBeingSolved) :
    Option (BoardBeingSolved × SimpleSolverResult) :=
  solve_simple_strategiesP (set_empty_field_to_value_and_apply_simple_strategies fuel) s

/-- `solve_simple_strategies_triggered_by_modification` with the recursion
knot tied at `fuel`. -/
def solve_simple_strategies_triggered_by_modification (fuel : Nat) (s : BoardBeingSolved)
    (modification_x modification_y : Nat) :
    Option (BoardBeingSolved × SimpleSolverResult) :=
  solve_simple_strategies_triggeredP
    (set_empty_field_to_value_and_apply_simple_strategies fuel) s
    modification_x modification_y

/-- Sufficient fuel for the strategies: each nested
`set_empty_field_to_value_and_apply_simple_strategies` call fills one of
the at most 81 empty cells. -/
def STRATEGY_FUEL : Nat := NUM_FIELDS + 1

/-! ## The stack-based enumerating solver (solver/solver.rs), with the
`GuessFirstPossibleValue` policy used by `Solver` -/

/-- `SolverImpl::board_stack`; the list head is the stack top. -/
def BoardStack : Type := List (Board × PossibleValues)

/-- `SolverImpl::push` (solver.rs).  Its `solve_simple_strategies(board,
possible_values)` call takes the state by value and receives the new
state inside `FoundSomething`; that corresponds to running
strategies.rs's in-place `solve_simple_strategies` on
`⟨board, possible_values⟩` and returning its final state. -/
def SolverImpl.push (stack : BoardStack) (board : Board) (pv : PossibleValues) :
    Option BoardStack :=
  match solve_simple_strategies STRATEGY_FUEL ⟨board, pv⟩ with
  | none => none
  | some (s', .FoundSomething) => some ((s'.board, s'.possible_values) :: stack)
  | some (_, .FoundNothing) => some ((board, pv) :: stack)
  | some (_, .NotSolvable) => some stack

/-- `SolverImpl::new` (solver.rs). -/
def SolverImpl.new (board : Board) : Option BoardStack :=
  SolverImpl.push [] board (PossibleValues.from_board board)

/-- `SolverImpl::next_solution` (solver.rs) with the first-candidate
guess policy; the returned pair is (solution if any, remaining stack).
The loop is fuel-bounded; `none` = panic or fuel exhaustion. -/
def SolverImpl.next_solution : Nat → BoardStack → Option (Option Board × BoardStack)
  | 0, _ => none
  | fuel + 1, stack =>
    match stack with
    | [] => some (none, [])
    | (board, pv) :: rest =>
      match board.first_empty_field_index with
      | none => some (some board, rest)
      | some (x, y) =>
        match pv.first_possible_value_for_field x y with
        | none => SolverImpl.next_solution fuel rest
        | some value =>
          match pv.remove x y value with
          | none => none
          | some pv_excl =>
            if board.field x y ≠ 0 then none
            else
              match SolverImpl.push ((board, pv_excl) :: rest)
                  (board.setField x y value) (pv.remove_conflicting x y value) with
              | none => none
              | some stack' => SolverImpl.next_solution fuel stack'

/-- Iteration fuel for one `next_solution` call (each loop iteration
either pops the stack or clears one candidate bit, so the total over a
whole enumeration is far below this). -/
def NEXT_SOLUTION_FUEL : Nat := 1000000

/-- Enumerating all solutions: repeated `next_solution` calls until it
returns `None` (the test pattern of solver.rs's `solve_ambigious`). -/
def SolverImpl.all_solutions : Nat → BoardStack → Option (List Board)
  | 0, _ => none
  | fuel + 1, stack =>
    match SolverImpl.next_solution NEXT_SOLUTION_FUEL stack with
    | none => none
    | some (none, _) => some []
    | some (some b, stack') =>
      match SolverImpl.all_solutions fuel stack' with
      | none => none
      | some l => some (b :: l)

/-! ## Puzzle generator (generator.rs) -/

/-- `is_ambigious` (generator.rs).  The source's `SolverError::Conflicting`
match arm names a variant that does not exist in solver/mod.rs's
`SolverError` (the repository's files are from different snapshots of the
crate); the arms that exist are modelled: `NotSolvable` panics,
`Ambigious` is `true`, `Ok` is `false`. -/
def is_ambigious (b : Board) : Option Bool :=
  match solve b with
  | none => none
  | some (.error .NotSolvable) => none
  | some (.error .Ambigious) => some true
  | some (.ok _) => some false

/-- `remove_field_if_unambigious` (generator.rs): tentatively clear the
field; restore it if the board becomes ambiguous. -/
def remove_field_if_unambigious (b : Board) (x y : Nat) : Option (Board × Bool) :=
  let value := b.field x y
  if value = 0 then some (b, false)
  else
    let cleared := b.setField x y 0
    match is_ambigious cleared with
    | none => none
    | some true => some (cleared.setField x y value, false)
    | some false => some (cleared, true)

/-- The removal loop of `generate` (generator.rs). -/
def generateLoop : Board → List (Nat × Nat) → Option Board
  | b, [] => some b
  | b, c :: rest =>
    match remove_field_if_unambigious b c.1 c.2 with
    | none => none
    | some (b', _) => generateLoop b' rest

/-- `generate` (generator.rs), parameterised by the full solution and the
shuffled field order (i.e. the random-number-generator state).
`generate_solved` is not among the source files; modelled from the spec:
it "runs the Search Engine from an empty board with the random-candidate
policy and returns the first (only requested) solution" — a completely
filled, conflict-free board, which theorems about `generate` take as
hypotheses on the `solved` argument.  The final
`assert!(solve(board).is_ok())` is the closing match. -/
def generate (solved : Board) (shuffled_fields : List (Nat × Nat)) : Option Board :=
  match generateLoop solved shuffled_fields with
  | none => none
  | some b =>
    match solve b with
    | some (.ok _) => some b
    | _ => none

/-- The boards passed to (possibly parallel) recursive `_remove_max`
calls (generator.rs): the root and every board produced by a successful
`remove_field_if_unambigious`.  The shuffle and the rayon scheduling
affect only the *order* in which these boards are visited, not this
set — `remove_field_if_unambigious` depends only on the board. -/
inductive RemoveMaxReachable (root : Board) : Board → Prop
  | root : RemoveMaxReachable root root
  | step {b b' : Board} {x y : Nat} : RemoveMaxReachable root b →
      x < 9 → y < 9 →
      remove_field_if_unambigious b x y = some (b', true) →
      RemoveMaxReachable root b'

/-- The recorded-best lower bound that survives any rayon scheduling: the
top-level `_remove_max` call offers every successful single-removal board
to the mutex-guarded best (which is replaced only when strictly greater,
so its count never decreases), hence the final best count dominates the
`num_empty` of each such board. -/
def depth1RemovalBound (solved B : Board) : Bool :=
  allCoords.all fun c =>
    match remove_field_if_unambigious solved c.1 c.2 with
    | some (b', true) => b'.num_empty ≤ B.num_empty
    | _ => true

/-- `generate_max_empty` (generator.rs), modelled relationally because of
its concurrency: this predicate over-approximates the function's possible
return values — everything it states is guaranteed of any board the
concurrent search can return, for every scheduling and shuffle.  The
returned board is one of the recursion's entry boards
(`RemoveMaxReachable`); the mutex-guarded best count only grows and every
top-level single-removal board is offered to it (`depth1RemovalBound` —
the code in fact guarantees domination over *all* reachable boards, but
that stronger fact is not needed for the claim); and the final
`assert!(solve(board).is_ok())` must succeed. -/
def generate_max_empty_returns (solved B : Board) : Prop :=
  RemoveMaxReachable solved B ∧ depth1RemovalBound solved B = true ∧
    (∃ s, solve B = some (.ok s))

/-! ## Concrete boards and states used by the literal claims -/

/-- The scenario-1 board of spec §8 (solver/mod.rs test `solvable_difficult`). -/
def difficultBoard : Board := Board.fromCells [
  0,0,4, 6,8,0, 0,1,9,
  0,0,3, 0,0,9, 2,0,5,
  0,6,0, 0,0,0, 0,0,4,
  6,0,0, 0,0,0, 7,0,2,
  0,0,0, 0,0,7, 0,0,0,
  0,0,0, 9,0,0, 0,0,1,
  8,0,0, 0,5,0, 0,0,7,
  0,4,1, 3,0,8, 0,0,0,
  0,2,0, 0,9,1, 0,0,0]

/-- Its unique solution per spec §8. -/
def expectedSolution : Board := Board.fromCells [
  2,7,4, 6,8,5, 3,1,9,
  1,8,3, 7,4,9, 2,6,5,
  9,6,5, 1,2,3, 8,7,4,
  6,1,8, 5,3,4, 7,9,2,
  4,9,2, 8,1,7, 6,5,3,
  3,5,7, 9,6,2, 4,8,1,
  8,3,9, 2,5,6, 1,4,7,
  5,4,1, 3,7,8, 9,2,6,
  7,2,6, 4,9,1, 5,3,8]

/-- The scenario-3 board: row 1 changed to `__4 6__ _19` (solver tests
`ambigious` / `solve_ambigious`). -/
def ambiguousBoard : Board := Board.fromCells [
  0,0,4, 6,0,0, 0,1,9,
  0,0,3, 0,0,9, 2,0,5,
  0,6,0, 0,0,0, 0,0,4,
  6,0,0, 0,0,0, 7,0,2,
  0,0,0, 0,0,7, 0,0,0,
  0,0,0, 9,0,0, 0,0,1,
  8,0,0, 0,5,0, 0,0,7,
  0,4,1, 3,0,8, 0,0,0,
  0,2,0, 0,9,1, 0,0,0]

/-- The enumeration of all solutions of `ambiguousBoard` via the Search
Engine (claim C8). -/
def c8Enumeration : Option (List Board) :=
  match SolverImpl.new ambiguousBoard with
  | none => none
  | some stack => SolverImpl.all_solutions 11 stack

/-- The ten solutions of `ambiguousBoard`, in the order the Search
Engine (first-candidate policy) yields them. -/
def c8ExpectedSolutions : List Board := [
  Board.fromCells [
    2,5,4, 6,7,3, 8,1,9,
    1,7,3, 8,4,9, 2,6,5,
    9,6,8, 2,1,5, 3,7,4,
    6,9,5, 1,8,4, 7,3,2,
    3,1,2, 5,6,7, 9,4,8,
    4,8,7, 9,3,2, 6,5,1,
    8,3,9, 4,5,6, 1,2,7,
    7,4,1, 3,2,8, 5,9,6,
    5,2,6, 7,9,1, 4,8,3],
  Board.fromCells [
    2,8,4, 6,7,5, 3,1,9,
    1,7,3, 8,4,9, 2,6,5,
    9,6,5, 2,1,3, 8,7,4,
    6,1,8, 5,3,4, 7,9,2,
    3,9,2, 1,6,7, 5,4,8,
    4,5,7, 9,8,2, 6,3,1,
    8,3,9, 4,5,6, 1,2,7,
    7,4,1, 3,2,8, 9,5,6,
    5,2,6, 7,9,1, 4,8,3],
  Board.fromCells [
    2,8,4, 6,7,5, 3,1,9,
    1,7,3, 8,4,9, 2,6,5,
    9,6,5, 2,1,3, 8,7,4,
    6,9,8, 1,3,4, 7,5,2,
    3,1,2, 5,6,7, 9,4,8,
    4,5,7, 9,8,2, 6,3,1,
    8,3,9, 4,5,6, 1,2,7,
    7,4,1, 3,2,8, 5,9,6,
    5,2,6, 7,9,1, 4,8,3],
  Board.fromCells [
    2,7,4, 6,8,5, 3,1,9,
    1,8,3, 7,4,9, 2,6,5,
    9,6,5, 1,2,3, 8,7,4,
    6,1,8, 5,3,4, 7,9,2,
    4,9,2, 8,1,7, 6,5,3,
    3,5,7, 9,6,2, 4,8,1,
    8,3,9, 2,5,6, 1,4,7,
    5,4,1, 3,7,8, 9,2,6,
    7,2,6, 4,9,1, 5,3,8],
  Board.fromCells [
    2,5,4, 6,7,3, 8,1,9,
    1,7,3, 8,4,9, 2,6,5,
    9,6,8, 2,1,5, 3,7,4,
    6,9,5, 1,3,4, 7,8,2,
    4,1,2, 5,8,7, 6,9,3,
    3,8,7, 9,6,2, 5,4,1,
    8,3,9, 4,5,6, 1,2,7,
    7,4,1, 3,2,8, 9,5,6,
    5,2,6, 7,9,1, 4,3,8],
  Board.fromCells [
    2,5,4, 6,7,3, 8,1,9,
    1,7,3, 8,4,9, 2,6,5,
    9,6,8, 2,1,5, 3,7,4,
    6,9,5, 1,8,4, 7,3,2,
    4,1,2, 5,3,7, 6,9,8,
    3,8,7, 9,6,2, 5,4,1,
    8,3,9, 4,5,6, 1,2,7,
    7,4,1, 3,2,8, 9,5,6,
    5,2,6, 7,9,1, 4,8,3],
  Board.fromCells [
    2,8,4, 6,7,5, 3,1,9,
    1,7,3, 8,4,9, 2,6,5,
    9,6,5, 2,1,3, 8,7,4,
    6,1,8, 5,3,4, 7,9,2,
    4,9,2, 1,6,7, 5,3,8,
    3,5,7, 9,8,2, 6,4,1,
    8,3,9, 4,5,6, 1,2,7,
    7,4,1, 3,2,8, 9,5,6,
    5,2,6, 7,9,1, 4,8,3],
  Board.fromCells [
    2,8,4, 6,7,5, 3,1,9,
    1,7,3, 8,4,9, 2,6,5,
    9,6,5, 2,1,3, 8,7,4,
    6,1,8, 5,3,4, 7,9,2,
    4,9,2, 1,6,7, 5,8,3,
    3,5,7, 9,8,2, 6,4,1,
    8,3,9, 4,5,6, 1,2,7,
    7,4,1, 3,2,8, 9,5,6,
    5,2,6, 7,9,1, 4,3,8],
  Board.fromCells [
    2,8,4, 6,7,5, 3,1,9,
    1,7,3, 8,4,9, 2,6,5,
    9,6,5, 2,1,3, 8,7,4,
    6,9,8, 1,3,4, 7,5,2,
    4,1,2, 5,6,7, 9,3,8,
    3,5,7, 9,8,2, 6,4,1,
    8,3,9, 4,5,6, 1,2,7,
    7,4,1, 3,2,8, 5,9,6,
    5,2,6, 7,9,1, 4,8,3],
  Board.fromCells [
    2,8,4, 6,7,5, 3,1,9,
    1,7,3, 8,4,9, 2,6,5,
    9,6,5, 2,1,3, 8,7,4,
    6,9,8, 1,3,4, 7,5,2,
    4,1,2, 5,6,7, 9,8,3,
    3,5,7, 9,8,2, 6,4,1,
    8,3,9, 4,5,6, 1,2,7,
    7,4,1, 3,2,8, 5,9,6,
    5,2,6, 7,9,1, 4,3,8]]

/-- The solution list of the claim-C8 enumeration (empty if the
enumeration fails, which `claim_C8` rules out). -/
def c8Solutions : List Board := c8Enumeration.getD []

/-- A board for claim C2: row 0 holds digits 1..8 at x = 1..8 and cell
(0,0) is empty, so digit 9 is not placed in row 0 and (0,0) is the only
cell of row 0 that can hold it (a hidden single for digit 9). -/
def c2Board : Board := Board.fromCells [
  0,1,2, 3,4,5, 6,7,8,
  0,0,0, 0,0,0, 0,0,0,
  0,0,0, 0,0,0, 0,0,0,
  0,0,0, 0,0,0, 0,0,0,
  0,0,0, 0,0,0, 0,0,0,
  0,0,0, 0,0,0, 0,0,0,
  0,0,0, 0,0,0, 0,0,0,
  0,0,0, 0,0,0, 0,0,0,
  0,0,0, 0,0,0, 0,0,0]

def c2State : BoardBeingSolved := ⟨c2Board, PossibleValues.from_board c2Board⟩

/-- A board for claim C3: digit 1 placed at (x, y) positions
(0,0), (3,1), (6,2), (1,3), (7,5), (2,6), (5,7), (8,8) — one per row,
column and region except row 4, column 4 and the centre region.  In the
derived state, row 4 has a hidden single (digit 1 at (4,4)) that the full
scan finds but the scan scoped to the modification (0,0) does not. -/
def c3Board : Board := Board.fromCells [
  1,0,0, 0,0,0, 0,0,0,
  0,0,0, 1,0,0, 0,0,0,
  0,0,0, 0,0,0, 1,0,0,
  0,1,0, 0,0,0, 0,0,0,
  0,0,0, 0,0,0, 0,0,0,
  0,0,0, 0,0,0, 0,1,0,
  0,0,1, 0,0,0, 0,0,0,
  0,0,0, 0,0,1, 0,0,0,
  0,0,0, 0,0,0, 0,0,1]

def c3State : BoardBeingSolved := ⟨c3Board, PossibleValues.from_board c3Board⟩

/-- A board for claim C4: cell (0,0) is empty but has zero candidates
(its row holds 1..8 and its column holds 9), while no cell has exactly one
candidate and no unit has a digit with exactly one possible cell. -/
def c4Board : Board := Board.fromCells [
  0,1,2, 3,4,5, 6,7,8,
  9,0,0, 0,0,0, 0,0,0,
  0,0,0, 0,0,0, 0,0,0,
  0,0,0, 0,0,0, 0,0,0,
  0,0,0, 0,0,0, 0,0,0,
  0,0,0, 0,0,0, 0,0,0,
  0,0,0, 0,0,0, 0,0,0,
  0,0,0, 0,0,0, 0,0,0,
  0,0,0, 0,0,0, 0,0,0]

def c4State : BoardBeingSolved := ⟨c4Board, PossibleValues.from_board c4Board⟩

/-! ## Stability predicates for claim C4 -/

/-- Number of candidates of cell `(x, y)`. -/
def candidateCount (s : BoardBeingSolved) (x y : Nat) : Nat :=
  (s.possible_values.possible_values_for_field x y).length

/-- How many cells of `coords` could take `value` according to the
hidden-single scan: empty cells whose candidate bit for `value` is set. -/
def placementCount (s : BoardBeingSolved) (coords : List (Nat × Nat)) (value : Nat) : Nat :=
  coords.countP fun c =>
    s.board.field c.1 c.2 == 0 && s.possible_values.is_possible c.1 c.2 value

def valuePlacedInUnit (s : BoardBeingSolved) (coords : List (Nat × Nat)) (value : Nat) : Bool :=
  coords.any fun c => s.board.field c.1 c.2 == value

/-- The stability precondition exactly as claim C4 states it: no empty
cell has exactly one remaining candidate, and no unit has a hidden single
(an unplaced digit with exactly one possible cell). -/
def claimStable (s : BoardBeingSolved) : Bool :=
  (allCoords.all fun c =>
    !(s.board.field c.1 c.2 == 0) || !(candidateCount s c.1 c.2 == 1)) &&
  (allUnits.all fun u => (List.range' 1 MAX_VALUE).all fun v =>
    valuePlacedInUnit s u v || !(placementCount s u v == 1))

/-- The amended stability precondition: additionally, no empty cell has
*zero* candidates and no unit has an unplaced digit with *zero* possible
cells (either of those makes the engine return `NotSolvable` instead of
`FoundNothing`, refuting C4 as stated). -/
def claimStableAmended (s : BoardBeingSolved) : Bool :=
  claimStable s &&
  (allCoords.all fun c =>
    !(s.board.field c.1 c.2 == 0) || !(candidateCount s c.1 c.2 == 0)) &&
  (allUnits.all fun u => (List.range' 1 MAX_VALUE).all fun v =>
    valuePlacedInUnit s u v || !(placementCount s u v == 0))


/-! ## Literal intermediate states of the scenario-3 solution enumeration -/

def c8Stack0 : BoardStack := [(Board.mk 859927142786460101137117297970309689217425809902928240885439327987329428073238349714120836671744, PossibleValues.mk 728066104164592961428902321674596914978861761211706647374628768371275050314642844886247230855592121468473025104004668849674264636680324351979932364783683574977607306606034773387552574005813596123640223421327142604800594)]
def c8Sol1 : Board := Board.mk 7268148991420589563207345082519818039118040228127765561694670643609260255979702979613384480352530
def c8Stack1 : BoardStack := [(Board.mk 7268148991403067511497046292889166670715537105001764961050324183118451673806045287998472193272082, PossibleValues.mk 1211898638031452177992939315866299611665321669612067008926701650186378530043460026534538205889721673426308792158582117360357292043192651848485753763439739266643791288357434077498711617772191744), (Board.mk 7268148991402822780746118098604773557528672791919050589020662593844569239302538519855658852116754, PossibleValues.mk 55970184088243400247253262617842302024020874807732035188646931831211879502306562900026764714239723607763106275927019852909528509533071381805789977353268199954999809767508529394685796390495354960), (Board.mk 859927142786460101137117297970309689217425809902928240885439327987330047043257992404258286233874, PossibleValues.mk 728066104164592961428902321674596914978861761211706647374628768371275050314642844886235874000524837346815994352659595616883956958467100252253060952822701947002285447874896160565639712653311110407913682673673151874891856), (Board.mk 859927142786460101137117297970309689217425809902928240885439327987330047043257992404258286233858, PossibleValues.mk 728066104164592961428902321674596914978861761211706647374628768371275050314642844886235874000524837346815994352659595634381962756731195647233086006769250202089854868207158694966045393306977341601413687960860429612515408), (Board.mk 859927142786460101137117297970309689217425809902928240885439327987329428073238349714120836671744, PossibleValues.mk 728066104164592961428902321674596914978861761211706647374628768371275050314642844886247230855592121468473025104004668849674264636680324351979932364783683574977607306606034773387552574005813596123640223421327142604800592)]
def c8Sol2 : Board := Board.mk 7268148991412803888394483771984883405111099088835855644538283203110467425603339710449070714874130
def c8Stack2 : BoardStack := [(Board.mk 7268148991403090277148127063367712018373153102271817624757543502143742383429138326923449215445266, PossibleValues.mk 1211898298102876924004346606790205416342153391254710189233437437988016933827923400948930036135836361560525745895873977386447743036236897248756796906901241296443502797225246012101885488814620672), (Board.mk 7268148991403067511497046292889166670715537105001764961050324183118451673806045287998472193272082, PossibleValues.mk 1211898638031452177992939315866299611665321669612067008926701650186378530043460026534538205889721673426308792158582117360357292043192651848485753763439739266643791288047949067677366549047410688), (Board.mk 7268148991402822780746118098604773557528672791919050589020662593844569239302538519855658852116754, PossibleValues.mk 55970184088243400247253262617842302024020874807732035188646931831211879502306562900026764714239723607763106275927019852909528509533071381805789977353268199954999809767508529394685796390495354960), (Board.mk 859927142786460101137117297970309689217425809902928240885439327987330047043257992404258286233874, PossibleValues.mk 728066104164592961428902321674596914978861761211706647374628768371275050314642844886235874000524837346815994352659595616883956958467100252253060952822701947002285447874896160565639712653311110407913682673673151874891856), (Board.mk 859927142786460101137117297970309689217425809902928240885439327987330047043257992404258286233858, PossibleValues.mk 728066104164592961428902321674596914978861761211706647374628768371275050314642844886235874000524837346815994352659595634381962756731195647233086006769250202089854868207158694966045393306977341601413687960860429612515408), (Board.mk 859927142786460101137117297970309689217425809902928240885439327987329428073238349714120836671744, PossibleValues.mk 728066104164592961428902321674596914978861761211706647374628768371275050314642844886247230855592121468473025104004668849674264636680324351979932364783683574977607306606034773387552574005813596123640223421327142604800592)]
def c8Sol3 : Board := Board.mk 7268148991420574445392174258651616709566866334264983532469196068094320042858329935986680580499730
def c8Stack3 : BoardStack := [(Board.mk 7268148991403090277148127063367712018373153102271817624757543502143742383429138326923449215445266, PossibleValues.mk 1211898298102876924004346606790205416342153391254710189233437437988016933827923400948930036135836361560525745895873977386447743036236897248756796906901241296360426047488688770045397547547099136), (Board.mk 7268148991403067511497046292889166670715537105001764961050324183118451673806045287998472193272082, PossibleValues.mk 1211898638031452177992939315866299611665321669612067008926701650186378530043460026534538205889721673426308792158582117360357292043192651848485753763439739266643791288047949067677366549047410688), (Board.mk 7268148991402822780746118098604773557528672791919050589020662593844569239302538519855658852116754, PossibleValues.mk 55970184088243400247253262617842302024020874807732035188646931831211879502306562900026764714239723607763106275927019852909528509533071381805789977353268199954999809767508529394685796390495354960), (Board.mk 859927142786460101137117297970309689217425809902928240885439327987330047043257992404258286233874, PossibleValues.mk 728066104164592961428902321674596914978861761211706647374628768371275050314642844886235874000524837346815994352659595616883956958467100252253060952822701947002285447874896160565639712653311110407913682673673151874891856), (Board.mk 859927142786460101137117297970309689217425809902928240885439327987330047043257992404258286233858, PossibleValues.mk 728066104164592961428902321674596914978861761211706647374628768371275050314642844886235874000524837346815994352659595634381962756731195647233086006769250202089854868207158694966045393306977341601413687960860429612515408), (Board.mk 859927142786460101137117297970309689217425809902928240885439327987329428073238349714120836671744, PossibleValues.mk 728066104164592961428902321674596914978861761211706647374628768371275050314642844886247230855592121468473025104004668849674264636680324351979932364783683574977607306606034773387552574005813596123640223421327142604800592)]
def c8Sol4 : Board := Board.mk 17947921207978287274076134429137620188911756639759194834696723929627466382311627650795888509741330
def c8Stack4 : BoardStack := [(Board.mk 859927142786460101137117297970309689217425809902928240885439327987330047043257992404258289641746, PossibleValues.mk 728066104000213714505515649573315912887625663458686346924291815221756703173881331553089297482993401738881205367655132807946194722589742267645716622523554563579167028815665595492370785825899286436922725673214380406243408), (Board.mk 859927142786460101137117297970309689217425809902928240885439327987330047043257992404258286233874, PossibleValues.mk 728066104164592961428902321674596914978861761211706647374628768371275050314642844886235874000524837346815994352659595616883956958467100252253060952822701947002285447874896160565639712653311110407913682673672602119077968), (Board.mk 859927142786460101137117297970309689217425809902928240885439327987330047043257992404258286233858, PossibleValues.mk 728066104164592961428902321674596914978861761211706647374628768371275050314642844886235874000524837346815994352659595634381962756731195647233086006769250202089854868207158694966045393306977341601413687960860429612515408), (Board.mk 859927142786460101137117297970309689217425809902928240885439327987329428073238349714120836671744, PossibleValues.mk 728066104164592961428902321674596914978861761211706647374628768371275050314642844886247230855592121468473025104004668849674264636680324351979932364783683574977607306606034773387552574005813596123640223421327142604800592)]
def c8Sol5 : Board := Board.mk 17947921207983843960434205390080465427038444763812024303429007949764502059167224719677376234285330
def c8Stack5 : BoardStack := [(Board.mk 859927142796450901972857101903302461064171909152269322485566492550420424575247658212410277521682, PossibleValues.mk 728066098740077772464655547716692928884604206994420897284246261344137149845675410083318422636223769084033128491937011727895729454815127244513071739326734844733649096717128415928698972527671898750265380519613084158918656), (Board.mk 859927142786702934748645514104174625194763257198414531016379116772957853571594278205827025496338, PossibleValues.mk 728066104000213714428970561335771957852198581545138433521469661126320692904836822698867234844719279899019086950665382444115332679507635139118077164043185522917698520746031024506709858949696170035782081105426375700905984), (Board.mk 859927142786460101137117297970309689217425809902928240885439327987330047043257992404258289641746, PossibleValues.mk 728066104000213714505515649573315912887625663458686346924291815221756703173881331553089297482993401738881205367655132807946194722589742267645716622523554563579167028815665595492370785825899286436922135377404021700591696), (Board.mk 859927142786460101137117297970309689217425809902928240885439327987330047043257992404258286233874, PossibleValues.mk 728066104164592961428902321674596914978861761211706647374628768371275050314642844886235874000524837346815994352659595616883956958467100252253060952822701947002285447874896160565639712653311110407913682673672602119077968), (Board.mk 859927142786460101137117297970309689217425809902928240885439327987330047043257992404258286233858, PossibleValues.mk 728066104164592961428902321674596914978861761211706647374628768371275050314642844886235874000524837346815994352659595634381962756731195647233086006769250202089854868207158694966045393306977341601413687960860429612515408), (Board.mk 859927142786460101137117297970309689217425809902928240885439327987329428073238349714120836671744, PossibleValues.mk 728066104164592961428902321674596914978861761211706647374628768371275050314642844886247230855592121468473025104004668849674264636680324351979932364783683574977607306606034773387552574005813596123640223421327142604800592)]
def c8Sol6 : Board := Board.mk 7268148991412813670510182436796604414652826970904273434607452984140495030388050272532034028333330
def c8Stack6 : BoardStack := [(Board.mk 859927142796450901972857101903302461064171909152269322485566492550420424575247658212410277521682, PossibleValues.mk 728066098740077772464655547716692928884604206994420897284246261344137149845675410083318422636223769084033128491349876082202271147842757095315737482482814207506569129040305673045646716249019787884340630923420908400934912), (Board.mk 859927142786702934748645514104174625194763257198414531016379116772957853571594278205827025496338, PossibleValues.mk 728066104000213714428970561335771957852198581545138433521469661126320692904836822698867234844719279899019086950665382444115332679507635139118077164043185522917698520746031024506709858949696170035782081105426375700905984), (Board.mk 859927142786460101137117297970309689217425809902928240885439327987330047043257992404258289641746, PossibleValues.mk 728066104000213714505515649573315912887625663458686346924291815221756703173881331553089297482993401738881205367655132807946194722589742267645716622523554563579167028815665595492370785825899286436922135377404021700591696), (Board.mk 859927142786460101137117297970309689217425809902928240885439327987330047043257992404258286233874, PossibleValues.mk 728066104164592961428902321674596914978861761211706647374628768371275050314642844886235874000524837346815994352659595616883956958467100252253060952822701947002285447874896160565639712653311110407913682673672602119077968), (Board.mk 859927142786460101137117297970309689217425809902928240885439327987330047043257992404258286233858, PossibleValues.mk 728066104164592961428902321674596914978861761211706647374628768371275050314642844886235874000524837346815994352659595634381962756731195647233086006769250202089854868207158694966045393306977341601413687960860429612515408), (Board.mk 859927142786460101137117297970309689217425809902928240885439327987329428073238349714120836671744, PossibleValues.mk 728066104164592961428902321674596914978861761211706647374628768371275050314642844886247230855592121468473025104004668849674264636680324351979932364783683574977607306606034773387552574005813596123640223421327142604800592)]
def c8Sol7 : Board := Board.mk 7268148991412811002660446512691930229312418022620914149446141060066722009877301156631755791558930
def c8Stack7 : BoardStack := [(Board.mk 859927142796446900198253163916056996186015660789326823384689380511062566427637761721674352584978, PossibleValues.mk 728066098740057079581551331102239261023165812403722572727867573725336723192028156960333094621884216015964858074136367248377264788227691611850805613032237399627909453479794962892371727539585641511445816007124040479145984), (Board.mk 859927142786733288951896455298885609448069674225288803603949679544337524253436378196052853156114, PossibleValues.mk 728066098740057079581551332314137559258827234612260954190470041705607271279136625625528513409762184393989148988279464069004251915060758924947115371041605689701451536649768679645993018674735276722649645817857834051698688), (Board.mk 859927142786702934748645514104174625194763257198414531016379116772957853571594278205827025496338, PossibleValues.mk 728066104000213714428970561335771957852198581545138433521469661126320692904836822698867234844719279899019086950665382444115332679507635139118077164043185522917698520746031024506709858949696169726297071284081306976124928), (Board.mk 859927142786460101137117297970309689217425809902928240885439327987330047043257992404258289641746, PossibleValues.mk 728066104000213714505515649573315912887625663458686346924291815221756703173881331553089297482993401738881205367655132807946194722589742267645716622523554563579167028815665595492370785825899286436922135377404021700591696), (Board.mk 859927142786460101137117297970309689217425809902928240885439327987330047043257992404258286233874, PossibleValues.mk 728066104164592961428902321674596914978861761211706647374628768371275050314642844886235874000524837346815994352659595616883956958467100252253060952822701947002285447874896160565639712653311110407913682673672602119077968), (Board.mk 859927142786460101137117297970309689217425809902928240885439327987330047043257992404258286233858, PossibleValues.mk 728066104164592961428902321674596914978861761211706647374628768371275050314642844886235874000524837346815994352659595634381962756731195647233086006769250202089854868207158694966045393306977341601413687960860429612515408), (Board.mk 859927142786460101137117297970309689217425809902928240885439327987329428073238349714120836671744, PossibleValues.mk 728066104164592961428902321674596914978861761211706647374628768371275050314642844886247230855592121468473025104004668849674264636680324351979932364783683574977607306606034773387552574005813596123640223421327142604800592)]
def c8Sol8 : Board := Board.mk 17947921207983843515792582822446743374260947982329645012126412998560478823588730979054549900486930
def c8Stack8 : BoardStack := [(Board.mk 859927142796446900198253163916056996186015660789326823384689380511062566427637761721674352584978, PossibleValues.mk 728066098740057079581551331102239256774061869869585783211161921305587704555283215144077709026331110412736379187318425335077246666393406260736169723060229276855274752258137047616211897406886825960795649323978288225320960), (Board.mk 859927142786733288951896455298885609448069674225288803603949679544337524253436378196052853156114, PossibleValues.mk 728066098740057079581551332314137559258827234612260954190470041705607271279136625625528513409762184393989148988279464069004251915060758924947115371041605689701451536649768679645993018674735276722649645817857834051698688), (Board.mk 859927142786702934748645514104174625194763257198414531016379116772957853571594278205827025496338, PossibleValues.mk 728066104000213714428970561335771957852198581545138433521469661126320692904836822698867234844719279899019086950665382444115332679507635139118077164043185522917698520746031024506709858949696169726297071284081306976124928), (Board.mk 859927142786460101137117297970309689217425809902928240885439327987330047043257992404258289641746, PossibleValues.mk 728066104000213714505515649573315912887625663458686346924291815221756703173881331553089297482993401738881205367655132807946194722589742267645716622523554563579167028815665595492370785825899286436922135377404021700591696), (Board.mk 859927142786460101137117297970309689217425809902928240885439327987330047043257992404258286233874, PossibleValues.mk 728066104164592961428902321674596914978861761211706647374628768371275050314642844886235874000524837346815994352659595616883956958467100252253060952822701947002285447874896160565639712653311110407913682673672602119077968), (Board.mk 859927142786460101137117297970309689217425809902928240885439327987330047043257992404258286233858, PossibleValues.mk 728066104164592961428902321674596914978861761211706647374628768371275050314642844886235874000524837346815994352659595634381962756731195647233086006769250202089854868207158694966045393306977341601413687960860429612515408), (Board.mk 859927142786460101137117297970309689217425809902928240885439327987329428073238349714120836671744, PossibleValues.mk 728066104164592961428902321674596914978861761211706647374628768371275050314642844886247230855592121468473025104004668849674264636680324351979932364783683574977607306606034773387552574005813596123640223421327142604800592)]
def c8Sol9 : Board := Board.mk 7268148991420581559658136999358663533768185268050042037377053925050574627132291382169365657184530
def c8Stack9 : BoardStack := [(Board.mk 859927142804217457195943650582790300641782906218454711315602245494915183682627987259284218210578, PossibleValues.mk 728066098740057079581551331102239261023165812403722572727867573725336723192028156960333094621884216015964858074136367248377264788227691611850805613032237399627909453479794962892371727539585641511445816007124040479145984), (Board.mk 859927142786733288951896455298885609448069674225288803603949679544337524253436378196052853156114, PossibleValues.mk 728066098740057079581551332314137559258827234612260954190470041705607271279136625625528513409762184393989148988279464069004251915060758924947115371041605689701451536649768679645993018591658526986092403761369892784177152), (Board.mk 859927142786702934748645514104174625194763257198414531016379116772957853571594278205827025496338, PossibleValues.mk 728066104000213714428970561335771957852198581545138433521469661126320692904836822698867234844719279899019086950665382444115332679507635139118077164043185522917698520746031024506709858949696169726297071284081306976124928), (Board.mk 859927142786460101137117297970309689217425809902928240885439327987330047043257992404258289641746, PossibleValues.mk 728066104000213714505515649573315912887625663458686346924291815221756703173881331553089297482993401738881205367655132807946194722589742267645716622523554563579167028815665595492370785825899286436922135377404021700591696), (Board.mk 859927142786460101137117297970309689217425809902928240885439327987330047043257992404258286233874, PossibleValues.mk 728066104164592961428902321674596914978861761211706647374628768371275050314642844886235874000524837346815994352659595616883956958467100252253060952822701947002285447874896160565639712653311110407913682673672602119077968), (Board.mk 859927142786460101137117297970309689217425809902928240885439327987330047043257992404258286233858, PossibleValues.mk 728066104164592961428902321674596914978861761211706647374628768371275050314642844886235874000524837346815994352659595634381962756731195647233086006769250202089854868207158694966045393306977341601413687960860429612515408), (Board.mk 859927142786460101137117297970309689217425809902928240885439327987329428073238349714120836671744, PossibleValues.mk 728066104164592961428902321674596914978861761211706647374628768371275050314642844886247230855592121468473025104004668849674264636680324351979932364783683574977607306606034773387552574005813596123640223421327142604800592)]
def c8Sol10 : Board := Board.mk 17947921207991614072790273309113476678716715227758772900057325863544331440843721204592159766112530
def c8Stack10 : BoardStack := [(Board.mk 859927142804217457195943650582790300641782906218454711315602245494915183682627987259284218210578, PossibleValues.mk 728066098740057079581551331102239256774061869869585783211161921305587704555283215144077709026331110412736379187318425335077246666393406260736169723060229276855274752258137047616211897406886825960795649323978288225320960), (Board.mk 859927142786733288951896455298885609448069674225288803603949679544337524253436378196052853156114, PossibleValues.mk 728066098740057079581551332314137559258827234612260954190470041705607271279136625625528513409762184393989148988279464069004251915060758924947115371041605689701451536649768679645993018591658526986092403761369892784177152), (Board.mk 859927142786702934748645514104174625194763257198414531016379116772957853571594278205827025496338, PossibleValues.mk 728066104000213714428970561335771957852198581545138433521469661126320692904836822698867234844719279899019086950665382444115332679507635139118077164043185522917698520746031024506709858949696169726297071284081306976124928), (Board.mk 859927142786460101137117297970309689217425809902928240885439327987330047043257992404258289641746, PossibleValues.mk 728066104000213714505515649573315912887625663458686346924291815221756703173881331553089297482993401738881205367655132807946194722589742267645716622523554563579167028815665595492370785825899286436922135377404021700591696), (Board.mk 859927142786460101137117297970309689217425809902928240885439327987330047043257992404258286233874, PossibleValues.mk 728066104164592961428902321674596914978861761211706647374628768371275050314642844886235874000524837346815994352659595616883956958467100252253060952822701947002285447874896160565639712653311110407913682673672602119077968), (Board.mk 859927142786460101137117297970309689217425809902928240885439327987330047043257992404258286233858, PossibleValues.mk 728066104164592961428902321674596914978861761211706647374628768371275050314642844886235874000524837346815994352659595634381962756731195647233086006769250202089854868207158694966045393306977341601413687960860429612515408), (Board.mk 859927142786460101137117297970309689217425809902928240885439327987329428073238349714120836671744, PossibleValues.mk 728066104164592961428902321674596914978861761211706647374628768371275050314642844886247230855592121468473025104004668849674264636680324351979932364783683574977607306606034773387552574005813596123640223421327142604800592)]

/-! ## Lemmas and claim theorems -/

theorem Board.readByte_lt (b : Board) (i : Nat) : b.readByte i < 256 := by
  have h : (255 : Nat) < 2 ^ 8 := by norm_num
  simpa [Board.readByte] using Nat.and_lt_two_pow (b.compressed_board >>> (8 * i)) h

theorem Nat.testBit_255 (k : Nat) : (255 : Nat).testBit k = decide (k < 8) := by
  have h : (255 : Nat) = 2 ^ 8 - 1 := by norm_num
  rw [h, Nat.testBit_two_pow_sub_one]

theorem Board.testBit_readByte (b : Board) (i k : Nat) :
    (b.readByte i).testBit k =
      (b.compressed_board.testBit (8 * i + k) && decide (k < 8)) := by
  simp [Board.readByte, Nat.testBit_land, Nat.testBit_shiftRight, Nat.testBit_255]

theorem Board.testBit_writeByte (b : Board) (i v m : Nat) :
    (b.writeByte i v).compressed_board.testBit m =
      ((b.compressed_board.testBit m &&
          (decide (m < BOARD_BITS) ^^ (decide (8 * i ≤ m) && decide (m - 8 * i < 8)))) ||
        (decide (8 * i ≤ m) && v.testBit (m - 8 * i))) := by
  simp [Board.writeByte, Nat.testBit_lor, Nat.testBit_land, Nat.testBit_xor,
    Nat.testBit_shiftLeft, Nat.testBit_255]

theorem Board.readByte_writeByte_same (b : Board) (i v : Nat) (hv : v < 256)
    (hi : i < NUM_BYTES) :
    (b.writeByte i v).readByte i = v := by
  apply Nat.eq_of_testBit_eq
  intro k
  rw [Board.testBit_readByte, Board.testBit_writeByte]
  by_cases hk : k < 8
  · have h1 : 8 * i ≤ 8 * i + k := by omega
    have h2 : 8 * i + k - 8 * i < 8 := by omega
    have h3 : 8 * i + k < BOARD_BITS := by
      simp only [BOARD_BITS, NUM_BYTES, NUM_FIELDS, WIDTH, HEIGHT] at *
      omega
    have h4 : 8 * i + k - 8 * i = k := by omega
    simp [h1, h2, h3, h4, hk]
  · have h5 : v.testBit k = false := Nat.testBit_lt_two_pow (by
      calc v < 256 := hv
        _ = 2 ^ 8 := by norm_num
        _ ≤ 2 ^ k := Nat.pow_le_pow_right (by norm_num) (by omega))
    simp [hk, h5]

theorem Board.readByte_writeByte_ne (b : Board) (i j v : Nat) (hv : v < 256)
    (hij : j ≠ i) (hj : j < NUM_BYTES) :
    (b.writeByte i v).readByte j = b.readByte j := by
  apply Nat.eq_of_testBit_eq
  intro k
  rw [Board.testBit_readByte, Board.testBit_writeByte, Board.testBit_readByte]
  by_cases hk : k < 8
  · have h3 : 8 * j + k < BOARD_BITS := by
      simp only [BOARD_BITS, NUM_BYTES, NUM_FIELDS, WIDTH, HEIGHT] at *
      omega
    by_cases hle : 8 * i ≤ 8 * j + k
    · have h6 : ¬(8 * j + k - 8 * i < 8) := by omega
      have h7 : v.testBit (8 * j + k - 8 * i) = false := Nat.testBit_lt_two_pow (by
        calc v < 256 := hv
          _ = 2 ^ 8 := by norm_num
          _ ≤ 2 ^ (8 * j + k - 8 * i) := Nat.pow_le_pow_right (by norm_num) (by omega))
      simp [h3, hle, h6, h7]
    · simp [h3, hle]
  · simp [hk]

theorem FieldRef.get_lt (B : Nat) (hB : B < 256) (sub : FieldSubindex) :
    FieldRef.get B sub < 16 := by
  cases sub
  · exact lt_of_le_of_lt (Nat.and_le_right) (by norm_num)
  · show B >>> 4 < 16
    rw [Nat.shiftRight_eq_div_pow]
    omega

theorem Nat.testBit_15 (k : Nat) : (15 : Nat).testBit k = decide (k < 4) := by
  have h : (15 : Nat) = 2 ^ 4 - 1 := by norm_num
  rw [h, Nat.testBit_two_pow_sub_one]

theorem Nat.testBit_240 (k : Nat) :
    (240 : Nat).testBit k = (decide (4 ≤ k) && decide (k < 8)) := by
  have h : (240 : Nat) = 15 <<< 4 := by decide
  rw [h, Nat.testBit_shiftLeft, Nat.testBit_15]
  by_cases h4 : 4 ≤ k
  · have : k - 4 < 4 ↔ k < 8 := by omega
    simp [h4, this]
  · simp [h4]

theorem FieldRef.set_lt (B v : Nat) (hB : B < 256) (hv : v < 16) (sub : FieldSubindex) :
    FieldRef.set B v sub < 256 := by
  cases sub <;> simp only [FieldRef.set]
  · have h1 : B &&& 240 < 2 ^ 8 := Nat.and_lt_two_pow B (by norm_num)
    have h2 : v < 2 ^ 8 := lt_of_lt_of_le hv (by norm_num)
    have h3 := Nat.or_lt_two_pow h1 h2
    simpa using h3
  · have h1 : B &&& 15 < 2 ^ 8 := Nat.and_lt_two_pow B (by norm_num)
    have h2 : v <<< 4 < 2 ^ 8 := by
      calc v <<< 4 = v * 2 ^ 4 := by rw [Nat.shiftLeft_eq]
        _ < 2 ^ 8 := by norm_num; omega
    have h3 := Nat.or_lt_two_pow h1 h2
    simpa using h3

theorem FieldRef.get_set_same (B v : Nat) (hv : v < 16) (sub : FieldSubindex) :
    FieldRef.get (FieldRef.set B v sub) sub = v := by
  cases sub <;> simp only [FieldRef.get, FieldRef.set] <;> apply Nat.eq_of_testBit_eq <;> intro k
  · simp only [Nat.testBit_land, Nat.testBit_lor, Nat.testBit_15, Nat.testBit_240]
    by_cases hk : k < 4
    · have hf : ¬(4 ≤ k) := by omega
      simp [hk, hf]
    · have hvk : v.testBit k = false := Nat.testBit_lt_two_pow (by
        calc v < 16 := hv
          _ = 2 ^ 4 := by norm_num
          _ ≤ 2 ^ k := Nat.pow_le_pow_right (by norm_num) (by omega))
      simp [hk, hvk]
  · simp only [Nat.testBit_shiftRight, Nat.testBit_lor, Nat.testBit_land,
      Nat.testBit_shiftLeft, Nat.testBit_15]
    have h1 : ¬(4 + k < 4) := by omega
    have h2 : 4 ≤ 4 + k := by omega
    have h3 : 4 + k - 4 = k := by omega
    simp [h1, h2, h3]

theorem FieldRef.get_set_ne (B v : Nat) (hB : B < 256) (hv : v < 16)
    (sub sub' : FieldSubindex) (hne : sub ≠ sub') :
    FieldRef.get (FieldRef.set B v sub) sub' = FieldRef.get B sub' := by
  cases sub <;> cases sub' <;> try exact absurd rfl hne
  all_goals simp only [FieldRef.get, FieldRef.set]
  all_goals apply Nat.eq_of_testBit_eq
  all_goals intro k
  · -- set first half, read second half
    simp only [Nat.testBit_shiftRight, Nat.testBit_lor, Nat.testBit_land, Nat.testBit_240]
    have hvk : v.testBit (4 + k) = false := Nat.testBit_lt_two_pow (by
      calc v < 16 := hv
        _ = 2 ^ 4 := by norm_num
        _ ≤ 2 ^ (4 + k) := Nat.pow_le_pow_right (by norm_num) (by omega))
    by_cases hk : 4 + k < 8
    · have h2 : 4 ≤ 4 + k := by omega
      simp [hk, h2, hvk]
    · have hBk : B.testBit (4 + k) = false := Nat.testBit_lt_two_pow (by
        calc B < 256 := hB
          _ = 2 ^ 8 := by norm_num
          _ ≤ 2 ^ (4 + k) := Nat.pow_le_pow_right (by norm_num) (by omega))
      simp [hk, hvk, hBk]
  · -- set second half, read first half
    simp only [Nat.testBit_land, Nat.testBit_lor, Nat.testBit_shiftLeft, Nat.testBit_15]
    by_cases hk : k < 4
    · have hf : ¬(4 ≤ k) := by omega
      simp [hk, hf]
    · simp [hk]

theorem FieldRef.set_set (B v w : Nat) (hv : v < 16) (hw : w < 16) (sub : FieldSubindex) :
    FieldRef.set (FieldRef.set B v sub) w sub = FieldRef.set B w sub := by
  cases sub <;> simp only [FieldRef.set] <;> apply Nat.eq_of_testBit_eq <;> intro k
  · simp only [Nat.testBit_lor, Nat.testBit_land, Nat.testBit_240]
    by_cases hk : 4 ≤ k ∧ k < 8
    · have hvk : v.testBit k = false := Nat.testBit_lt_two_pow (by
        calc v < 16 := hv
          _ = 2 ^ 4 := by norm_num
          _ ≤ 2 ^ k := Nat.pow_le_pow_right (by norm_num) (by omega))
      simp [hk.1, hk.2, hvk]
    · rcases not_and_or.mp hk with h | h
      · simp [h]
      · simp [h]
  · simp only [Nat.testBit_lor, Nat.testBit_land, Nat.testBit_shiftLeft, Nat.testBit_15]
    by_cases hk : k < 4
    · have hf : ¬(4 ≤ k) := by omega
      simp [hk, hf]
    · simp [hk]

theorem FieldRef.set_get_id (B : Nat) (hB : B < 256) (sub : FieldSubindex) :
    FieldRef.set B (FieldRef.get B sub) sub = B := by
  cases sub <;> simp only [FieldRef.get, FieldRef.set] <;> apply Nat.eq_of_testBit_eq <;> intro k
  · simp only [Nat.testBit_lor, Nat.testBit_land, Nat.testBit_240, Nat.testBit_15]
    by_cases hk : k < 4
    · have hf : ¬(4 ≤ k) := by omega
      simp [hk, hf]
    · by_cases hk8 : k < 8
      · simp [hk, hk8]
        omega
      · have hBk : B.testBit k = false := Nat.testBit_lt_two_pow (by
          calc B < 256 := hB
            _ = 2 ^ 8 := by norm_num
            _ ≤ 2 ^ k := Nat.pow_le_pow_right (by norm_num) (by omega))
        simp [hk, hk8, hBk]
  · simp only [Nat.testBit_lor, Nat.testBit_land, Nat.testBit_shiftLeft,
      Nat.testBit_shiftRight, Nat.testBit_15]
    by_cases hk : k < 4
    · have hf : ¬(4 ≤ k) := by omega
      simp [hk, hf]
    · have h2 : 4 ≤ k := by omega
      have h3 : 4 + (k - 4) = k := by omega
      simp [hk, h2, h3]

theorem Board.cellIndex_lt (x y : Nat) (hx : x < 9) (hy : y < 9) :
    x * HEIGHT + y < NUM_FIELDS := by
  simp only [HEIGHT, NUM_FIELDS, WIDTH]
  omega

theorem Board.byteIndex_lt (x y : Nat) (hx : x < 9) (hy : y < 9) :
    (x * HEIGHT + y) / 2 < NUM_BYTES := by
  have := Board.cellIndex_lt x y hx hy
  simp only [HEIGHT, NUM_FIELDS, WIDTH, NUM_BYTES] at *
  omega

theorem Board.field_lt (b : Board) (x y : Nat) : b.field x y < 16 := by
  simp only [Board.field, Board.index]
  split
  · exact lt_of_le_of_lt Nat.and_le_right (by norm_num)
  · exact FieldRef.get_lt _ (Board.readByte_lt b _) _

theorem Board.field_setField_same (b : Board) (x y v : Nat)
    (hx : x < 9) (hy : y < 9) (hv : v < 16) :
    (b.setField x y v).field x y = v := by
  have hbyte := Board.byteIndex_lt x y hx hy
  have hBlt := Board.readByte_lt b ((x * HEIGHT + y) / 2)
  simp only [Board.field, Board.setField, Board.index]
  rw [Board.readByte_writeByte_same _ _ _ (FieldRef.set_lt _ _ hBlt hv _) hbyte]
  exact FieldRef.get_set_same _ _ hv _

theorem Board.field_setField_ne (b : Board) (x y a c v : Nat)
    (hx : x < 9) (hy : y < 9) (ha : a < 9) (hc : c < 9)
    (hne : ¬(a = x ∧ c = y)) (hv : v < 16) :
    (b.setField x y v).field a c = b.field a c := by
  have hH : HEIGHT = 9 := rfl
  have hkne : a * HEIGHT + c ≠ x * HEIGHT + y := by
    rw [hH]
    rcases Decidable.not_and_iff_or_not.mp hne with h | h <;> omega
  have hbyte1 := Board.byteIndex_lt x y hx hy
  have hbyte2 := Board.byteIndex_lt a c ha hc
  have hBlt := Board.readByte_lt b ((x * HEIGHT + y) / 2)
  have hset := FieldRef.set_lt _ v hBlt hv
    (if (x * HEIGHT + y) % 2 = 0 then FieldSubindex.firstHalfByte else .secondHalfByte)
  simp only [Board.field, Board.setField, Board.index]
  by_cases hb : (a * HEIGHT + c) / 2 = (x * HEIGHT + y) / 2
  · -- same byte, necessarily different half-byte
    have hpar : (a * HEIGHT + c) % 2 ≠ (x * HEIGHT + y) % 2 := by omega
    rw [hb, Board.readByte_writeByte_same _ _ _ hset hbyte1]
    apply FieldRef.get_set_ne _ _ hBlt hv
    by_cases h2 : (x * HEIGHT + y) % 2 = 0
    · have h3 : ¬((a * HEIGHT + c) % 2 = 0) := by omega
      simp [h2, h3]
    · have h3 : (a * HEIGHT + c) % 2 = 0 := by omega
      simp [h2, h3]
  · rw [Board.readByte_writeByte_ne _ _ _ _ hset hb hbyte2]

theorem Board.eq_of_compressed_eq {a b : Board}
    (h : a.compressed_board = b.compressed_board) : a = b := by
  cases a
  cases b
  simpa using h

theorem Board.writeByte_writeByte (b : Board) (i X Y : Nat) (hX : X < 256)
    (hi : i < NUM_BYTES) :
    (b.writeByte i X).writeByte i Y = b.writeByte i Y := by
  apply Board.eq_of_compressed_eq
  apply Nat.eq_of_testBit_eq
  intro m
  rw [Board.testBit_writeByte, Board.testBit_writeByte, Board.testBit_writeByte]
  by_cases hin : 8 * i ≤ m ∧ m - 8 * i < 8
  · have hmlt : m < BOARD_BITS := by
      simp only [BOARD_BITS, NUM_BYTES, NUM_FIELDS, WIDTH, HEIGHT] at *
      omega
    simp [hin.1, hin.2, hmlt]
  · rcases not_and_or.mp hin with h | h
    · simp [h]
    · have hXb : X.testBit (m - 8 * i) = false := Nat.testBit_lt_two_pow (by
        calc X < 256 := hX
          _ = 2 ^ 8 := by norm_num
          _ ≤ 2 ^ (m - 8 * i) := Nat.pow_le_pow_right (by norm_num) (by omega))
      simp [h, hXb]

theorem Board.setField_setField (b : Board) (x y v w : Nat)
    (hx : x < 9) (hy : y < 9) (hv : v < 16) (hw : w < 16) :
    (b.setField x y v).setField x y w = b.setField x y w := by
  have hbyte := Board.byteIndex_lt x y hx hy
  have hBlt := Board.readByte_lt b ((x * HEIGHT + y) / 2)
  simp only [Board.setField, Board.index]
  rw [Board.readByte_writeByte_same _ _ _ (FieldRef.set_lt _ _ hBlt hv _) hbyte]
  rw [FieldRef.set_set _ _ _ hv hw]
  exact Board.writeByte_writeByte _ _ _ _ (FieldRef.set_lt _ _ hBlt hv _) hbyte

theorem Board.WF_writeByte (b : Board) (i v : Nat) (hi : i < NUM_BYTES) (hv : v < 256) :
    (b.writeByte i v).WF := by
  apply Nat.lt_pow_two_of_testBit
  intro m hm
  rw [Board.testBit_writeByte]
  have h1 : ¬(m < BOARD_BITS) := by omega
  have h2 : ¬(m - 8 * i < 8) := by
    simp only [NUM_BYTES, NUM_FIELDS, WIDTH, HEIGHT, BOARD_BITS] at *
    omega
  have hvb : v.testBit (m - 8 * i) = false := Nat.testBit_lt_two_pow (by
    calc v < 256 := hv
      _ = 2 ^ 8 := by norm_num
      _ ≤ 2 ^ (m - 8 * i) := Nat.pow_le_pow_right (by norm_num) (by omega))
  simp [h1, h2, hvb]

theorem Board.WF_setField (b : Board) (x y v : Nat) (hx : x < 9) (hy : y < 9)
    (hv : v < 16) :
    (b.setField x y v).WF := by
  simp only [Board.setField, Board.index]
  exact Board.WF_writeByte _ _ _ (Board.byteIndex_lt x y hx hy)
    (FieldRef.set_lt _ _ (Board.readByte_lt _ _) hv _)

theorem Board.writeByte_readByte_id (b : Board) (i : Nat) (hWF : b.WF)
    (hi : i < NUM_BYTES) :
    b.writeByte i (b.readByte i) = b := by
  apply Board.eq_of_compressed_eq
  apply Nat.eq_of_testBit_eq
  intro m
  rw [Board.testBit_writeByte, Board.testBit_readByte]
  by_cases hm : m < BOARD_BITS
  · by_cases hin : 8 * i ≤ m ∧ m - 8 * i < 8
    · have h3 : 8 * i + (m - 8 * i) = m := by omega
      simp [hin.1, hin.2, hm, h3]
    · rcases not_and_or.mp hin with h | h
      · simp [h, hm]
      · simp [h, hm]
  · have hb : b.compressed_board.testBit m = false := Nat.testBit_lt_two_pow (by
      calc b.compressed_board < 2 ^ BOARD_BITS := hWF
        _ ≤ 2 ^ m := Nat.pow_le_pow_right (by norm_num) (by omega))
    have h2 : ¬(m - 8 * i < 8) := by
      simp only [NUM_BYTES, NUM_FIELDS, WIDTH, HEIGHT, BOARD_BITS] at *
      omega
    simp [hm, hb, h2]

theorem Board.setField_field_id (b : Board) (x y : Nat) (hWF : b.WF)
    (hx : x < 9) (hy : y < 9) :
    b.setField x y (b.field x y) = b := by
  have hbyte := Board.byteIndex_lt x y hx hy
  have hBlt := Board.readByte_lt b ((x * HEIGHT + y) / 2)
  simp only [Board.setField, Board.field, Board.index]
  rw [FieldRef.set_get_id _ hBlt]
  exact Board.writeByte_readByte_id _ _ hWF hbyte

theorem Board.WF_new_empty : Board.new_empty.WF := by
  simp only [Board.new_empty, Board.WF]
  positivity

theorem PossibleValues.bitIndex_lt (x y v : Nat) (hx : x < 9) (hy : y < 9)
    (hv1 : 1 ≤ v) (hv9 : v ≤ 9) : PossibleValues.bitIndex x y v < PV_BITS := by
  simp only [PossibleValues.bitIndex, PossibleValues.field_start_index,
    NUM_VALUES_PER_FIELD, HEIGHT, PV_BITS, NUM_FIELDS, WIDTH]
  omega

theorem PossibleValues.bitIndex_inj (x y v a c w : Nat) (hx : x < 9) (hy : y < 9)
    (ha : a < 9) (hc : c < 9) (hv1 : 1 ≤ v) (hv9 : v ≤ 9) (hw1 : 1 ≤ w) (hw9 : w ≤ 9) :
    PossibleValues.bitIndex a c w = PossibleValues.bitIndex x y v ↔ (a = x ∧ c = y ∧ w = v) := by
  simp only [PossibleValues.bitIndex, PossibleValues.field_start_index,
    NUM_VALUES_PER_FIELD, HEIGHT]
  omega

theorem PossibleValues.testBit_clearBit (pv : PossibleValues) (i j : Nat)
    (hi : i < PV_BITS) (hj : j < PV_BITS) :
    (pv.clearBit i).values.testBit j = (pv.values.testBit j && !(decide (j = i))) := by
  simp only [PossibleValues.clearBit, Nat.testBit_land, Nat.testBit_xor,
    Nat.testBit_two_pow_sub_one, Nat.one_shiftLeft, Nat.testBit_two_pow, hj]
  by_cases h : i = j
  · simp [h]
  · have h' : ¬(j = i) := fun hh => h hh.symm
    simp [h, h']

theorem PossibleValues.is_possible_remove_if_set (pv : PossibleValues)
    (x y v a c w : Nat) (hx : x < 9) (hy : y < 9) (ha : a < 9) (hc : c < 9)
    (hv1 : 1 ≤ v) (hv9 : v ≤ 9) (hw1 : 1 ≤ w) (hw9 : w ≤ 9) :
    (pv.remove_if_set x y v).is_possible a c w =
      (pv.is_possible a c w && !(decide ((a, c) = (x, y)) && decide (w = v))) := by
  simp only [PossibleValues.remove_if_set, PossibleValues.is_possible]
  rw [PossibleValues.testBit_clearBit _ _ _
    (PossibleValues.bitIndex_lt x y v hx hy hv1 hv9)
    (PossibleValues.bitIndex_lt a c w ha hc hw1 hw9)]
  have hinj := PossibleValues.bitIndex_inj x y v a c w hx hy ha hc hv1 hv9 hw1 hw9
  by_cases hbit : PossibleValues.bitIndex a c w = PossibleValues.bitIndex x y v
  · obtain ⟨h1, h2, h3⟩ := hinj.mp hbit
    simp [hbit, h1, h2, h3]
  · have hne : ¬(a = x ∧ c = y ∧ w = v) := fun h => hbit (hinj.mpr h)
    have : ¬((a, c) = (x, y)) ∨ ¬(w = v) := by
      by_cases h1 : a = x <;> by_cases h2 : c = y <;> by_cases h3 : w = v <;>
        simp [h1, h2, h3] at hne ⊢
    rcases this with h | h
    · simp [hbit, h]
    · simp [hbit, h]


theorem isPossible_foldl_remove (v : Nat) (l : List (Nat × Nat))
    (pv : PossibleValues) (a c w : Nat) (ha : a < 9) (hc : c < 9)
    (hv1 : 1 ≤ v) (hv9 : v ≤ 9) (hw1 : 1 ≤ w) (hw9 : w ≤ 9)
    (hl : ∀ p ∈ l, p.1 < 9 ∧ p.2 < 9) :
    (l.foldl (fun pv p => pv.remove_if_set p.1 p.2 v) pv).is_possible a c w =
      (pv.is_possible a c w && !(decide ((a, c) ∈ l) && decide (w = v))) := by
  induction l generalizing pv with
  | nil => simp
  | cons p rest ih =>
    have hp := hl p (List.mem_cons_self ..)
    have hrest : ∀ q ∈ rest, q.1 < 9 ∧ q.2 < 9 := fun q hq => hl q (List.mem_cons_of_mem _ hq)
    simp only [List.foldl_cons]
    rw [ih _ hrest]
    rw [PossibleValues.is_possible_remove_if_set pv p.1 p.2 v a c w hp.1 hp.2 ha hc
      hv1 hv9 hw1 hw9]
    by_cases h3 : w = v
    · by_cases h1 : (a, c) = p
      · simp [h1, h3, List.mem_cons]
      · by_cases h2 : (a, c) ∈ rest
        · simp [h1, h2, h3, List.mem_cons]
        · simp [h1, h2, h3, List.mem_cons]
    · simp [h3]

theorem PossibleValues.remove_value_from_col_eq (pv : PossibleValues) (v x : Nat) :
    pv.remove_value_from_col v x =
      (colCoords x).foldl (fun pv p => pv.remove_if_set p.1 p.2 v) pv := rfl

theorem PossibleValues.remove_value_from_row_eq (pv : PossibleValues) (v y : Nat) :
    pv.remove_value_from_row v y =
      (rowCoords y).foldl (fun pv p => pv.remove_if_set p.1 p.2 v) pv := rfl

theorem PossibleValues.remove_value_from_region_eq (pv : PossibleValues) (v cx cy : Nat) :
    pv.remove_value_from_region v cx cy =
      (regionCoords cx cy).foldl (fun pv p => pv.remove_if_set p.1 p.2 v) pv := by
  show (List.range 3).foldl _ pv = _
  rw [List.range_succ, List.range_succ, List.range_succ, List.range_zero]
  show _ = (regionCoords cx cy).foldl _ pv
  rw [show regionCoords cx cy = (List.range 3).flatMap (fun x =>
    (List.range 3).map fun y => (cx * 3 + x, cy * 3 + y)) from rfl]
  rw [List.range_succ, List.range_succ, List.range_succ, List.range_zero]
  simp only [Nat.mul_comm 3 cx, Nat.mul_comm 3 cy]
  rfl

theorem mem_colCoords (a c x : Nat) : (a, c) ∈ colCoords x ↔ a = x ∧ c < 9 := by
  simp only [colCoords, List.mem_map, List.mem_range, HEIGHT, Prod.mk.injEq]
  constructor
  · rintro ⟨y, hy, hxa, hyc⟩
    omega
  · rintro ⟨h1, h2⟩
    exact ⟨c, h2, h1.symm, rfl⟩

theorem mem_rowCoords (a c y : Nat) : (a, c) ∈ rowCoords y ↔ c = y ∧ a < 9 := by
  simp only [rowCoords, List.mem_map, List.mem_range, WIDTH, Prod.mk.injEq]
  constructor
  · rintro ⟨x, hx, hxa, hyc⟩
    omega
  · rintro ⟨h1, h2⟩
    exact ⟨a, h2, rfl, h1.symm⟩

theorem mem_regionCoords (a c rx ry : Nat) :
    (a, c) ∈ regionCoords rx ry ↔ a / 3 = rx ∧ c / 3 = ry := by
  simp only [regionCoords, List.mem_flatMap, List.mem_map, List.mem_range, Prod.mk.injEq]
  constructor
  · rintro ⟨i, hi, j, hj, h1, h2⟩
    omega
  · rintro ⟨h1, h2⟩
    exact ⟨a % 3, by omega, ⟨c % 3, by omega, by omega, by omega⟩⟩

theorem colCoords_ranges (x : Nat) (hx : x < 9) : ∀ p ∈ colCoords x, p.1 < 9 ∧ p.2 < 9 := by
  intro p hp
  rcases p with ⟨a, c⟩
  rw [mem_colCoords] at hp
  omega

theorem rowCoords_ranges (y : Nat) (hy : y < 9) : ∀ p ∈ rowCoords y, p.1 < 9 ∧ p.2 < 9 := by
  intro p hp
  rcases p with ⟨a, c⟩
  rw [mem_rowCoords] at hp
  omega

theorem regionCoords_ranges (rx ry : Nat) (hrx : rx < 3) (hry : ry < 3) :
    ∀ p ∈ regionCoords rx ry, p.1 < 9 ∧ p.2 < 9 := by
  intro p hp
  rcases p with ⟨a, c⟩
  rw [mem_regionCoords] at hp
  omega

/-- Full characterisation of `remove_conflicting`: the bit for digit `w` at
cell `(a, c)` is cleared exactly when `w = value` and `(a, c)` shares the
column, row, or 3x3 region of `(x, y)` — including `(x, y)` itself — and no
other bit changes. -/
theorem PossibleValues.is_possible_remove_conflicting (pv : PossibleValues)
    (x y v a c w : Nat) (hx : x < 9) (hy : y < 9) (ha : a < 9) (hc : c < 9)
    (hv1 : 1 ≤ v) (hv9 : v ≤ 9) (hw1 : 1 ≤ w) (hw9 : w ≤ 9) :
    (pv.remove_conflicting x y v).is_possible a c w =
      (pv.is_possible a c w &&
        !(decide (a = x ∨ c = y ∨ (a / 3 = x / 3 ∧ c / 3 = y / 3)) && decide (w = v))) := by
  rw [PossibleValues.remove_conflicting, PossibleValues.remove_value_from_region_eq,
    isPossible_foldl_remove v _ _ a c w ha hc hv1 hv9 hw1 hw9
      (regionCoords_ranges _ _ (by omega) (by omega)),
    PossibleValues.remove_value_from_row_eq,
    isPossible_foldl_remove v _ _ a c w ha hc hv1 hv9 hw1 hw9 (rowCoords_ranges _ hy),
    PossibleValues.remove_value_from_col_eq,
    isPossible_foldl_remove v _ _ a c w ha hc hv1 hv9 hw1 hw9 (colCoords_ranges _ hx)]
  simp only [mem_regionCoords, mem_rowCoords, mem_colCoords]
  by_cases h3 : w = v
  · by_cases h1 : a = x
    · simp [h1, h3, ha, hc]
    · by_cases h2 : c = y
      · simp [h1, h2, h3, ha, hc]
      · by_cases h4 : a / 3 = x / 3 ∧ c / 3 = y / 3
        · simp [h1, h2, h3, h4, ha, hc]
        · simp [h1, h2, h3, h4, ha, hc]
  · simp [h3]

/-! ## Claim C10 — frame property of the packed cell store -/

/-- C10: for every board (as stored in its `[u8; 41]`), distinct in-range
coordinates `(x, y)` and `(a, c)`, and value `v` (0 = empty or a digit
1..=9): after `board.field_mut(x, y).set(v)`, reading cell `(a, c)`
returns the same value as before — in particular the neighbouring cell
sharing the same packed byte is not disturbed. -/
theorem claim_C10_packed_set_frame (b : Board) (x y a c v : Nat)
    (hx : x < 9) (hy : y < 9) (ha : a < 9) (hc : c < 9)
    (hne : (a, c) ≠ (x, y)) (hv : v ≤ 9) :
    (b.setField x y v).field a c = b.field a c := by
  apply Board.field_setField_ne b x y a c v hx hy ha hc _ (by omega)
  intro h
  exact hne (by simp [h.1, h.2])

/-- Witness for C10 at a concrete input: cells `(0,0)` and `(0,1)` share a
packed byte; setting `(0,0)` to 5 leaves `(0,1)` unchanged. -/
theorem claim_C10_packed_set_frame_witness :
    ((Board.new_empty.setField 0 1 7).setField 0 0 5).field 0 1 =
      (Board.new_empty.setField 0 1 7).field 0 1 :=
  claim_C10_packed_set_frame (Board.new_empty.setField 0 1 7) 0 0 0 1 5
    (by norm_num) (by norm_num) (by norm_num) (by norm_num) (by decide) (by norm_num)

/-! ## Claim C5 — effect of `remove_conflicting` -/

/-- C5, corrected: `remove_conflicting(x, y, value)` clears `value` from
the candidate set of *every* cell sharing `(x, y)`'s column, row, or 3x3
region — including the cell `(x, y)` itself — and changes no other
candidate entry.  (The claim's statement that the cell `(x, y)` itself is
left unchanged is refuted by `claim_C5_counterexample`.) -/
theorem claim_C5_remove_conflicting_effect (pv : PossibleValues)
    (x y v a c w : Nat) (hx : x < 9) (hy : y < 9) (ha : a < 9) (hc : c < 9)
    (hv1 : 1 ≤ v) (hv9 : v ≤ 9) (hw1 : 1 ≤ w) (hw9 : w ≤ 9) :
    (pv.remove_conflicting x y v).is_possible a c w =
      (pv.is_possible a c w &&
        !(decide (a = x ∨ c = y ∨ (a / 3 = x / 3 ∧ c / 3 = y / 3)) && decide (w = v))) :=
  PossibleValues.is_possible_remove_conflicting pv x y v a c w hx hy ha hc hv1 hv9 hw1 hw9

/-- Counterexample to C5 as stated: after `remove_conflicting(0, 0, 1)` on
the all-possible candidate set, the candidate entry of the cell `(0, 0)`
*itself* has changed (digit 1 was cleared there too), contradicting the
claim that the cell's own candidate set is left unchanged. -/
theorem claim_C5_counterexample :
    ¬((PossibleValues.new_all_is_possible.remove_conflicting 0 0 1).is_possible 0 0 1 =
      PossibleValues.new_all_is_possible.is_possible 0 0 1) := by
  decide

/-- Witness for (corrected) C5 at a concrete input: removing digit 1 after
placing it at `(0, 0)` clears digit 1 at `(4, 0)` (same row). -/
theorem claim_C5_remove_conflicting_effect_witness :
    (PossibleValues.new_all_is_possible.remove_conflicting 0 0 1).is_possible 4 0 1 =
      (PossibleValues.new_all_is_possible.is_possible 4 0 1 &&
        !(decide ((4 : Nat) = 0 ∨ (0 : Nat) = 0 ∨ ((4 : Nat) / 3 = 0 / 3 ∧ (0 : Nat) / 3 = 0 / 3)) &&
          decide ((1 : Nat) = 1))) :=
  claim_C5_remove_conflicting_effect PossibleValues.new_all_is_possible 0 0 1 4 0 1
    (by norm_num) (by norm_num) (by norm_num) (by norm_num)
    (by norm_num) (by norm_num) (by norm_num) (by norm_num)

/-! ## Subset and coordinate lemmas -/

theorem mem_allCoords (a c : Nat) : (a, c) ∈ allCoords ↔ a < 9 ∧ c < 9 := by
  simp only [allCoords, List.mem_flatMap, List.mem_map, List.mem_range, WIDTH, HEIGHT,
    Prod.mk.injEq]
  constructor
  · rintro ⟨x, hx, y, hy, h1, h2⟩
    omega
  · rintro ⟨h1, h2⟩
    exact ⟨a, h1, c, h2, rfl, rfl⟩

theorem Board.first_empty_some (b : Board) (x y : Nat)
    (h : b.first_empty_field_index = some (x, y)) :
    x < 9 ∧ y < 9 ∧ b.field x y = 0 := by
  have hmem := List.mem_of_find?_eq_some h
  have hp := List.find?_some h
  rw [mem_allCoords] at hmem
  simp only [beq_iff_eq] at hp
  exact ⟨hmem.1, hmem.2, hp⟩

theorem Board.first_empty_none (b : Board)
    (h : b.first_empty_field_index = none) (a c : Nat) (ha : a < 9) (hc : c < 9) :
    b.field a c ≠ 0 := by
  intro h0
  have := List.find?_eq_none.mp h (a, c) ((mem_allCoords a c).mpr ⟨ha, hc⟩)
  simp [h0] at this

theorem PossibleValues.possible_values_ranges (pv : PossibleValues) (x y v : Nat)
    (h : v ∈ pv.possible_values_for_field x y) : 1 ≤ v ∧ v ≤ 9 := by
  have := List.mem_of_mem_filter h
  rw [List.mem_range'] at this
  omega

theorem Board.is_subset_of_iff (b b' : Board) :
    b.is_subset_of b' = true ↔
      ∀ a c : Nat, a < 9 → c < 9 → b.field a c ≠ 0 → b'.field a c = b.field a c := by
  simp only [Board.is_subset_of, List.all_eq_true]
  constructor
  · intro h a c ha hc hne
    have := h (a, c) ((mem_allCoords a c).mpr ⟨ha, hc⟩)
    simp only [Bool.or_eq_true, decide_eq_true_eq, beq_iff_eq] at this
    rcases this with h1 | h1
    · exact absurd h1 hne
    · exact h1.symm
  · intro h p hp
    rcases p with ⟨a, c⟩
    rw [mem_allCoords] at hp
    simp only [Bool.or_eq_true, decide_eq_true_eq, beq_iff_eq]
    by_cases h0 : b.field a c = 0
    · exact Or.inl h0
    · exact Or.inr (h a c hp.1 hp.2 h0).symm

theorem Board.is_subset_of_refl (b : Board) : b.is_subset_of b = true :=
  (Board.is_subset_of_iff b b).mpr fun _ _ _ _ _ => rfl

theorem Board.is_subset_of_trans {b1 b2 b3 : Board}
    (h12 : b1.is_subset_of b2 = true) (h23 : b2.is_subset_of b3 = true) :
    b1.is_subset_of b3 = true := by
  rw [Board.is_subset_of_iff] at *
  intro a c ha hc hne
  have h2 := h12 a c ha hc hne
  have h3 := h23 a c ha hc (by rw [h2]; exact hne)
  rw [h3, h2]

theorem Board.is_subset_of_setField (b : Board) (x y v : Nat)
    (hx : x < 9) (hy : y < 9) (hv : v < 16) (hempty : b.field x y = 0) :
    b.is_subset_of (b.setField x y v) = true := by
  rw [Board.is_subset_of_iff]
  intro a c ha hc hne
  by_cases hsame : a = x ∧ c = y
  · exact absurd (hsame.1 ▸ hsame.2 ▸ hempty) hne
  · exact Board.field_setField_ne b x y a c v hx hy ha hc hsame hv

/-! ## `_solve_fast` only fills empty cells (and preserves well-formedness) -/

theorem getD_cases (l : List ValueInfo) (i : Nat) (d : ValueInfo) :
    l.getD i d = d ∨ l.getD i d ∈ l := by
  by_cases h : i < l.length
  · right
    rw [List.getD_eq_getElem l d h]
    exact l.getElem_mem h
  · left
    rw [List.getD_eq_default l d (by omega)]

theorem recordPossiblePlacements_coords (c : Nat × Nat) (P : Nat × Nat → Prop)
    (values : List Nat) (infos infos' : List ValueInfo)
    (h : recordPossiblePlacements c values infos = some infos')
    (hc : P c)
    (hinv : ∀ e ∈ infos, ∀ p, e = .CanOnlyBePlacedAtIndex p → P p) :
    ∀ e ∈ infos', ∀ p, e = .CanOnlyBePlacedAtIndex p → P p := by
  induction values generalizing infos with
  | nil =>
    simp only [recordPossiblePlacements] at h
    cases h
    exact hinv
  | cons v rest ih =>
    simp only [recordPossiblePlacements] at h
    split at h
    · refine ih _ h ?_
      intro e he p hp
      rcases List.mem_or_eq_of_mem_set he with h1 | h1
      · exact hinv e h1 p hp
      · rw [h1] at hp
        cases hp
        exact hc
    · exact absurd h (by simp)
    · refine ih _ h ?_
      intro e he p hp
      rcases List.mem_or_eq_of_mem_set he with h1 | h1
      · exact hinv e h1 p hp
      · rw [h1] at hp
        cases hp
    · exact ih _ h hinv

theorem collectValueInfos_coords (b : Board) (pv : PossibleValues)
    (P : Nat × Nat → Prop) (l : List (Nat × Nat)) (infos infos' : List ValueInfo)
    (h : collectValueInfos b pv l infos = some infos')
    (hl : ∀ p ∈ l, P p)
    (hinv : ∀ e ∈ infos, ∀ p, e = .CanOnlyBePlacedAtIndex p → P p) :
    ∀ e ∈ infos', ∀ p, e = .CanOnlyBePlacedAtIndex p → P p := by
  induction l generalizing infos with
  | nil =>
    simp only [collectValueInfos] at h
    cases h
    exact hinv
  | cons c rest ih =>
    simp only [collectValueInfos] at h
    split at h
    · -- empty cell: record possible placements
      split at h
      · exact absurd h (by simp)
      · refine ih _ h (fun p hp => hl p (List.mem_cons_of_mem _ hp)) ?_
        next infos1 hrec =>
        exact recordPossiblePlacements_coords c P _ infos infos1 hrec
          (hl c (List.mem_cons_self ..)) hinv
    · -- filled cell
      split at h
      · refine ih _ h (fun p hp => hl p (List.mem_cons_of_mem _ hp)) ?_
        intro e he p hp
        rcases List.mem_or_eq_of_mem_set he with h1 | h1
        · exact hinv e h1 p hp
        · rw [h1] at hp
          cases hp
      all_goals exact absurd h (by simp)

theorem placeUniqueValues_extends (infos : List ValueInfo)
    (hinfos : ∀ e ∈ infos, ∀ p, e = .CanOnlyBePlacedAtIndex p → p.1 < 9 ∧ p.2 < 9) :
    ∀ (values : List Nat) (b : Board) (pv : PossibleValues) (f : Bool)
      (b' : Board) (pv' : PossibleValues) (f' : Bool),
      (∀ v ∈ values, 1 ≤ v ∧ v ≤ 9) → b.WF →
      placeUniqueValues infos b pv f values = some (.ok (b', pv', f')) →
      b.is_subset_of b' = true ∧ b'.WF := by
  intro values
  induction values with
  | nil =>
    intro b pv f b' pv' f' hv hWF h
    simp only [placeUniqueValues] at h
    cases h
    exact ⟨Board.is_subset_of_refl b, hWF⟩
  | cons v rest ih =>
    intro b pv f b' pv' f' hv hWF h
    have hv1 := hv v (List.mem_cons_self ..)
    have hvrest := fun w hw => hv w (List.mem_cons_of_mem _ hw)
    simp only [placeUniqueValues] at h
    split at h
    · exact absurd h (by simp)
    · next x y heq =>
      -- unique placement found: the field is set (if still empty)
      rcases getD_cases infos (v - 1) .NoPossiblePlacementFound with hd | hd
      · rw [heq] at hd
        cases hd
      · rw [heq] at hd
        have hxy := hinfos _ hd (x, y) rfl
        split at h
        · exact absurd h (by simp)
        · next hempty =>
          have hempty' : b.field x y = 0 := by
            by_contra hne
            exact hempty hne
          have hstep := ih (b.setField x y v) (pv.remove_conflicting x y v) true b' pv' f'
            hvrest (Board.WF_setField b x y v hxy.1 hxy.2 (by omega)) h
          exact ⟨Board.is_subset_of_trans
            (Board.is_subset_of_setField b x y v hxy.1 hxy.2 (by omega) hempty') hstep.1,
            hstep.2⟩
    · exact ih b pv f b' pv' f' hvrest hWF h
    · exact ih b pv f b' pv' f' hvrest hWF h

theorem initValueInfos_no_placement :
    ∀ e ∈ initValueInfos, ∀ p, e = ValueInfo.CanOnlyBePlacedAtIndex p → p.1 < 9 ∧ p.2 < 9 := by
  intro e he p hp
  have := List.eq_of_mem_replicate he
  rw [this] at hp
  cases hp

theorem solve_fast_fields_extends (b : Board) (pv : PossibleValues)
    (coords : List (Nat × Nat)) (b' : Board) (pv' : PossibleValues) (f' : Bool)
    (hcoords : ∀ p ∈ coords, p.1 < 9 ∧ p.2 < 9) (hWF : b.WF)
    (h : _solve_fast_fields b pv coords = some (.ok (b', pv', f'))) :
    b.is_subset_of b' = true ∧ b'.WF := by
  simp only [_solve_fast_fields] at h
  split at h
  · exact absurd h (by simp)
  · next infos hcollect =>
    have hinfos := collectValueInfos_coords b pv (fun p => p.1 < 9 ∧ p.2 < 9) coords
      initValueInfos infos hcollect hcoords initValueInfos_no_placement
    refine placeUniqueValues_extends infos hinfos _ b pv false b' pv' f' ?_ hWF h
    intro v hv
    rw [List.mem_range'] at hv
    simp only [MAX_VALUE] at hv
    omega

theorem allUnits_ranges : ∀ u ∈ allUnits, ∀ p ∈ u, p.1 < 9 ∧ p.2 < 9 := by
  intro u hu
  simp only [allUnits, List.mem_append, List.mem_map, List.mem_range, List.mem_flatMap,
    HEIGHT, WIDTH] at hu
  rcases hu with (⟨r, hr, rfl⟩ | ⟨c, hc, rfl⟩) | ⟨rx, hrx, ry, hry, rfl⟩
  · exact rowCoords_ranges r hr
  · exact colCoords_ranges c hc
  · exact regionCoords_ranges rx ry hrx hry

theorem solve_fast_units_extends :
    ∀ (units : List (List (Nat × Nat))) (b : Board) (pv : PossibleValues) (f : Bool)
      (b' : Board) (pv' : PossibleValues) (f' : Bool),
      (∀ u ∈ units, ∀ p ∈ u, p.1 < 9 ∧ p.2 < 9) → b.WF →
      _solve_fast_units b pv f units = some (.ok (b', pv', f')) →
      b.is_subset_of b' = true ∧ b'.WF := by
  intro units
  induction units with
  | nil =>
    intro b pv f b' pv' f' hu hWF h
    simp only [_solve_fast_units] at h
    cases h
    exact ⟨Board.is_subset_of_refl b, hWF⟩
  | cons u rest ih =>
    intro b pv f b' pv' f' hu hWF h
    simp only [_solve_fast_units] at h
    split at h
    · exact absurd h (by simp)
    · exact absurd h (by simp)
    · next b1 pv1 f1 heq =>
      have hstep := solve_fast_fields_extends b pv u b1 pv1 f1
        (hu u (List.mem_cons_self ..)) hWF heq
      have hrest := ih b1 pv1 (f || f1) b' pv' f'
        (fun w hw => hu w (List.mem_cons_of_mem _ hw)) hstep.2 h
      exact ⟨Board.is_subset_of_trans hstep.1 hrest.1, hrest.2⟩

theorem solve_fast_extends (b : Board) (pv : PossibleValues)
    (b' : Board) (pv' : PossibleValues) (hWF : b.WF)
    (h : _solve_fast b pv = some (.ok (some (b', pv')))) :
    b.is_subset_of b' = true ∧ b'.WF := by
  simp only [_solve_fast] at h
  split at h
  · exact absurd h (by simp)
  · exact absurd h (by simp)
  · next b1 pv1 f1 heq =>
    split at h
    · simp only [Option.some.injEq, Except.ok.injEq, Prod.mk.injEq] at h
      obtain ⟨h1, h2⟩ := h
      subst h1
      subst h2
      exact solve_fast_units_extends allUnits b pv false _ _ f1 allUnits_ranges hWF heq
    · exact absurd h (by simp)

/-! ## `_solve`: board restoration and solution extension -/

theorem guessLoop_restore_subset (fuel : Nat)
    (IH : ∀ b pv out, b.WF → _solve fuel b pv = some out →
      out.1 = b ∧ (∀ s, out.2 = Except.ok s → b.is_subset_of s = true ∧ s.WF)) :
    ∀ (values : List Nat) (b : Board) (pv : PossibleValues) (x y : Nat)
      (sol : Option Board) (out : Board × Except SolverError Board),
      b.WF → x < 9 → y < 9 →
      (∀ v ∈ values, 1 ≤ v ∧ v ≤ 9) →
      (∀ s, sol = some s → b.is_subset_of s = true ∧ s.WF) →
      solveGuessLoop (_solve fuel) b pv x y values sol = some out →
      out.1 = b ∧ (∀ s, out.2 = Except.ok s → b.is_subset_of s = true ∧ s.WF) := by
  intro values
  induction values with
  | nil =>
    intro b pv x y sol out hWF hx hy hv hsol h
    simp only [solveGuessLoop] at h
    cases h
    refine ⟨rfl, ?_⟩
    intro s hs
    cases sol with
    | none => simp at hs
    | some s0 =>
      have hss : s0 = s := by injection hs
      subst hss
      exact hsol s0 rfl
  | cons v rest ih =>
    intro b pv x y sol out hWF hx hy hv hsol h
    have hv1 := hv v (List.mem_cons_self ..)
    have hvrest := fun w hw => hv w (List.mem_cons_of_mem _ hw)
    simp only [solveGuessLoop] at h
    split at h
    · exact absurd h (by simp)
    · next hempty =>
      have hempty' : b.field x y = 0 := by by_contra hne; exact hempty hne
      have hsetWF : (b.setField x y v).WF := Board.WF_setField b x y v hx hy (by omega)
      have hundo : (b.setField x y v).setField x y 0 = b := by
        rw [Board.setField_setField b x y v 0 hx hy (by omega) (by omega)]
        rw [← hempty']
        exact Board.setField_field_id b x y hWF hx hy
      split at h
      · exact absurd h (by simp)
      · next b2 newSol heq =>
        have hrec := IH _ _ _ hsetWF heq
        have hb2 : b2 = b.setField x y v := hrec.1
        have hnew := hrec.2 newSol rfl
        have hsub : b.is_subset_of newSol = true :=
          Board.is_subset_of_trans
            (Board.is_subset_of_setField b x y v hx hy (by omega) hempty') hnew.1
        split at h
        · -- sol was none: continue with the new solution remembered
          rw [hb2, hundo] at h
          refine ih b pv x y (some newSol) out hWF hx hy hvrest ?_ h
          intro s hs
          cases hs
          exact ⟨hsub, hnew.2⟩
        · -- sol was some: second solution found, return Ambigious
          cases h
          rw [hb2, hundo]
          exact ⟨rfl, by intro s hs; cases hs⟩
      · next b2 heq =>
        -- recursive call returned Ambigious
        have hb2 : b2 = b.setField x y v := (IH _ _ _ hsetWF heq).1
        cases h
        rw [hb2, hundo]
        exact ⟨rfl, by intro s hs; cases hs⟩
      · next b2 heq =>
        -- recursive call returned NotSolvable: try the next value
        have hb2 : b2 = b.setField x y v := (IH _ _ _ hsetWF heq).1
        rw [hb2, hundo] at h
        exact ih b pv x y sol out hWF hx hy hvrest hsol h

theorem solve_restore_subset :
    ∀ (fuel : Nat) (b : Board) (pv : PossibleValues) (out : Board × Except SolverError Board),
      b.WF → _solve fuel b pv = some out →
      out.1 = b ∧ (∀ s, out.2 = Except.ok s → b.is_subset_of s = true ∧ s.WF) := by
  intro fuel
  induction fuel with
  | zero =>
    intro b pv out hWF h
    simp [_solve] at h
  | succ fuel ih =>
    intro b pv out hWF h
    simp only [_solve] at h
    split at h
    · exact absurd h (by simp)
    · -- _solve_fast returned an error: board unchanged
      cases h
      exact ⟨rfl, by intro s hs; cases hs⟩
    · next b1 pv1 hfast =>
      -- fast strategies found something; recurse on the changed board copy
      have hext := solve_fast_extends b pv b1 pv1 hWF hfast
      split at h
      · exact absurd h (by simp)
      · next b2 r hrec =>
        cases h
        refine ⟨rfl, ?_⟩
        intro s hs
        have := (ih b1 pv1 (b2, r) hext.2 hrec).2 s hs
        exact ⟨Board.is_subset_of_trans hext.1 this.1, this.2⟩
    · -- fast strategies found nothing: branch on the first empty field
      split at h
      · -- no empty field: the board itself is the solution
        cases h
        refine ⟨rfl, ?_⟩
        intro s hs
        cases hs
        exact ⟨Board.is_subset_of_refl b, hWF⟩
      · next x y hfe =>
        have hxy := Board.first_empty_some b x y hfe
        exact guessLoop_restore_subset fuel ih _ b pv x y none out hWF hxy.1 hxy.2.1
          (fun w hw => PossibleValues.possible_values_ranges pv x y w hw)
          (by intro s hs; cases hs) h

/-! ## Claim C1 — solutions returned by `solve` -/

/-- C1: if `solve(board)` returns `Ok(solution)`, the solution is
completely filled, has no repeated digit in any row, column or 3x3
region, and the input board is a subset of it. -/
theorem claim_C1_solve_ok_properties (b s : Board) (hWF : b.WF)
    (h : solve b = some (.ok s)) :
    s.is_filled = true ∧ s.has_conflicts = false ∧ b.is_subset_of s = true := by
  simp only [solve] at h
  split at h
  · exact absurd h (by simp)
  · exact absurd h (by simp)
  · next b1 sol heq =>
    split at h
    · next hfill =>
      split at h
      · next hconf =>
        have hss : sol = s := by
          simp only [Option.some.injEq, Except.ok.injEq] at h
          exact h
        subst hss
        refine ⟨hfill, by simpa using hconf, ?_⟩
        exact ((solve_restore_subset SOLVE_FUEL b _ _ hWF heq).2 sol rfl).1
      · exact absurd h (by simp)
    · exact absurd h (by simp)


/-! ## Claim C9 — `_solve` restores its `&mut` board argument -/

/-- C9: whenever `_solve` returns (with `Ok`, `Err(Ambigious)` or
`Err(NotSolvable)`), the final value of its `&mut Board` argument equals
the value at entry: every guess written during the search was undone. -/
theorem claim_C9_solve_restores_board (fuel : Nat) (b : Board) (pv : PossibleValues)
    (out : Board × Except SolverError Board) (hWF : b.WF)
    (h : _solve fuel b pv = some out) : out.1 = b :=
  (solve_restore_subset fuel b pv out hWF h).1



/-! ## Claim C2 — the hidden-single pass skips digit 9 in mod.rs -/

/-- C2 failing input: in `c2Board`'s row 0, digit 9 is not placed and has
exactly one legal cell, `(0,0)` (first conjunct).  mod.rs's
`_solve_fast_fields` — whose value loop is `for value in 1u8..MAX_VALUE`,
an exclusive range stopping at 8 — nevertheless returns the state
unchanged with `found_something = false` (second conjunct), while
strategies.rs's `_solve_hidden_candidates`, which iterates
`1u8..=MAX_VALUE`, places the 9 (third conjunct). -/
theorem claim_C2_value_nine_skipped :
    (PossibleValues.from_board c2Board).possible_values_for_field 0 0 = [9] ∧
    _solve_fast_fields c2Board (PossibleValues.from_board c2Board) (rowCoords 0) =
      some (.ok (c2Board, PossibleValues.from_board c2Board, false)) ∧
    ((_solve_hidden_candidates (set_empty_field_to_value_and_apply_simple_strategies 82)
        c2State (rowCoords 0)).map fun p => (p.1.board.field 0 0, p.2)) =
      some (9, .FoundSomething) := by
  refine ⟨by rfl, by rfl, by rfl⟩

/-! ## Claim C3 — the scoped propagation variant misses deductions -/

/-- C3 failing input: from the state `c3State` with modified cell
`(0,0)`, the scoped variant finds nothing and leaves the state unchanged,
while the full scan places digit 1 at `(4,4)` (a hidden single of row 4,
a unit the scoped variant never examines) — the two variants reach
different fixed points from the same state. -/
theorem claim_C3_scoped_full_divergence :
    solve_simple_strategies_triggered_by_modification 82 c3State 0 0 =
      some (c3State, .FoundNothing) ∧
    solve_simple_strategies 82 c3State =
      some (⟨c3Board.setField 4 4 1,
        (PossibleValues.from_board c3Board).remove_conflicting 4 4 1⟩, .FoundSomething) ∧
    c3Board.setField 4 4 1 ≠ c3Board := by
  refine ⟨by rfl, by rfl, by decide⟩


/-! ## Claim C4 — idempotence on stable states -/

theorem runStrategySteps_const {α : Type}
    (f : BoardBeingSolved → α → Option (BoardBeingSolved × SimpleSolverResult))
    (s : BoardBeingSolved) (l : List α) (acc : SimpleSolverResult)
    (h : ∀ a ∈ l, f s a = some (s, .FoundNothing)) :
    runStrategySteps f s l acc = some (s, acc) := by
  induction l with
  | nil => rfl
  | cons a rest ih =>
    have ha := h a (List.mem_cons_self ..)
    simp only [runStrategySteps, ha]
    exact ih fun b hb => h b (List.mem_cons_of_mem _ hb)

theorem claimStableAmended_known (s : BoardBeingSolved)
    (h : claimStableAmended s = true) :
    ∀ x y : Nat, x < 9 → y < 9 → s.board.field x y = 0 →
      candidateCount s x y ≠ 0 ∧ candidateCount s x y ≠ 1 := by
  intro x y hx hy hempty
  simp only [claimStableAmended, claimStable, Bool.and_eq_true, List.all_eq_true] at h
  have h1 := h.1.1.1 (x, y) ((mem_allCoords x y).mpr ⟨hx, hy⟩)
  have h0 := h.1.2 (x, y) ((mem_allCoords x y).mpr ⟨hx, hy⟩)
  simp only [hempty, beq_self_eq_true, Bool.not_true, Bool.false_or,
    Bool.not_eq_true', beq_eq_false_iff_ne] at h1 h0
  exact ⟨h0, h1⟩

theorem claimStableAmended_hidden (s : BoardBeingSolved)
    (h : claimStableAmended s = true) :
    ∀ u ∈ allUnits, ∀ v : Nat, 1 ≤ v → v ≤ 9 →
      valuePlacedInUnit s u v = false →
      placementCount s u v ≠ 0 ∧ placementCount s u v ≠ 1 := by
  intro u hu v hv1 hv9 hplaced
  simp only [claimStableAmended, claimStable, Bool.and_eq_true, List.all_eq_true] at h
  have hmem : v ∈ List.range' 1 MAX_VALUE := by
    rw [List.mem_range']
    exact ⟨v - 1, by simp only [MAX_VALUE]; omega, by omega⟩
  have h1 := h.1.1.2 u hu v hmem
  have h0 := h.2 u hu v hmem
  simp only [hplaced, Bool.false_or, Bool.not_eq_true', beq_eq_false_iff_ne] at h1 h0
  exact ⟨h0, h1⟩

theorem stable_knownValuesForField (setF : SetFieldFn) (s : BoardBeingSolved)
    (x y : Nat)
    (hcand : s.board.field x y = 0 →
      candidateCount s x y ≠ 0 ∧ candidateCount s x y ≠ 1) :
    solveKnownValuesForField setF s x y = some (s, .FoundNothing) := by
  simp only [solveKnownValuesForField]
  split
  · next hempty =>
    have hc := hcand hempty
    simp only [candidateCount] at hc
    split
    · next heq => rw [heq] at hc; simp at hc
    · next v heq => rw [heq] at hc; simp at hc
    · rfl
  · rfl

theorem hiddenScan_skip_of_placed (s : BoardBeingSolved) (v : Nat) :
    ∀ (l : List (Nat × Nat)) (placement : Option (Nat × Nat)),
      (∃ c ∈ l, s.board.field c.1 c.2 = v) →
      hiddenScan s v l placement = .skip := by
  intro l
  induction l with
  | nil =>
    intro placement h
    simp at h
  | cons c rest ih =>
    intro placement h
    simp only [hiddenScan]
    split
    · rfl
    · next hcv =>
      have hrest : ∃ c' ∈ rest, s.board.field c'.1 c'.2 = v := by
        rcases h with ⟨c', hc', hval⟩
        rcases List.mem_cons.mp hc' with rfl | hmem
        · exact absurd hval hcv
        · exact ⟨c', hmem, hval⟩
      split
      · split
        · split
          · exact ih _ hrest
          · rfl
        · exact ih _ hrest
      · exact ih _ hrest

/-- The `countP` predicate of `placementCount`. -/
theorem hiddenScan_skip_of_multiple (s : BoardBeingSolved) (v : Nat) :
    ∀ (l : List (Nat × Nat)) (placement : Option (Nat × Nat)),
      (∀ c ∈ l, s.board.field c.1 c.2 ≠ v) →
      (match placement with
        | none => 2 ≤ l.countP fun c =>
            s.board.field c.1 c.2 == 0 && s.possible_values.is_possible c.1 c.2 v
        | some _ => 1 ≤ l.countP fun c =>
            s.board.field c.1 c.2 == 0 && s.possible_values.is_possible c.1 c.2 v) →
      hiddenScan s v l placement = .skip := by
  intro l
  induction l with
  | nil =>
    intro placement hnv hcount
    cases placement <;> simp [List.countP_nil] at hcount
  | cons c rest ih =>
    intro placement hnv hcount
    have hcv := hnv c (List.mem_cons_self ..)
    have hnvrest := fun c' hc' => hnv c' (List.mem_cons_of_mem _ hc')
    have hcount_cons : (c :: rest).countP (fun c =>
        s.board.field c.1 c.2 == 0 && s.possible_values.is_possible c.1 c.2 v) =
        rest.countP (fun c =>
          s.board.field c.1 c.2 == 0 && s.possible_values.is_possible c.1 c.2 v) +
          (if s.board.field c.1 c.2 == 0 && s.possible_values.is_possible c.1 c.2 v
            then 1 else 0) := by
      rw [List.countP_cons]
    simp only [hiddenScan]
    split
    · rfl
    · split
      · next hzero =>
        split
        · next hposs =>
          have hP : (s.board.field c.1 c.2 == 0 &&
              s.possible_values.is_possible c.1 c.2 v) = true := by
            simp [hzero, hposs]
          split
          · -- placement was none: remember this cell, ≥ 1 remain in rest
            apply ih (some c) hnvrest
            rw [hcount_cons, hP] at hcount
            norm_num at hcount
            simp only
            omega
          · rfl
        · next hposs =>
          have hP : (s.board.field c.1 c.2 == 0 &&
              s.possible_values.is_possible c.1 c.2 v) = false := by
            simp [hposs]
          apply ih placement hnvrest
          rw [hcount_cons, hP] at hcount
          cases placement <;> simpa using hcount
      · next hzero =>
        have hP : (s.board.field c.1 c.2 == 0 &&
            s.possible_values.is_possible c.1 c.2 v) = false := by
          simp [hzero]
        apply ih placement hnvrest
        rw [hcount_cons, hP] at hcount
        cases placement <;> simpa using hcount

theorem stable_hiddenCandidateStep (setF : SetFieldFn) (s : BoardBeingSolved)
    (u : List (Nat × Nat)) (v : Nat)
    (hstable : valuePlacedInUnit s u v = false →
      placementCount s u v ≠ 0 ∧ placementCount s u v ≠ 1) :
    hiddenCandidateStep setF u s v = some (s, .FoundNothing) := by
  simp only [hiddenCandidateStep]
  by_cases hplaced : valuePlacedInUnit s u v = true
  · have : ∃ c ∈ u, s.board.field c.1 c.2 = v := by
      simp only [valuePlacedInUnit, List.any_eq_true, beq_iff_eq] at hplaced
      exact hplaced
    rw [hiddenScan_skip_of_placed s v u none this]
  · have hplaced' : valuePlacedInUnit s u v = false := by
      simp only [Bool.not_eq_true] at hplaced
      exact hplaced
    have hnv : ∀ c ∈ u, s.board.field c.1 c.2 ≠ v := by
      intro c hc hval
      apply hplaced
      simp only [valuePlacedInUnit, List.any_eq_true]
      exact ⟨c, hc, by simp [hval]⟩
    have hc := hstable hplaced'
    simp only [placementCount] at hc
    rw [hiddenScan_skip_of_multiple s v u none hnv (by simp only; omega)]

/-- C4 amended: applying the Propagation Engine (full scan) to a stable
`SolvingState` — no empty cell has exactly one (or zero) candidates, and
no unit has an unplaced digit with exactly one (or zero) possible
cells — returns `FoundNothing` and leaves board and candidate set exactly
unchanged, for any fuel. -/
theorem claim_C4_stable_idempotent (fuel : Nat) (s : BoardBeingSolved)
    (h : claimStableAmended s = true) :
    solve_simple_strategies fuel s = some (s, .FoundNothing) := by
  have hknownAll := claimStableAmended_known s h
  have hhiddenAll := claimStableAmended_hidden s h
  have hknown : solve_known_values
      (set_empty_field_to_value_and_apply_simple_strategies fuel) s =
      some (s, .FoundNothing) := by
    apply runStrategySteps_const
    intro c hc
    rcases c with ⟨x, y⟩
    rw [mem_allCoords] at hc
    exact stable_knownValuesForField _ s x y (hknownAll x y hc.1 hc.2)
  have hhidden : solve_hidden_candidates
      (set_empty_field_to_value_and_apply_simple_strategies fuel) s =
      some (s, .FoundNothing) := by
    apply runStrategySteps_const
    intro u hu
    apply runStrategySteps_const
    intro v hv
    rw [List.mem_range'] at hv
    exact stable_hiddenCandidateStep _ s u v
      (hhiddenAll u hu v (by omega) (by simp only [MAX_VALUE] at hv; omega))
  simp only [solve_simple_strategies, solve_simple_strategiesP, hknown, hhidden]
  rfl

/-- C4 counterexample to the claim as stated: `c4State` satisfies the
claim's stability precondition (`claimStable`), yet the engine returns
`NotSolvable` — not `FoundNothing` — because the empty cell `(0,0)` has
*zero* candidates. -/
theorem claim_C4_counterexample :
    claimStable c4State = true ∧
      solve_simple_strategies 82 c4State = some (c4State, .NotSolvable) := by
  refine ⟨by decide, by rfl⟩

/-- Witness for (amended) C4: the empty board with its derived candidate
set is stable, and the engine leaves it unchanged. -/
theorem claim_C4_stable_idempotent_witness :
    solve_simple_strategies 0
      ⟨Board.new_empty, PossibleValues.from_board Board.new_empty⟩ =
      some (⟨Board.new_empty, PossibleValues.from_board Board.new_empty⟩, .FoundNothing) :=
  claim_C4_stable_idempotent 0
    ⟨Board.new_empty, PossibleValues.from_board Board.new_empty⟩ (by decide)

/-! ## Complete boards: distinct unit values and coverage -/

theorem conflictsGo_nodup (b : Board) :
    ∀ (l : List (Nat × Nat)) (seen : Nat),
      b.hasConflictsInFieldsGo l seen = false →
      ((l.map fun c => b.field c.1 c.2).filter (fun v => v ≠ 0)).Nodup ∧
        ∀ v ∈ (l.map fun c => b.field c.1 c.2).filter (fun v => v ≠ 0),
          v ≥ 1 → seen.testBit (v - 1) = false := by
  intro l
  induction l with
  | nil =>
    intro seen h
    exact ⟨List.nodup_nil, by simp⟩
  | cons c rest ih =>
    intro seen h
    simp only [Board.hasConflictsInFieldsGo] at h
    by_cases h0 : b.field c.1 c.2 = 0
    · rw [if_pos h0] at h
      have hrec := ih seen h
      have hfc : (((c :: rest).map fun c => b.field c.1 c.2).filter (fun v => v ≠ 0)) =
          ((rest.map fun c => b.field c.1 c.2).filter (fun v => v ≠ 0)) := by
        simp [h0]
      rw [hfc]
      exact hrec
    · rw [if_neg h0] at h
      have hfc : (((c :: rest).map fun c => b.field c.1 c.2).filter (fun v => v ≠ 0)) =
          b.field c.1 c.2 ::
            ((rest.map fun c => b.field c.1 c.2).filter (fun v => v ≠ 0)) := by
        simp [h0]
      by_cases htb : seen.testBit (b.field c.1 c.2 - 1) = true
      · rw [if_pos htb] at h
        exact absurd h (by simp)
      · have htb' : seen.testBit (b.field c.1 c.2 - 1) = false := by
          simpa using htb
        rw [if_neg (by simp [htb'])] at h
        have hrec := ih _ h
        have hnotinrest : b.field c.1 c.2 ∉
            ((rest.map fun c => b.field c.1 c.2).filter (fun v => v ≠ 0)) := by
          intro hmem
          have := hrec.2 _ hmem (by omega)
          rw [Nat.testBit_or, Nat.one_shiftLeft, Nat.testBit_two_pow_self] at this
          simp at this
        rw [hfc]
        constructor
        · exact List.Nodup.cons hnotinrest hrec.1
        · intro v hv hv1
          rcases List.mem_cons.mp hv with rfl | hv
          · exact htb'
          · have := hrec.2 v hv hv1
            rw [Nat.testBit_or] at this
            exact (Bool.or_eq_false_iff.mp this).1

theorem unit_values_nodup (b : Board) (u : List (Nat × Nat))
    (hconf : b.has_conflicts = false) (hu : u ∈ allUnits) :
    ((u.map fun c => b.field c.1 c.2).filter (fun v => v ≠ 0)).Nodup := by
  have hcheck : b.has_conflicts_in_fields u = false := by
    rw [Board.has_conflicts, List.any_eq_false] at hconf
    simpa using hconf u hu
  exact (conflictsGo_nodup b u 0 hcheck).1

theorem allUnits_length : ∀ u ∈ allUnits, u.length = 9 := by
  intro u hu
  simp only [allUnits, List.mem_append, List.mem_map, List.mem_range, List.mem_flatMap,
    HEIGHT, WIDTH] at hu
  rcases hu with (⟨r, _, rfl⟩ | ⟨c, _, rfl⟩) | ⟨rx, _, ry, _, rfl⟩
  · rfl
  · rfl
  · rfl

theorem nodup_nine_mem (vl : List Nat) (hlen : vl.length = 9) (hnd : vl.Nodup)
    (hmem : ∀ v ∈ vl, v ∈ List.range' 1 9) : ∀ w ∈ List.range' 1 9, w ∈ vl := by
  intro w hw
  have hsub : vl.toFinset ⊆ (List.range' 1 9).toFinset := by
    intro v hv
    rw [List.mem_toFinset] at *
    exact hmem v (by simpa using hv)
  have hcard1 : vl.toFinset.card = 9 := by
    rw [List.toFinset_card_of_nodup hnd, hlen]
  have hcard2 : (List.range' 1 9).toFinset.card = 9 := by decide
  have heq : vl.toFinset = (List.range' 1 9).toFinset :=
    Finset.eq_of_subset_of_card_le hsub (by omega)
  have : w ∈ vl.toFinset := by
    rw [heq, List.mem_toFinset]
    exact hw
  simpa using this

theorem filled_unit_onto (b : Board) (u : List (Nat × Nat))
    (hu : u ∈ allUnits) (hconf : b.has_conflicts = false)
    (hfilled : ∀ c ∈ u, b.field c.1 c.2 ≠ 0)
    (hle : ∀ c ∈ u, b.field c.1 c.2 ≤ 9) :
    ∀ w, 1 ≤ w → w ≤ 9 → ∃ c ∈ u, b.field c.1 c.2 = w := by
  intro w hw1 hw9
  have hfe : (u.map fun c => b.field c.1 c.2).filter (fun v => v ≠ 0) =
      u.map fun c => b.field c.1 c.2 := by
    rw [List.filter_eq_self]
    intro v hv
    rcases List.mem_map.mp hv with ⟨c, hc, rfl⟩
    simpa using hfilled c hc
  have hnd := unit_values_nodup b u hconf hu
  rw [hfe] at hnd
  have hlen : (u.map fun c => b.field c.1 c.2).length = 9 := by
    rw [List.length_map]
    exact allUnits_length u hu
  have hmem : ∀ v ∈ u.map fun c => b.field c.1 c.2, v ∈ List.range' 1 9 := by
    intro v hv
    rcases List.mem_map.mp hv with ⟨c, hc, rfl⟩
    rw [List.mem_range']
    refine ⟨b.field c.1 c.2 - 1, ?_, ?_⟩
    · have h1 := hfilled c hc
      have h2 := hle c hc
      omega
    · have h1 := hfilled c hc
      omega
  have hw : w ∈ u.map fun c => b.field c.1 c.2 :=
    nodup_nine_mem _ hlen hnd hmem w (by
      rw [List.mem_range']
      exact ⟨w - 1, by omega, by omega⟩)
  rcases List.mem_map.mp hw with ⟨c, hc, hval⟩
  exact ⟨c, hc, hval⟩

/-! ## Characterising `PossibleValues.from_board` -/

theorem new_all_is_possible_bit (x y w : Nat) (hx : x < 9) (hy : y < 9)
    (hw1 : 1 ≤ w) (hw9 : w ≤ 9) :
    PossibleValues.new_all_is_possible.is_possible x y w = true := by
  simp only [PossibleValues.new_all_is_possible, PossibleValues.is_possible]
  rw [Nat.testBit_two_pow_sub_one]
  simpa using PossibleValues.bitIndex_lt x y w hx hy hw1 hw9

theorem foldl_from_board_is_possible (b : Board) (x y w : Nat) (hx : x < 9) (hy : y < 9)
    (hw1 : 1 ≤ w) (hw9 : w ≤ 9) :
    ∀ (l : List (Nat × Nat)) (pv : PossibleValues),
      (∀ c ∈ l, c.1 < 9 ∧ c.2 < 9) →
      (∀ c ∈ l, b.field c.1 c.2 ≤ 9) →
      (l.foldl (fun pv c =>
        let v := b.field c.1 c.2
        if v ≠ 0 then pv.remove_conflicting c.1 c.2 v else pv) pv).is_possible x y w =
      (pv.is_possible x y w &&
        l.all fun c => (b.field c.1 c.2 == 0) ||
          !(decide (x = c.1 ∨ y = c.2 ∨ (x / 3 = c.1 / 3 ∧ y / 3 = c.2 / 3)) &&
            decide (w = b.field c.1 c.2))) := by
  intro l
  induction l with
  | nil =>
    intro pv hr hv
    simp
  | cons c rest ih =>
    intro pv hr hv
    have hc := hr c (List.mem_cons_self ..)
    have hcv := hv c (List.mem_cons_self ..)
    have hrrest := fun p hp => hr p (List.mem_cons_of_mem _ hp)
    have hvrest := fun p hp => hv p (List.mem_cons_of_mem _ hp)
    simp only [List.foldl_cons, List.all_cons]
    by_cases h0 : b.field c.1 c.2 = 0
    · rw [if_neg (by simp [h0])]
      rw [ih pv hrrest hvrest]
      simp [h0]
    · rw [if_pos (by simp [h0])]
      rw [ih _ hrrest hvrest]
      rw [PossibleValues.is_possible_remove_conflicting pv c.1 c.2 (b.field c.1 c.2)
        x y w hc.1 hc.2 hx hy (by omega) hcv hw1 hw9]
      have hbe : (b.field c.1 c.2 == 0) = false := by simpa using h0
      rw [hbe]
      cases hcond : decide (x = c.1 ∨ y = c.2 ∨ (x / 3 = c.1 / 3 ∧ y / 3 = c.2 / 3)) <;>
        cases hw : decide (w = b.field c.1 c.2) <;>
        cases hp : pv.is_possible x y w <;> simp

theorem from_board_is_possible (b : Board) (x y w : Nat) (hx : x < 9) (hy : y < 9)
    (hw1 : 1 ≤ w) (hw9 : w ≤ 9)
    (hbv : ∀ a c : Nat, a < 9 → c < 9 → b.field a c ≤ 9) :
    (PossibleValues.from_board b).is_possible x y w =
      allCoords.all fun c => (b.field c.1 c.2 == 0) ||
        !(decide (x = c.1 ∨ y = c.2 ∨ (x / 3 = c.1 / 3 ∧ y / 3 = c.2 / 3)) &&
          decide (w = b.field c.1 c.2)) := by
  have h1 := foldl_from_board_is_possible b x y w hx hy hw1 hw9 allCoords
    PossibleValues.new_all_is_possible
    (by intro c hc; rcases c with ⟨a, d⟩; exact (mem_allCoords a d).mp hc)
    (by intro c hc; rcases c with ⟨a, d⟩
        have := (mem_allCoords a d).mp hc
        exact hbv a d this.1 this.2)
  rw [PossibleValues.from_board] at *
  rw [h1, new_all_is_possible_bit x y w hx hy hw1 hw9, Bool.true_and]

theorem rowCoords_mem_allUnits (y : Nat) (hy : y < 9) : rowCoords y ∈ allUnits := by
  simp only [allUnits, List.mem_append, List.mem_map, List.mem_range, HEIGHT]
  exact Or.inl (Or.inl ⟨y, hy, rfl⟩)

theorem colCoords_mem_allUnits (x : Nat) (hx : x < 9) : colCoords x ∈ allUnits := by
  simp only [allUnits, List.mem_append, List.mem_map, List.mem_range, WIDTH]
  exact Or.inl (Or.inr ⟨x, hx, rfl⟩)

theorem regionCoords_mem_allUnits (rx ry : Nat) (hrx : rx < 3) (hry : ry < 3) :
    regionCoords rx ry ∈ allUnits := by
  simp only [allUnits, List.mem_append, List.mem_flatMap, List.mem_map, List.mem_range]
  exact Or.inr ⟨rx, hrx, ry, hry, rfl⟩

theorem filled_unit_inj (b : Board) (u : List (Nat × Nat))
    (hu : u ∈ allUnits) (hconf : b.has_conflicts = false)
    (hfilled : ∀ c ∈ u, b.field c.1 c.2 ≠ 0) :
    ∀ c1 ∈ u, ∀ c2 ∈ u, b.field c1.1 c1.2 = b.field c2.1 c2.2 → c1 = c2 := by
  have hfe : (u.map fun c => b.field c.1 c.2).filter (fun v => v ≠ 0) =
      u.map fun c => b.field c.1 c.2 := by
    rw [List.filter_eq_self]
    intro v hv
    rcases List.mem_map.mp hv with ⟨c, hc, rfl⟩
    simpa using hfilled c hc
  have hnd := unit_values_nodup b u hconf hu
  rw [hfe] at hnd
  exact List.inj_on_of_nodup_map hnd

/-- Two cells sharing a column, row or region lie in a common unit. -/
theorem sameUnit_common (a c x y : Nat) (ha : a < 9) (hc : c < 9) (hx : x < 9) (hy : y < 9)
    (h : x = a ∨ y = c ∨ (x / 3 = a / 3 ∧ y / 3 = c / 3)) :
    ∃ u ∈ allUnits, (a, c) ∈ u ∧ (x, y) ∈ u := by
  rcases h with h | h | h
  · exact ⟨colCoords a, colCoords_mem_allUnits a ha,
      (mem_colCoords a c a).mpr ⟨rfl, hc⟩, (mem_colCoords x y a).mpr ⟨h, hy⟩⟩
  · exact ⟨rowCoords c, rowCoords_mem_allUnits c hc,
      (mem_rowCoords a c c).mpr ⟨rfl, ha⟩, (mem_rowCoords x y c).mpr ⟨h, hx⟩⟩
  · exact ⟨regionCoords (a / 3) (c / 3),
      regionCoords_mem_allUnits (a / 3) (c / 3) (by omega) (by omega),
      (mem_regionCoords a c (a / 3) (c / 3)).mpr ⟨rfl, rfl⟩,
      (mem_regionCoords x y (a / 3) (c / 3)).mpr ⟨h.1, h.2⟩⟩

/-! ## A complete board minus one cell -/

theorem is_filled_field_ne (S : Board) (hfill : S.is_filled = true) :
    ∀ a c : Nat, a < 9 → c < 9 → S.field a c ≠ 0 := by
  intro a c ha hc
  have hnone : S.first_empty_field_index = none := by
    simpa [Board.is_filled, Option.isNone_iff_eq_none] using hfill
  exact Board.first_empty_none S hnone a c ha hc

theorem minus_one_is_possible (S : Board) (x0 y0 w : Nat)
    (hx0 : x0 < 9) (hy0 : y0 < 9) (hw1 : 1 ≤ w) (hw9 : w ≤ 9)
    (hfill : S.is_filled = true) (hconf : S.has_conflicts = false)
    (hvals : ∀ x y : Nat, x < 9 → y < 9 → S.field x y ≤ 9) :
    (PossibleValues.from_board (S.setField x0 y0 0)).is_possible x0 y0 w =
      (w == S.field x0 y0) := by
  set S' := S.setField x0 y0 0 with hS'
  have hS'00 : S'.field x0 y0 = 0 := Board.field_setField_same S x0 y0 0 hx0 hy0 (by omega)
  have hframe : ∀ a c : Nat, a < 9 → c < 9 → ¬(a = x0 ∧ c = y0) →
      S'.field a c = S.field a c := fun a c ha hc hne =>
    Board.field_setField_ne S x0 y0 a c 0 hx0 hy0 ha hc hne (by omega)
  have hfilledS := is_filled_field_ne S hfill
  have hbv' : ∀ a c : Nat, a < 9 → c < 9 → S'.field a c ≤ 9 := by
    intro a c ha hc
    by_cases hne : a = x0 ∧ c = y0
    · rw [hne.1, hne.2, hS'00]
      omega
    · rw [hframe a c ha hc hne]
      exact hvals a c ha hc
  rw [from_board_is_possible S' x0 y0 w hx0 hy0 hw1 hw9 hbv']
  by_cases hwv : w = S.field x0 y0
  · -- w is the removed value: no same-unit cell of S' holds it
    have : (allCoords.all fun c => (S'.field c.1 c.2 == 0) ||
        !(decide (x0 = c.1 ∨ y0 = c.2 ∨ (x0 / 3 = c.1 / 3 ∧ y0 / 3 = c.2 / 3)) &&
          decide (w = S'.field c.1 c.2))) = true := by
      rw [List.all_eq_true]
      intro c hcmem
      rcases c with ⟨a, d⟩
      have har := (mem_allCoords a d).mp hcmem
      simp only [Bool.or_eq_true, Bool.not_eq_true', Bool.and_eq_false_iff,
        beq_iff_eq, decide_eq_true_eq, decide_eq_false_iff_not]
      by_cases h0 : S'.field a d = 0
      · exact Or.inl h0
      · right
        by_cases hcond : x0 = a ∨ y0 = d ∨ (x0 / 3 = a / 3 ∧ y0 / 3 = d / 3)
        · right
          intro hval
          have hne : ¬(a = x0 ∧ d = y0) := by
            intro hh
            rw [hh.1, hh.2] at h0
            exact h0 hS'00
          have hSa : S.field a d = w := by
            rw [← hframe a d har.1 har.2 hne]
            exact hval.symm
          obtain ⟨u, hu, hmem1, hmem2⟩ :=
            sameUnit_common a d x0 y0 har.1 har.2 hx0 hy0 hcond
          have hinj := filled_unit_inj S u hu hconf
            (fun c hc => hfilledS c.1 c.2
              ((allUnits_ranges u hu c hc).1) ((allUnits_ranges u hu c hc).2))
          have : (a, d) = (x0, y0) := by
            apply hinj (a, d) hmem1 (x0, y0) hmem2
            simp only
            rw [hSa, hwv]
          rw [Prod.mk.injEq] at this
          exact hne this
        · exact Or.inl hcond
    rw [this]
    simp [hwv]
  · -- w is a different digit: it still sits somewhere in row y0
    obtain ⟨c, hcmem, hcval⟩ := filled_unit_onto S (rowCoords y0)
      (rowCoords_mem_allUnits y0 hy0) hconf
      (fun c hc => hfilledS c.1 c.2
        ((rowCoords_ranges y0 hy0 c hc).1) ((rowCoords_ranges y0 hy0 c hc).2))
      (fun c hc => hvals c.1 c.2
        ((rowCoords_ranges y0 hy0 c hc).1) ((rowCoords_ranges y0 hy0 c hc).2))
      w hw1 hw9
    rcases c with ⟨a, d⟩
    have hrc := (mem_rowCoords a d y0).mp hcmem
    have hne : ¬(a = x0 ∧ d = y0) := by
      intro hh
      rw [hh.1, hh.2] at hcval
      exact hwv hcval.symm
    have hS'c : S'.field a d = w := by
      rw [hframe a d hrc.2 (hrc.1 ▸ hy0) hne]
      exact hcval
    have : (allCoords.all fun c => (S'.field c.1 c.2 == 0) ||
        !(decide (x0 = c.1 ∨ y0 = c.2 ∨ (x0 / 3 = c.1 / 3 ∧ y0 / 3 = c.2 / 3)) &&
          decide (w = S'.field c.1 c.2))) = false := by
      rw [List.all_eq_false]
      refine ⟨(a, d), (mem_allCoords a d).mpr ⟨hrc.2, hrc.1 ▸ hy0⟩, ?_⟩
      simp only [Bool.or_eq_true, Bool.not_eq_true', Bool.and_eq_false_iff,
        beq_iff_eq, decide_eq_true_eq, decide_eq_false_iff_not, not_or]
      refine ⟨?_, ?_, ?_⟩
      · rw [hS'c]
        omega
      · intro h
        exact h.2.1 hrc.1.symm
      · intro h
        exact h hS'c.symm
    rw [this]
    simp [hwv]

theorem filter_range_beq : ∀ v0 < 10, 1 ≤ v0 →
    (List.range' 1 9).filter (fun w => w == v0) = [v0] := by decide

theorem minus_one_possible_list (S : Board) (x0 y0 : Nat)
    (hx0 : x0 < 9) (hy0 : y0 < 9)
    (hfill : S.is_filled = true) (hconf : S.has_conflicts = false)
    (hvals : ∀ x y : Nat, x < 9 → y < 9 → S.field x y ≤ 9) :
    (PossibleValues.from_board (S.setField x0 y0 0)).possible_values_for_field x0 y0 =
      [S.field x0 y0] := by
  have hv0ne := is_filled_field_ne S hfill x0 y0 hx0 hy0
  have hv0le := hvals x0 y0 hx0 hy0
  rw [PossibleValues.possible_values_for_field]
  rw [List.filter_congr (q := fun w => w == S.field x0 y0) ?_]
  · exact filter_range_beq (S.field x0 y0) (by omega) (by omega)
  · intro w hw
    rw [List.mem_range'] at hw
    obtain ⟨i, hi, rfl⟩ := hw
    exact minus_one_is_possible S x0 y0 (1 + 1 * i) hx0 hy0 (by omega) (by omega)
      hfill hconf hvals

/-! ## `_solve_fast_fields` on filled and one-empty units -/

theorem getD_set_vi (l : List ValueInfo) (i j : Nat) (x d : ValueInfo) :
    (l.set i x).getD j d = if i = j ∧ j < l.length then x else l.getD j d := by
  rw [List.getD_eq_getElem?_getD, List.getD_eq_getElem?_getD, List.getElem?_set]
  by_cases h : i = j
  · subst h
    by_cases hl : i < l.length
    · simp [hl]
    · rw [List.getElem?_eq_none (by omega)]
      simp [hl]
  · simp [h]

theorem getD_initValueInfos (i : Nat) :
    initValueInfos.getD i .NoPossiblePlacementFound = .NoPossiblePlacementFound := by
  rw [List.getD_eq_getElem?_getD, initValueInfos]
  by_cases h : i < MAX_VALUE
  · rw [List.getElem?_eq_getElem (by simpa using h)]
    simp [List.getElem_replicate]
  · rw [List.getElem?_eq_none (by simpa using h)]
    rfl

theorem initValueInfos_length : initValueInfos.length = 9 := rfl

theorem collectValueInfos_append (b : Board) (pv : PossibleValues) :
    ∀ (l1 l2 : List (Nat × Nat)) (infos infos1 : List ValueInfo),
      collectValueInfos b pv l1 infos = some infos1 →
      collectValueInfos b pv (l1 ++ l2) infos = collectValueInfos b pv l2 infos1 := by
  intro l1
  induction l1 with
  | nil =>
    intro l2 infos infos1 h
    simp only [collectValueInfos] at h
    cases h
    rfl
  | cons c rest ih =>
    intro l2 infos infos1 h
    simp only [collectValueInfos, List.cons_append] at h ⊢
    by_cases hv : b.field c.1 c.2 = 0
    · rw [if_pos hv] at h ⊢
      cases hrec : recordPossiblePlacements c (pv.possible_values_for_field c.1 c.2) infos with
      | none => simp only [hrec] at h; exact absurd h (by simp)
      | some infos' =>
        simp only [hrec] at h ⊢
        exact ih _ _ _ h
    · rw [if_neg hv] at h ⊢
      cases hgd : infos.getD (b.field c.1 c.2 - 1) .NoPossiblePlacementFound with
      | NoPossiblePlacementFound =>
        simp only [hgd] at h ⊢
        exact ih _ _ _ h
      | AlreadyPlaced => simp only [hgd] at h; exact absurd h (by simp)
      | CanOnlyBePlacedAtIndex p => simp only [hgd] at h; exact absurd h (by simp)
      | MultiplePossiblePlacementsFound => simp only [hgd] at h; exact absurd h (by simp)

theorem collectValueInfos_filled (b : Board) (pv : PossibleValues) :
    ∀ (l : List (Nat × Nat)) (infos : List ValueInfo),
      (∀ c ∈ l, b.field c.1 c.2 ≠ 0) →
      (∀ c ∈ l, b.field c.1 c.2 ≤ 9) →
      (l.map fun c => b.field c.1 c.2).Nodup →
      (∀ c ∈ l, infos.getD (b.field c.1 c.2 - 1) .NoPossiblePlacementFound =
        .NoPossiblePlacementFound) →
      infos.length = 9 →
      ∃ infos', collectValueInfos b pv l infos = some infos' ∧ infos'.length = 9 ∧
        (∀ w, (∃ c ∈ l, b.field c.1 c.2 = w) →
          infos'.getD (w - 1) .NoPossiblePlacementFound = .AlreadyPlaced) ∧
        (∀ i, (∀ c ∈ l, b.field c.1 c.2 - 1 ≠ i) →
          infos'.getD i .NoPossiblePlacementFound =
            infos.getD i .NoPossiblePlacementFound) := by
  intro l
  induction l with
  | nil =>
    intro infos _ _ _ _ hlen
    refine ⟨infos, rfl, hlen, ?_, ?_⟩
    · rintro w ⟨c, hc, -⟩
      simp at hc
    · intro i _
      rfl
  | cons c rest ih =>
    intro infos hfil hle hnd hfresh hlen
    have hc0 := hfil c (List.mem_cons_self ..)
    have hc9 := hle c (List.mem_cons_self ..)
    have hcfresh := hfresh c (List.mem_cons_self ..)
    rw [List.map_cons, List.nodup_cons] at hnd
    have hstep : collectValueInfos b pv (c :: rest) infos =
        collectValueInfos b pv rest (infos.set (b.field c.1 c.2 - 1) .AlreadyPlaced) := by
      simp only [collectValueInfos]
      rw [if_neg hc0, hcfresh]
    have hvne : ∀ c' ∈ rest, b.field c'.1 c'.2 ≠ b.field c.1 c.2 := by
      intro c' hc' heq
      exact hnd.1 (heq ▸ List.mem_map_of_mem _ hc')
    have hidx : ∀ c' ∈ rest, b.field c'.1 c'.2 - 1 ≠ b.field c.1 c.2 - 1 := by
      intro c' hc'
      have h1 := hfil c' (List.mem_cons_of_mem _ hc')
      have h2 := hvne c' hc'
      omega
    obtain ⟨infos', hcol, hlen', hplaced, hframe⟩ := ih
      (infos.set (b.field c.1 c.2 - 1) .AlreadyPlaced)
      (fun c' hc' => hfil c' (List.mem_cons_of_mem _ hc'))
      (fun c' hc' => hle c' (List.mem_cons_of_mem _ hc'))
      hnd.2
      (by
        intro c' hc'
        rw [getD_set_vi, if_neg]
        · exact hfresh c' (List.mem_cons_of_mem _ hc')
        · intro hh
          exact hidx c' hc' hh.1.symm)
      (by rw [List.length_set]; exact hlen)
    have hkey : infos'.getD (b.field c.1 c.2 - 1) .NoPossiblePlacementFound
        = .AlreadyPlaced := by
      rw [hframe _ hidx, getD_set_vi, if_pos ⟨rfl, by rw [hlen]; omega⟩]
    refine ⟨infos', by rw [hstep]; exact hcol, hlen', ?_, ?_⟩
    · intro w hw
      rcases hw with ⟨c', hc', hval⟩
      rcases List.mem_cons.mp hc' with heq | hmem
      · subst heq
        exact hval ▸ hkey
      · exact hplaced w ⟨c', hmem, hval⟩
    · intro i hi
      rw [hframe i (fun c' hc' => hi c' (List.mem_cons_of_mem _ hc'))]
      rw [getD_set_vi, if_neg]
      intro hh
      exact hi c (List.mem_cons_self ..) hh.1

theorem placeUniqueValues_skip (infos : List ValueInfo) :
    ∀ (values : List Nat) (b : Board) (pv : PossibleValues) (f : Bool),
      (∀ v ∈ values, infos.getD (v - 1) .NoPossiblePlacementFound = .AlreadyPlaced) →
      placeUniqueValues infos b pv f values = some (.ok (b, pv, f)) := by
  intro values
  induction values with
  | nil => intro b pv f _; rfl
  | cons v rest ih =>
    intro b pv f h
    simp only [placeUniqueValues]
    rw [h v (List.mem_cons_self ..)]
    exact ih b pv f fun w hw => h w (List.mem_cons_of_mem _ hw)

theorem placeUniqueValues_append (infos : List ValueInfo) :
    ∀ (l1 l2 : List Nat) (b : Board) (pv : PossibleValues) (f : Bool)
      (b1 : Board) (pv1 : PossibleValues) (f1 : Bool),
      placeUniqueValues infos b pv f l1 = some (.ok (b1, pv1, f1)) →
      placeUniqueValues infos b pv f (l1 ++ l2) =
        placeUniqueValues infos b1 pv1 f1 l2 := by
  intro l1
  induction l1 with
  | nil =>
    intro l2 b pv f b1 pv1 f1 h
    simp only [placeUniqueValues, Option.some.injEq, Except.ok.injEq,
      Prod.mk.injEq] at h
    rw [List.nil_append, h.1, h.2.1, h.2.2]
  | cons v rest ih =>
    intro l2 b pv f b1 pv1 f1 h
    simp only [placeUniqueValues, List.cons_append] at h ⊢
    cases hgd : infos.getD (v - 1) .NoPossiblePlacementFound with
    | NoPossiblePlacementFound => simp only [hgd] at h; exact absurd h (by simp)
    | AlreadyPlaced =>
      simp only [hgd] at h ⊢
      exact ih _ _ _ _ _ _ _ h
    | MultiplePossiblePlacementsFound =>
      simp only [hgd] at h ⊢
      exact ih _ _ _ _ _ _ _ h
    | CanOnlyBePlacedAtIndex p =>
      obtain ⟨x, y⟩ := p
      simp only [hgd] at h ⊢
      by_cases hf : b.field x y = 0
      · rw [if_neg (fun hc => hc hf)] at h ⊢
        exact ih _ _ _ _ _ _ _ h
      · rw [if_pos hf] at h
        exact absurd h (by simp)

/-! ## Units have no duplicate coordinates -/

theorem rowCoords_nodup (y : Nat) : (rowCoords y).Nodup := by
  refine List.Nodup.map ?_ (List.nodup_range _)
  intro a b h
  exact congrArg Prod.fst h

theorem colCoords_nodup (x : Nat) : (colCoords x).Nodup := by
  refine List.Nodup.map ?_ (List.nodup_range _)
  intro a b h
  exact congrArg Prod.snd h

theorem regionCoords_nodup (rx ry : Nat) : (regionCoords rx ry).Nodup := by
  simp only [regionCoords, show List.range 3 = [0, 1, 2] from rfl, List.flatMap_cons,
    List.flatMap_nil, List.map_cons, List.map_nil, List.append_nil, List.cons_append,
    List.nil_append]
  simp only [List.nodup_cons, List.mem_cons, List.not_mem_nil, Prod.mk.injEq, not_or,
    List.nodup_nil, and_true]
  simp only [true_and, not_false_iff, and_true]
  omega

theorem allUnits_nodup : ∀ u ∈ allUnits, u.Nodup := by
  intro u hu
  simp only [allUnits, List.mem_append, List.mem_map, List.mem_range, List.mem_flatMap,
    HEIGHT, WIDTH] at hu
  rcases hu with (⟨r, _, rfl⟩ | ⟨c, _, rfl⟩) | ⟨rx, _, ry, _, rfl⟩
  · exact rowCoords_nodup r
  · exact colCoords_nodup c
  · exact regionCoords_nodup rx ry

/-! ## `_solve_fast_fields` is the identity on a fully filled unit -/

theorem fast_fields_full_unit (b : Board) (pv : PossibleValues) (u : List (Nat × Nat))
    (hfilled : ∀ c ∈ u, b.field c.1 c.2 ≠ 0)
    (hle : ∀ c ∈ u, b.field c.1 c.2 ≤ 9)
    (hnd : (u.map fun c => b.field c.1 c.2).Nodup)
    (honto : ∀ w, 1 ≤ w → w ≤ 9 → ∃ c ∈ u, b.field c.1 c.2 = w) :
    _solve_fast_fields b pv u = some (.ok (b, pv, false)) := by
  obtain ⟨infos', hcol, _, hplaced, -⟩ :=
    collectValueInfos_filled b pv u initValueInfos hfilled hle hnd
      (fun c _ => getD_initValueInfos _) initValueInfos_length
  simp only [_solve_fast_fields, hcol]
  refine placeUniqueValues_skip infos' _ b pv false ?_
  intro v hv
  rw [List.mem_range'] at hv
  simp only [MAX_VALUE] at hv
  obtain ⟨i, hi, rfl⟩ := hv
  exact hplaced _ (honto _ (by omega) (by omega))

/-! ## Collect phase on a unit with exactly one empty cell -/

theorem collect_one_empty (b : Board) (pv : PossibleValues) (u : List (Nat × Nat))
    (x0 y0 v0 : Nat)
    (hndu : u.Nodup)
    (hmem : (x0, y0) ∈ u)
    (hempty : b.field x0 y0 = 0)
    (hfilledo : ∀ c ∈ u, c ≠ (x0, y0) → b.field c.1 c.2 ≠ 0)
    (hle : ∀ c ∈ u, b.field c.1 c.2 ≤ 9)
    (hinj : ∀ c1 ∈ u, ∀ c2 ∈ u, c1 ≠ (x0, y0) → c2 ≠ (x0, y0) →
      b.field c1.1 c1.2 = b.field c2.1 c2.2 → c1 = c2)
    (hnv0 : ∀ c ∈ u, b.field c.1 c.2 ≠ v0)
    (honto : ∀ w, 1 ≤ w → w ≤ 9 → w ≠ v0 →
      ∃ c ∈ u, c ≠ (x0, y0) ∧ b.field c.1 c.2 = w)
    (hpl : pv.possible_values_for_field x0 y0 = [v0])
    (hv01 : 1 ≤ v0) (hv09 : v0 ≤ 9) :
    ∃ infos, collectValueInfos b pv u initValueInfos = some infos ∧
      infos.getD (v0 - 1) .NoPossiblePlacementFound = .CanOnlyBePlacedAtIndex (x0, y0) ∧
      (∀ w, 1 ≤ w → w ≤ 9 → w ≠ v0 →
        infos.getD (w - 1) .NoPossiblePlacementFound = .AlreadyPlaced) := by
  obtain ⟨pre, post, rfl⟩ := List.append_of_mem hmem
  have hnd' := (List.nodup_middle.mp hndu)
  rw [List.nodup_cons] at hnd'
  have hpre_ne : ∀ c ∈ pre, c ≠ (x0, y0) := by
    intro c hc he
    exact hnd'.1 (he ▸ List.mem_append_left _ hc)
  have hpost_ne : ∀ c ∈ post, c ≠ (x0, y0) := by
    intro c hc he
    exact hnd'.1 (he ▸ List.mem_append_right _ hc)
  have hdisj : ∀ c ∈ pre, ∀ c' ∈ post, c ≠ c' := by
    intro c hc c' hc' he
    exact List.disjoint_of_nodup_append hnd'.2 hc (he ▸ hc')
  have hmem_pre : ∀ c ∈ pre, c ∈ pre ++ (x0, y0) :: post := fun c hc =>
    List.mem_append_left _ hc
  have hmem_post : ∀ c ∈ post, c ∈ pre ++ (x0, y0) :: post := fun c hc =>
    List.mem_append_right _ (List.mem_cons_of_mem _ hc)
  -- collect over `pre`
  obtain ⟨infos1, hcol1, hlen1, hplaced1, hframe1⟩ :=
    collectValueInfos_filled b pv pre initValueInfos
      (fun c hc => hfilledo c (hmem_pre c hc) (hpre_ne c hc))
      (fun c hc => hle c (hmem_pre c hc))
      (List.Nodup.map_on
        (fun c hc c' hc' he =>
          hinj c (hmem_pre c hc) c' (hmem_pre c' hc') (hpre_ne c hc) (hpre_ne c' hc') he)
        (hnd'.2.of_append_left))
      (fun c _ => getD_initValueInfos _) initValueInfos_length
  have hfresh1 : infos1.getD (v0 - 1) .NoPossiblePlacementFound =
      .NoPossiblePlacementFound := by
    rw [hframe1 _ (fun c hc => ?_), getD_initValueInfos]
    have h1 := hfilledo c (hmem_pre c hc) (hpre_ne c hc)
    have h2 := hnv0 c (hmem_pre c hc)
    omega
  -- the empty cell records `CanOnlyBePlacedAtIndex`
  have hrec : recordPossiblePlacements (x0, y0) [v0] infos1 =
      some (infos1.set (v0 - 1) (.CanOnlyBePlacedAtIndex (x0, y0))) := by
    simp only [recordPossiblePlacements, hfresh1]
  have hhead : collectValueInfos b pv ((x0, y0) :: post) infos1 =
      collectValueInfos b pv post
        (infos1.set (v0 - 1) (.CanOnlyBePlacedAtIndex (x0, y0))) := by
    simp only [collectValueInfos]
    rw [if_pos hempty]
    rw [show pv.possible_values_for_field (x0, y0).1 (x0, y0).2 = [v0] from hpl]
    simp only [hrec]
  -- collect over `post`
  obtain ⟨infos3, hcol3, _, hplaced3, hframe3⟩ :=
    collectValueInfos_filled b pv post
      (infos1.set (v0 - 1) (.CanOnlyBePlacedAtIndex (x0, y0)))
      (fun c hc => hfilledo c (hmem_post c hc) (hpost_ne c hc))
      (fun c hc => hle c (hmem_post c hc))
      (List.Nodup.map_on
        (fun c hc c' hc' he =>
          hinj c (hmem_post c hc) c' (hmem_post c' hc') (hpost_ne c hc) (hpost_ne c' hc') he)
        (hnd'.2.of_append_right))
      (by
        intro c hc
        rw [getD_set_vi, if_neg, hframe1 _ (fun c' hc' => ?_), getD_initValueInfos]
        · have h1 := hfilledo c' (hmem_pre c' hc')
          have h2 := hfilledo c (hmem_post c hc) (hpost_ne c hc)
          intro he
          have : b.field c'.1 c'.2 = b.field c.1 c.2 := by
            have := h1 (hpre_ne c' hc')
            omega
          exact hdisj c' hc' c hc
            (hinj c' (hmem_pre c' hc') c (hmem_post c hc)
              (hpre_ne c' hc') (hpost_ne c hc) this)
        · intro hh
          have h1 := hfilledo c (hmem_post c hc) (hpost_ne c hc)
          have h2 := hnv0 c (hmem_post c hc)
          omega)
      (by rw [List.length_set]; exact hlen1)
  refine ⟨infos3, ?_, ?_, ?_⟩
  · rw [collectValueInfos_append b pv pre _ _ _ hcol1, hhead]
    exact hcol3
  · rw [hframe3 _ (fun c hc => ?_), getD_set_vi,
      if_pos ⟨rfl, by rw [hlen1]; omega⟩]
    have h1 := hfilledo c (hmem_post c hc) (hpost_ne c hc)
    have h2 := hnv0 c (hmem_post c hc)
    omega
  · intro w hw1 hw9 hwv0
    obtain ⟨c, hc, hcne, hval⟩ := honto w hw1 hw9 hwv0
    rcases List.mem_append.mp hc with hcpre | hcpost
    · have hcpost' : ∀ c' ∈ post, b.field c'.1 c'.2 - 1 ≠ w - 1 := by
        intro c' hc' he
        have h1 := hfilledo c' (hmem_post c' hc') (hpost_ne c' hc')
        have h2 : b.field c'.1 c'.2 = w := by omega
        exact hdisj c hcpre c' hc'
          (hinj c (hmem_pre c hcpre) c' (hmem_post c' hc')
            hcne (hpost_ne c' hc') (by rw [hval, h2]))
      rw [hframe3 _ hcpost', getD_set_vi, if_neg (fun hh => hwv0 (by omega))]
      exact hplaced1 w ⟨c, hcpre, hval⟩
    · rcases List.mem_cons.mp hcpost with he | hcpost'
      · exact absurd he hcne
      · exact hplaced3 w ⟨c, hcpost', hval⟩

/-! ## `_solve_fast_fields` on a one-empty unit: the placement phase -/

theorem fast_fields_one_empty_nine (b : Board) (pv : PossibleValues) (u : List (Nat × Nat))
    (x0 y0 : Nat)
    (hndu : u.Nodup)
    (hmem : (x0, y0) ∈ u)
    (hempty : b.field x0 y0 = 0)
    (hfilledo : ∀ c ∈ u, c ≠ (x0, y0) → b.field c.1 c.2 ≠ 0)
    (hle : ∀ c ∈ u, b.field c.1 c.2 ≤ 9)
    (hinj : ∀ c1 ∈ u, ∀ c2 ∈ u, c1 ≠ (x0, y0) → c2 ≠ (x0, y0) →
      b.field c1.1 c1.2 = b.field c2.1 c2.2 → c1 = c2)
    (hnv0 : ∀ c ∈ u, b.field c.1 c.2 ≠ 9)
    (honto : ∀ w, 1 ≤ w → w ≤ 9 → w ≠ 9 →
      ∃ c ∈ u, c ≠ (x0, y0) ∧ b.field c.1 c.2 = w)
    (hpl : pv.possible_values_for_field x0 y0 = [9]) :
    _solve_fast_fields b pv u = some (.ok (b, pv, false)) := by
  obtain ⟨infos, hcol, -, hplaced⟩ := collect_one_empty b pv u x0 y0 9 hndu hmem hempty
    hfilledo hle hinj hnv0 honto hpl (by omega) (by omega)
  simp only [_solve_fast_fields, hcol]
  refine placeUniqueValues_skip infos _ b pv false ?_
  intro v hv
  rw [List.mem_range'] at hv
  simp only [MAX_VALUE] at hv
  obtain ⟨i, hi, rfl⟩ := hv
  exact hplaced _ (by omega) (by omega) (by omega)

theorem fast_fields_one_empty_low (b : Board) (pv : PossibleValues) (u : List (Nat × Nat))
    (x0 y0 v0 : Nat)
    (hndu : u.Nodup)
    (hmem : (x0, y0) ∈ u)
    (hempty : b.field x0 y0 = 0)
    (hfilledo : ∀ c ∈ u, c ≠ (x0, y0) → b.field c.1 c.2 ≠ 0)
    (hle : ∀ c ∈ u, b.field c.1 c.2 ≤ 9)
    (hinj : ∀ c1 ∈ u, ∀ c2 ∈ u, c1 ≠ (x0, y0) → c2 ≠ (x0, y0) →
      b.field c1.1 c1.2 = b.field c2.1 c2.2 → c1 = c2)
    (hnv0 : ∀ c ∈ u, b.field c.1 c.2 ≠ v0)
    (honto : ∀ w, 1 ≤ w → w ≤ 9 → w ≠ v0 →
      ∃ c ∈ u, c ≠ (x0, y0) ∧ b.field c.1 c.2 = w)
    (hpl : pv.possible_values_for_field x0 y0 = [v0])
    (hv01 : 1 ≤ v0) (hv08 : v0 ≤ 8) :
    _solve_fast_fields b pv u =
      some (.ok (b.setField x0 y0 v0, pv.remove_conflicting x0 y0 v0, true)) := by
  obtain ⟨infos, hcol, hcan, hplaced⟩ := collect_one_empty b pv u x0 y0 v0 hndu hmem hempty
    hfilledo hle hinj hnv0 honto hpl hv01 (by omega)
  simp only [_solve_fast_fields, hcol]
  have e1 : 1 + (v0 - 1) = v0 := by omega
  have e2 : (9 - v0) + (v0 - 1) = 8 := by omega
  have hsplit : List.range' 1 (v0 - 1) ++ List.range' v0 (9 - v0) = List.range' 1 8 := by
    have h := List.range'_append_1 1 (v0 - 1) (9 - v0)
    rw [e1, e2] at h
    exact h
  have hcons : List.range' v0 (9 - v0) = v0 :: List.range' (v0 + 1) (8 - v0) := by
    have h9 : 9 - v0 = (8 - v0) + 1 := by omega
    rw [h9, List.range'_succ]
  have hpre : placeUniqueValues infos b pv false (List.range' 1 (v0 - 1)) =
      some (.ok (b, pv, false)) := by
    refine placeUniqueValues_skip infos _ b pv false ?_
    intro w hw
    rw [List.mem_range'] at hw
    obtain ⟨i, hi, rfl⟩ := hw
    exact hplaced _ (by omega) (by omega) (by omega)
  have hrest : placeUniqueValues infos (b.setField x0 y0 v0)
      (pv.remove_conflicting x0 y0 v0) true (List.range' (v0 + 1) (8 - v0)) =
      some (.ok (b.setField x0 y0 v0, pv.remove_conflicting x0 y0 v0, true)) := by
    refine placeUniqueValues_skip infos _ _ _ true ?_
    intro w hw
    rw [List.mem_range'] at hw
    obtain ⟨i, hi, rfl⟩ := hw
    exact hplaced _ (by omega) (by omega) (by omega)
  have hmid : placeUniqueValues infos b pv false (v0 :: List.range' (v0 + 1) (8 - v0)) =
      placeUniqueValues infos (b.setField x0 y0 v0) (pv.remove_conflicting x0 y0 v0) true
        (List.range' (v0 + 1) (8 - v0)) := by
    simp only [placeUniqueValues, hcan]
    rw [if_neg (fun hc => hc hempty)]
  calc placeUniqueValues infos b pv false (List.range' 1 (MAX_VALUE - 1))
      = placeUniqueValues infos b pv false
        (List.range' 1 (v0 - 1) ++ List.range' v0 (9 - v0)) := by
        rw [hsplit]; rfl
    _ = placeUniqueValues infos b pv false (List.range' v0 (9 - v0)) :=
        placeUniqueValues_append infos _ _ b pv false b pv false hpre
    _ = placeUniqueValues infos b pv false (v0 :: List.range' (v0 + 1) (8 - v0)) := by
        rw [hcons]
    _ = placeUniqueValues infos (b.setField x0 y0 v0) (pv.remove_conflicting x0 y0 v0) true
        (List.range' (v0 + 1) (8 - v0)) := hmid
    _ = some (.ok (b.setField x0 y0 v0, pv.remove_conflicting x0 y0 v0, true)) := hrest

/-! ## Folding `_solve_fast_units` -/

theorem fast_units_id :
    ∀ (units : List (List (Nat × Nat))) (b : Board) (pv : PossibleValues) (f : Bool),
      (∀ u ∈ units, _solve_fast_fields b pv u = some (.ok (b, pv, false))) →
      _solve_fast_units b pv f units = some (.ok (b, pv, f)) := by
  intro units
  induction units with
  | nil => intro b pv f _; rfl
  | cons u rest ih =>
    intro b pv f h
    simp only [_solve_fast_units, h u (List.mem_cons_self ..), Bool.or_false]
    exact ih b pv f fun u' hu' => h u' (List.mem_cons_of_mem _ hu')

theorem fast_units_append :
    ∀ (l1 l2 : List (List (Nat × Nat))) (b : Board) (pv : PossibleValues) (f : Bool)
      (b1 : Board) (pv1 : PossibleValues) (f1 : Bool),
      _solve_fast_units b pv f l1 = some (.ok (b1, pv1, f1)) →
      _solve_fast_units b pv f (l1 ++ l2) = _solve_fast_units b1 pv1 f1 l2 := by
  intro l1
  induction l1 with
  | nil =>
    intro l2 b pv f b1 pv1 f1 h
    simp only [_solve_fast_units, Option.some.injEq, Except.ok.injEq, Prod.mk.injEq] at h
    rw [List.nil_append, h.1, h.2.1, h.2.2]
  | cons u rest ih =>
    intro l2 b pv f b1 pv1 f1 h
    simp only [_solve_fast_units, List.cons_append] at h ⊢
    cases hf : _solve_fast_fields b pv u with
    | none => simp only [hf] at h; exact absurd h (by simp)
    | some r =>
      cases r with
      | error e => simp only [hf] at h; exact absurd h (by simp)
      | ok t =>
        obtain ⟨b', pv', f'⟩ := t
        simp only [hf] at h ⊢
        exact ih _ _ _ _ _ _ _ h

/-! ## `_solve_fast` on a complete board and on a complete board minus one cell -/

theorem unit_values_nodup_filled (b : Board) (u : List (Nat × Nat))
    (hu : u ∈ allUnits) (hconf : b.has_conflicts = false)
    (hfilled : ∀ c ∈ u, b.field c.1 c.2 ≠ 0) :
    (u.map fun c => b.field c.1 c.2).Nodup := by
  have hfe : (u.map fun c => b.field c.1 c.2).filter (fun v => v ≠ 0) =
      u.map fun c => b.field c.1 c.2 := by
    rw [List.filter_eq_self]
    intro v hv
    rcases List.mem_map.mp hv with ⟨c, hc, rfl⟩
    simpa using hfilled c hc
  have hnd := unit_values_nodup b u hconf hu
  rw [hfe] at hnd
  exact hnd

theorem fast_fields_full_S (S : Board) (pv : PossibleValues) (u : List (Nat × Nat))
    (hu : u ∈ allUnits) (hfill : S.is_filled = true) (hconf : S.has_conflicts = false)
    (hvals : ∀ x y : Nat, x < 9 → y < 9 → S.field x y ≤ 9) :
    _solve_fast_fields S pv u = some (.ok (S, pv, false)) := by
  have hfilled : ∀ c ∈ u, S.field c.1 c.2 ≠ 0 := fun c hc =>
    is_filled_field_ne S hfill c.1 c.2 (allUnits_ranges u hu c hc).1 (allUnits_ranges u hu c hc).2
  have hle : ∀ c ∈ u, S.field c.1 c.2 ≤ 9 := fun c hc =>
    hvals c.1 c.2 (allUnits_ranges u hu c hc).1 (allUnits_ranges u hu c hc).2
  exact fast_fields_full_unit S pv u hfilled hle
    (unit_values_nodup_filled S u hu hconf hfilled)
    (filled_unit_onto S u hu hconf hfilled hle)

theorem fast_complete (S : Board) (pv : PossibleValues)
    (hfill : S.is_filled = true) (hconf : S.has_conflicts = false)
    (hvals : ∀ x y : Nat, x < 9 → y < 9 → S.field x y ≤ 9) :
    _solve_fast S pv = some (.ok none) := by
  simp only [_solve_fast,
    fast_units_id allUnits S pv false (fun u hu => fast_fields_full_S S pv u hu hfill hconf hvals)]
  rfl

theorem solve_complete_step (fuel : Nat) (S : Board) (pv : PossibleValues)
    (hfill : S.is_filled = true) (hconf : S.has_conflicts = false)
    (hvals : ∀ x y : Nat, x < 9 → y < 9 → S.field x y ≤ 9) :
    _solve (fuel + 1) S pv = some (S, .ok S) := by
  have hfe : S.first_empty_field_index = none := by
    simpa [Board.is_filled, Option.isNone_iff_eq_none] using hfill
  simp only [_solve, fast_complete S pv hfill hconf hvals, hfe]

theorem one_empty_bundle (S : Board) (x0 y0 : Nat) (u : List (Nat × Nat))
    (hu : u ∈ allUnits) (hx0 : x0 < 9) (hy0 : y0 < 9)
    (hfill : S.is_filled = true) (hconf : S.has_conflicts = false)
    (hvals : ∀ x y : Nat, x < 9 → y < 9 → S.field x y ≤ 9)
    (hmem : (x0, y0) ∈ u) :
    (∀ c ∈ u, c ≠ (x0, y0) → (S.setField x0 y0 0).field c.1 c.2 = S.field c.1 c.2) ∧
    (∀ c ∈ u, c ≠ (x0, y0) → (S.setField x0 y0 0).field c.1 c.2 ≠ 0) ∧
    (∀ c ∈ u, (S.setField x0 y0 0).field c.1 c.2 ≤ 9) ∧
    (∀ c1 ∈ u, ∀ c2 ∈ u, c1 ≠ (x0, y0) → c2 ≠ (x0, y0) →
      (S.setField x0 y0 0).field c1.1 c1.2 = (S.setField x0 y0 0).field c2.1 c2.2 →
        c1 = c2) ∧
    (∀ c ∈ u, (S.setField x0 y0 0).field c.1 c.2 ≠ S.field x0 y0) ∧
    (∀ w, 1 ≤ w → w ≤ 9 → w ≠ S.field x0 y0 →
      ∃ c ∈ u, c ≠ (x0, y0) ∧ (S.setField x0 y0 0).field c.1 c.2 = w) := by
  have hframe : ∀ c ∈ u, c ≠ (x0, y0) →
      (S.setField x0 y0 0).field c.1 c.2 = S.field c.1 c.2 := by
    intro c hc hne
    have hr := allUnits_ranges u hu c hc
    refine Board.field_setField_ne S x0 y0 c.1 c.2 0 hx0 hy0 hr.1 hr.2 ?_ (by omega)
    intro hh
    refine hne ?_
    obtain ⟨a, d⟩ := c
    simp only [Prod.mk.injEq]
    exact hh
  have hfilledS : ∀ c ∈ u, S.field c.1 c.2 ≠ 0 := fun c hc =>
    is_filled_field_ne S hfill c.1 c.2 (allUnits_ranges u hu c hc).1 (allUnits_ranges u hu c hc).2
  have hleS : ∀ c ∈ u, S.field c.1 c.2 ≤ 9 := fun c hc =>
    hvals c.1 c.2 (allUnits_ranges u hu c hc).1 (allUnits_ranges u hu c hc).2
  have hinjS := filled_unit_inj S u hu hconf hfilledS
  have hsame : (S.setField x0 y0 0).field x0 y0 = 0 :=
    Board.field_setField_same S x0 y0 0 hx0 hy0 (by omega)
  have hv0ne : S.field x0 y0 ≠ 0 := is_filled_field_ne S hfill x0 y0 hx0 hy0
  refine ⟨hframe, ?_, ?_, ?_, ?_, ?_⟩
  · intro c hc hne
    rw [hframe c hc hne]
    exact hfilledS c hc
  · intro c hc
    by_cases hne : c = (x0, y0)
    · subst hne
      show (S.setField x0 y0 0).field x0 y0 ≤ 9
      rw [hsame]
      omega
    · rw [hframe c hc hne]
      exact hleS c hc
  · intro c1 hc1 c2 hc2 hne1 hne2 he
    rw [hframe c1 hc1 hne1, hframe c2 hc2 hne2] at he
    exact hinjS c1 hc1 c2 hc2 he
  · intro c hc
    by_cases hne : c = (x0, y0)
    · subst hne
      show (S.setField x0 y0 0).field x0 y0 ≠ S.field x0 y0
      rw [hsame]
      exact fun h => hv0ne h.symm
    · rw [hframe c hc hne]
      intro he
      exact hne (hinjS c hc (x0, y0) hmem he)
  · intro w hw1 hw9 hwv0
    obtain ⟨c, hc, hval⟩ := filled_unit_onto S u hu hconf hfilledS hleS w hw1 hw9
    have hne : c ≠ (x0, y0) := by
      intro he
      subst he
      exact hwv0 hval.symm
    exact ⟨c, hc, hne, by rw [hframe c hc hne]; exact hval⟩

theorem fast_fields_full_minus (S : Board) (x0 y0 : Nat) (pv : PossibleValues)
    (u : List (Nat × Nat)) (hu : u ∈ allUnits) (hnm : (x0, y0) ∉ u)
    (hx0 : x0 < 9) (hy0 : y0 < 9)
    (hfill : S.is_filled = true) (hconf : S.has_conflicts = false)
    (hvals : ∀ x y : Nat, x < 9 → y < 9 → S.field x y ≤ 9) :
    _solve_fast_fields (S.setField x0 y0 0) pv u =
      some (.ok (S.setField x0 y0 0, pv, false)) := by
  have hframe : ∀ c ∈ u, (S.setField x0 y0 0).field c.1 c.2 = S.field c.1 c.2 := by
    intro c hc
    have hr := allUnits_ranges u hu c hc
    refine Board.field_setField_ne S x0 y0 c.1 c.2 0 hx0 hy0 hr.1 hr.2 ?_ (by omega)
    intro hh
    refine hnm ?_
    have hce : c = (x0, y0) := by
      obtain ⟨a, d⟩ := c
      simp only [Prod.mk.injEq]
      exact hh
    exact hce ▸ hc
  have hfilledS : ∀ c ∈ u, S.field c.1 c.2 ≠ 0 := fun c hc =>
    is_filled_field_ne S hfill c.1 c.2 (allUnits_ranges u hu c hc).1 (allUnits_ranges u hu c hc).2
  have hleS : ∀ c ∈ u, S.field c.1 c.2 ≤ 9 := fun c hc =>
    hvals c.1 c.2 (allUnits_ranges u hu c hc).1 (allUnits_ranges u hu c hc).2
  refine fast_fields_full_unit _ pv u ?_ ?_ ?_ ?_
  · intro c hc
    rw [hframe c hc]
    exact hfilledS c hc
  · intro c hc
    rw [hframe c hc]
    exact hleS c hc
  · rw [List.map_congr_left hframe]
    exact unit_values_nodup_filled S u hu hconf hfilledS
  · intro w hw1 hw9
    obtain ⟨c, hc, hval⟩ := filled_unit_onto S u hu hconf hfilledS hleS w hw1 hw9
    exact ⟨c, hc, by rw [hframe c hc]; exact hval⟩

theorem fast_minus_one_nine (S : Board) (x0 y0 : Nat) (hx0 : x0 < 9) (hy0 : y0 < 9)
    (hfill : S.is_filled = true) (hconf : S.has_conflicts = false)
    (hvals : ∀ x y : Nat, x < 9 → y < 9 → S.field x y ≤ 9)
    (hnine : S.field x0 y0 = 9) :
    _solve_fast (S.setField x0 y0 0)
      (PossibleValues.from_board (S.setField x0 y0 0)) = some (.ok none) := by
  have hall : ∀ u ∈ allUnits, _solve_fast_fields (S.setField x0 y0 0)
      (PossibleValues.from_board (S.setField x0 y0 0)) u =
      some (.ok (S.setField x0 y0 0, PossibleValues.from_board (S.setField x0 y0 0),
        false)) := by
    intro u hu
    by_cases hmem : (x0, y0) ∈ u
    · obtain ⟨hframe, hfo, hle, hinj, hnv0, honto⟩ :=
        one_empty_bundle S x0 y0 u hu hx0 hy0 hfill hconf hvals hmem
      refine fast_fields_one_empty_nine _ _ u x0 y0 (allUnits_nodup u hu) hmem
        (Board.field_setField_same S x0 y0 0 hx0 hy0 (by omega)) hfo hle hinj
        (hnine ▸ hnv0) (hnine ▸ honto) ?_
      rw [minus_one_possible_list S x0 y0 hx0 hy0 hfill hconf hvals, hnine]
    · exact fast_fields_full_minus S x0 y0 _ u hu hmem hx0 hy0 hfill hconf hvals
  simp only [_solve_fast, fast_units_id allUnits _ _ false hall]
  rfl

/-! ## `_solve_fast` fills the one missing cell when its value is at most 8 -/

theorem fast_minus_one_low (S : Board) (x0 y0 : Nat) (hx0 : x0 < 9) (hy0 : y0 < 9)
    (hWF : S.WF) (hfill : S.is_filled = true) (hconf : S.has_conflicts = false)
    (hvals : ∀ x y : Nat, x < 9 → y < 9 → S.field x y ≤ 9)
    (hlow : S.field x0 y0 ≤ 8) :
    _solve_fast (S.setField x0 y0 0) (PossibleValues.from_board (S.setField x0 y0 0)) =
      some (.ok (some (S,
        (PossibleValues.from_board (S.setField x0 y0 0)).remove_conflicting
          x0 y0 (S.field x0 y0)))) := by
  have h1 : 1 ≤ S.field x0 y0 := by
    have := is_filled_field_ne S hfill x0 y0 hx0 hy0
    omega
  have hrow_mem : (x0, y0) ∈ rowCoords y0 := (mem_rowCoords x0 y0 y0).mpr ⟨rfl, hx0⟩
  obtain ⟨hframe, hfo, hle, hinj, hnv0, honto⟩ :=
    one_empty_bundle S x0 y0 (rowCoords y0) (rowCoords_mem_allUnits y0 hy0)
      hx0 hy0 hfill hconf hvals hrow_mem
  have hSS : (S.setField x0 y0 0).setField x0 y0 (S.field x0 y0) = S := by
    rw [Board.setField_setField S x0 y0 0 (S.field x0 y0) hx0 hy0 (by omega)
      (Board.field_lt S x0 y0)]
    exact Board.setField_field_id S x0 y0 hWF hx0 hy0
  have hrow : _solve_fast_fields (S.setField x0 y0 0)
      (PossibleValues.from_board (S.setField x0 y0 0)) (rowCoords y0) =
      some (.ok (S, (PossibleValues.from_board (S.setField x0 y0 0)).remove_conflicting
        x0 y0 (S.field x0 y0), true)) := by
    rw [fast_fields_one_empty_low _ _ (rowCoords y0) x0 y0 (S.field x0 y0)
      (allUnits_nodup _ (rowCoords_mem_allUnits y0 hy0)) hrow_mem
      (Board.field_setField_same S x0 y0 0 hx0 hy0 (by omega)) hfo hle hinj hnv0 honto
      (by rw [minus_one_possible_list S x0 y0 hx0 hy0 hfill hconf hvals]) h1 hlow, hSS]
  have hr9 : List.range 9 = List.range' 0 y0 ++ y0 :: List.range' (y0 + 1) (8 - y0) := by
    rw [List.range_eq_range']
    have h := List.range'_append_1 0 y0 (9 - y0)
    rw [Nat.zero_add] at h
    have e2 : (9 - y0) + y0 = 9 := by omega
    rw [e2] at h
    rw [← h]
    congr 1
    have h9 : 9 - y0 = (8 - y0) + 1 := by omega
    rw [h9, List.range'_succ]
  have hdecomp : allUnits =
      ((List.range' 0 y0).map rowCoords) ++
        (rowCoords y0 :: (((List.range' (y0 + 1) (8 - y0)).map rowCoords) ++
          (((List.range WIDTH).map colCoords) ++
            ((List.range 3).flatMap fun rx =>
              (List.range 3).map fun ry => regionCoords rx ry)))) := by
    simp only [allUnits, HEIGHT]
    rw [hr9, List.map_append, List.map_cons]
    simp only [List.append_assoc, List.cons_append]
  have hpre_all : ∀ u ∈ (List.range' 0 y0).map rowCoords,
      _solve_fast_fields (S.setField x0 y0 0)
        (PossibleValues.from_board (S.setField x0 y0 0)) u =
      some (.ok (S.setField x0 y0 0,
        PossibleValues.from_board (S.setField x0 y0 0), false)) := by
    intro u hu
    rcases List.mem_map.mp hu with ⟨j, hj, rfl⟩
    rw [List.mem_range'] at hj
    obtain ⟨i, hi, rfl⟩ := hj
    refine fast_fields_full_minus S x0 y0 _ (rowCoords (0 + 1 * i))
      (rowCoords_mem_allUnits _ (by omega)) ?_ hx0 hy0 hfill hconf hvals
    intro hmem
    rw [mem_rowCoords] at hmem
    omega
  have hpost_all : ∀ u ∈ ((List.range' (y0 + 1) (8 - y0)).map rowCoords) ++
        (((List.range WIDTH).map colCoords) ++
          ((List.range 3).flatMap fun rx =>
            (List.range 3).map fun ry => regionCoords rx ry)),
      _solve_fast_fields S ((PossibleValues.from_board (S.setField x0 y0 0)).remove_conflicting
        x0 y0 (S.field x0 y0)) u =
      some (.ok (S, (PossibleValues.from_board (S.setField x0 y0 0)).remove_conflicting
        x0 y0 (S.field x0 y0), false)) := by
    intro u hu
    have humem : u ∈ allUnits := by
      rcases List.mem_append.mp hu with h | h
      · rcases List.mem_map.mp h with ⟨j, hj, rfl⟩
        rw [List.mem_range'] at hj
        obtain ⟨i, hi, rfl⟩ := hj
        exact rowCoords_mem_allUnits _ (by omega)
      · simp only [allUnits]
        rw [List.append_assoc]
        exact List.mem_append_right _ h
    exact fast_fields_full_S S _ u humem hfill hconf hvals
  have hUnits : _solve_fast_units (S.setField x0 y0 0)
      (PossibleValues.from_board (S.setField x0 y0 0)) false allUnits =
      some (.ok (S, (PossibleValues.from_board (S.setField x0 y0 0)).remove_conflicting
        x0 y0 (S.field x0 y0), true)) := by
    rw [hdecomp]
    rw [fast_units_append _ _ _ _ _ _ _ _ (fast_units_id _ _ _ false hpre_all)]
    simp only [_solve_fast_units, hrow]
    exact fast_units_id _ S _ true hpost_all
  simp only [_solve_fast, hUnits]
  rfl

/-! ## `solve` on a complete board minus one cell -/

theorem find?_eq_some_of_unique {α : Type} (p : α → Bool) :
    ∀ (l : List α) (a : α), a ∈ l → p a = true →
      (∀ b ∈ l, p b = true → b = a) → l.find? p = some a := by
  intro l
  induction l with
  | nil =>
    intro a ha _ _
    simp at ha
  | cons b rest ih =>
    intro a ha hpa huniq
    by_cases hpb : p b = true
    · have hba : b = a := huniq b (List.mem_cons_self ..) hpb
      rw [List.find?_cons_of_pos _ hpb, hba]
    · rw [List.find?_cons_of_neg _ hpb]
      have hane : a ≠ b := fun he => hpb (he ▸ hpa)
      rcases List.mem_cons.mp ha with he | hmem
      · exact absurd he hane
      · exact ih a hmem hpa fun c hc hpc => huniq c (List.mem_cons_of_mem _ hc) hpc

theorem first_empty_minus_one (S : Board) (x0 y0 : Nat) (hx0 : x0 < 9) (hy0 : y0 < 9)
    (hfill : S.is_filled = true) :
    (S.setField x0 y0 0).first_empty_field_index = some (x0, y0) := by
  rw [Board.first_empty_field_index]
  refine find?_eq_some_of_unique _ allCoords (x0, y0)
    ((mem_allCoords x0 y0).mpr ⟨hx0, hy0⟩) ?_ ?_
  · simp [Board.field_setField_same S x0 y0 0 hx0 hy0 (by omega)]
  · intro c hc hpc
    obtain ⟨a, d⟩ := c
    rw [mem_allCoords] at hc
    by_cases he : (a, d) = (x0, y0)
    · exact he
    · exfalso
      have hfr : (S.setField x0 y0 0).field a d = S.field a d := by
        refine Board.field_setField_ne S x0 y0 a d 0 hx0 hy0 hc.1 hc.2 ?_ (by omega)
        intro hh
        exact he (by simp only [Prod.mk.injEq]; exact hh)
      simp only [beq_iff_eq] at hpc
      rw [hfr] at hpc
      exact is_filled_field_ne S hfill a d hc.1 hc.2 hpc

theorem solve_step (fuel : Nat) (board : Board) (pv : PossibleValues) :
    _solve (fuel + 1) board pv =
      match _solve_fast board pv with
      | none => none
      | some (.error e) => some (board, .error e)
      | some (.ok (some (b', pv'))) =>
        match _solve fuel b' pv' with
        | none => none
        | some (_, r) => some (board, r)
      | some (.ok none) =>
        match board.first_empty_field_index with
        | none => some (board, .ok board)
        | some (x, y) =>
          solveGuessLoop (_solve fuel) board pv x y (pv.possible_values_for_field x y)
            none := rfl

theorem solve_minus_one (S : Board) (x0 y0 : Nat) (hx0 : x0 < 9) (hy0 : y0 < 9)
    (hWF : S.WF) (hfill : S.is_filled = true) (hconf : S.has_conflicts = false)
    (hvals : ∀ x y : Nat, x < 9 → y < 9 → S.field x y ≤ 9) :
    solve (S.setField x0 y0 0) = some (.ok S) := by
  have h1 : 1 ≤ S.field x0 y0 := by
    have := is_filled_field_ne S hfill x0 y0 hx0 hy0
    omega
  have h9 := hvals x0 y0 hx0 hy0
  have hsolve : _solve SOLVE_FUEL (S.setField x0 y0 0)
      (PossibleValues.from_board (S.setField x0 y0 0)) =
      some (S.setField x0 y0 0, .ok S) := by
    show _solve (81 + 1) _ _ = _
    by_cases hlow : S.field x0 y0 ≤ 8
    · have hc81 : _solve 81 S
          ((PossibleValues.from_board (S.setField x0 y0 0)).remove_conflicting
            x0 y0 (S.field x0 y0)) = some (S, .ok S) :=
        solve_complete_step 80 S _ hfill hconf hvals
      rw [solve_step 81]
      simp only [fast_minus_one_low S x0 y0 hx0 hy0 hWF hfill hconf hvals hlow, hc81]
    · have hnine : S.field x0 y0 = 9 := by omega
      have hSS9 : (S.setField x0 y0 0).setField x0 y0 9 = S := by
        rw [Board.setField_setField S x0 y0 0 9 hx0 hy0 (by omega) (by omega)]
        rw [← hnine]
        exact Board.setField_field_id S x0 y0 hWF hx0 hy0
      have hc81 : _solve 81 S
          ((PossibleValues.from_board (S.setField x0 y0 0)).remove_conflicting
            x0 y0 9) = some (S, .ok S) :=
        solve_complete_step 80 S _ hfill hconf hvals
      rw [solve_step 81]
      simp only [fast_minus_one_nine S x0 y0 hx0 hy0 hfill hconf hvals hnine,
        first_empty_minus_one S x0 y0 hx0 hy0 hfill]
      rw [minus_one_possible_list S x0 y0 hx0 hy0 hfill hconf hvals, hnine]
      simp only [solveGuessLoop]
      rw [if_neg (by
        rw [Board.field_setField_same S x0 y0 0 hx0 hy0 (by omega)]
        exact fun h => h rfl)]
      rw [hSS9]
      simp only [hc81]
  simp only [solve, hsolve, hfill, hconf]
  rfl

/-! ## Generator lemmas and claim C6 -/

theorem num_empty_pos (B : Board) (x y : Nat) (hx : x < 9) (hy : y < 9)
    (h : B.field x y = 0) : 1 ≤ B.num_empty := by
  rw [Board.num_empty]
  have hp : 0 < allCoords.countP fun c => B.field c.1 c.2 == 0 :=
    List.countP_pos_iff.mpr ⟨(x, y), (mem_allCoords x y).mpr ⟨hx, hy⟩, by simp [h]⟩
  omega

theorem solve_ok_subset (B s : Board) (hWF : B.WF)
    (h : solve B = some (.ok s)) : B.is_subset_of s = true := by
  simp only [solve] at h
  split at h
  · exact absurd h (by simp)
  · exact absurd h (by simp)
  · next b1 sol heq =>
    have hsub := (solve_restore_subset SOLVE_FUEL B (PossibleValues.from_board B)
      (b1, .ok sol) hWF heq).2 sol rfl
    split at h
    · split at h
      · simp only [Option.some.injEq, Except.ok.injEq] at h
        rw [← h]
        exact hsub.1
      · exact absurd h (by simp)
    · exact absurd h (by simp)

theorem remove_first (S : Board) (x y : Nat) (hx : x < 9) (hy : y < 9)
    (hWF : S.WF) (hfill : S.is_filled = true) (hconf : S.has_conflicts = false)
    (hvals : ∀ a d : Nat, a < 9 → d < 9 → S.field a d ≤ 9) :
    remove_field_if_unambigious S x y = some (S.setField x y 0, true) := by
  simp only [remove_field_if_unambigious]
  rw [if_neg (is_filled_field_ne S hfill x y hx hy)]
  simp only [is_ambigious, solve_minus_one S x y hx hy hWF hfill hconf hvals]

theorem remove_WF (b : Board) (x y : Nat) (hx : x < 9) (hy : y < 9) (hWF : b.WF)
    (b' : Board) (f : Bool) (h : remove_field_if_unambigious b x y = some (b', f)) :
    b'.WF := by
  simp only [remove_field_if_unambigious] at h
  by_cases hv : b.field x y = 0
  · rw [if_pos hv] at h
    simp only [Option.some.injEq, Prod.mk.injEq] at h
    rw [← h.1]
    exact hWF
  · rw [if_neg hv] at h
    cases hia : is_ambigious (b.setField x y 0) with
    | none => simp only [hia] at h; exact absurd h (by simp)
    | some amb =>
      simp only [hia] at h
      cases amb with
      | false =>
        simp only [Option.some.injEq, Prod.mk.injEq] at h
        rw [← h.1]
        exact Board.WF_setField b x y 0 hx hy (by omega)
      | true =>
        simp only [Option.some.injEq, Prod.mk.injEq] at h
        rw [← h.1]
        exact Board.WF_setField _ x y _ hx hy (Board.field_lt b x y)

theorem remove_keeps_empty (b : Board) (x y : Nat) (hx : x < 9) (hy : y < 9)
    (a d : Nat) (ha : a < 9) (hd : d < 9) (h0 : b.field a d = 0)
    (b' : Board) (f : Bool) (h : remove_field_if_unambigious b x y = some (b', f)) :
    b'.field a d = 0 := by
  simp only [remove_field_if_unambigious] at h
  by_cases hv : b.field x y = 0
  · rw [if_pos hv] at h
    simp only [Option.some.injEq, Prod.mk.injEq] at h
    rw [← h.1]
    exact h0
  · have hne : ¬(a = x ∧ d = y) := by
      intro hh
      rw [hh.1, hh.2] at h0
      exact hv h0
    rw [if_neg hv] at h
    cases hia : is_ambigious (b.setField x y 0) with
    | none => simp only [hia] at h; exact absurd h (by simp)
    | some amb =>
      simp only [hia] at h
      cases amb with
      | false =>
        simp only [Option.some.injEq, Prod.mk.injEq] at h
        rw [← h.1]
        rw [Board.field_setField_ne b x y a d 0 hx hy ha hd hne (by omega)]
        exact h0
      | true =>
        simp only [Option.some.injEq, Prod.mk.injEq] at h
        rw [← h.1]
        rw [Board.field_setField_ne _ x y a d _ hx hy ha hd hne (Board.field_lt b x y)]
        rw [Board.field_setField_ne b x y a d 0 hx hy ha hd hne (by omega)]
        exact h0

theorem generateLoop_WF :
    ∀ (l : List (Nat × Nat)) (b : Board), b.WF → (∀ c ∈ l, c.1 < 9 ∧ c.2 < 9) →
      ∀ B, generateLoop b l = some B → B.WF := by
  intro l
  induction l with
  | nil =>
    intro b hWF _ B h
    simp only [generateLoop, Option.some.injEq] at h
    rw [← h]
    exact hWF
  | cons c rest ih =>
    intro b hWF hr B h
    simp only [generateLoop] at h
    cases hrem : remove_field_if_unambigious b c.1 c.2 with
    | none => simp only [hrem] at h; exact absurd h (by simp)
    | some bf =>
      obtain ⟨b', f⟩ := bf
      simp only [hrem] at h
      have hc := hr c (List.mem_cons_self ..)
      exact ih b' (remove_WF b c.1 c.2 hc.1 hc.2 hWF b' f hrem)
        (fun c' hc' => hr c' (List.mem_cons_of_mem _ hc')) B h

theorem generateLoop_keeps_empty :
    ∀ (l : List (Nat × Nat)) (b : Board) (a d : Nat), a < 9 → d < 9 →
      (∀ c ∈ l, c.1 < 9 ∧ c.2 < 9) → b.field a d = 0 →
      ∀ B, generateLoop b l = some B → B.field a d = 0 := by
  intro l
  induction l with
  | nil =>
    intro b a d _ _ _ h0 B h
    simp only [generateLoop, Option.some.injEq] at h
    rw [← h]
    exact h0
  | cons c rest ih =>
    intro b a d ha hd hr h0 B h
    simp only [generateLoop] at h
    cases hrem : remove_field_if_unambigious b c.1 c.2 with
    | none => simp only [hrem] at h; exact absurd h (by simp)
    | some bf =>
      obtain ⟨b', f⟩ := bf
      simp only [hrem] at h
      have hc := hr c (List.mem_cons_self ..)
      exact ih b' a d ha hd (fun c' hc' => hr c' (List.mem_cons_of_mem _ hc'))
        (remove_keeps_empty b c.1 c.2 hc.1 hc.2 a d ha hd h0 b' f hrem) B h

theorem depth1_bound_at (solved B : Board) (hbound : depth1RemovalBound solved B = true)
    (x y : Nat) (hx : x < 9) (hy : y < 9) (b' : Board)
    (hrem : remove_field_if_unambigious solved x y = some (b', true)) :
    b'.num_empty ≤ B.num_empty := by
  rw [depth1RemovalBound, List.all_eq_true] at hbound
  have hb := hbound (x, y) ((mem_allCoords x y).mpr ⟨hx, hy⟩)
  split at hb
  · next b'' heq =>
    have heq2 : remove_field_if_unambigious solved x y = some (b'', true) := heq
    rw [hrem] at heq2
    simp only [Option.some.injEq, Prod.mk.injEq] at heq2
    rw [heq2.1]
    simpa using hb
  · next hne =>
    have hrem2 : remove_field_if_unambigious solved ((x, y) : Nat × Nat).1
        ((x, y) : Nat × Nat).2 = some (b', true) := hrem
    exact absurd hrem2 (hne b')

/-- **C6**: every board `B` produced by `generate` (for any shuffle of the
in-range cell list, i.e. any random-number-generator state) or by
`generate_max_empty` (for any scheduling, via the relational model
`generate_max_empty_returns`) from a completely filled, conflict-free,
well-formed solution board satisfies: `solve B` returns `Ok` with some
solution `s`, `B` is a subset of `s`, and `B` has at least one empty
cell. -/
theorem claim_C6_generated_puzzles (solved B : Board) (perm : List (Nat × Nat))
    (hWF : solved.WF) (hfill : solved.is_filled = true)
    (hconf : solved.has_conflicts = false)
    (hvals' : ∀ c ∈ allCoords, solved.field c.1 c.2 ≤ 9)
    (hperm : ∀ c ∈ perm, c.1 < 9 ∧ c.2 < 9) (hne : perm ≠ [])
    (hgen : generate solved perm = some B ∨ generate_max_empty_returns solved B) :
    (∃ s, solve B = some (.ok s) ∧ B.is_subset_of s = true) ∧ 1 ≤ B.num_empty := by
  have hvals : ∀ x y : Nat, x < 9 → y < 9 → solved.field x y ≤ 9 := fun x y hx hy =>
    hvals' (x, y) ((mem_allCoords x y).mpr ⟨hx, hy⟩)
  rcases hgen with hg | hg
  · simp only [generate] at hg
    split at hg
    · exact absurd hg (by simp)
    · next b hloop =>
      split at hg
      · next s0 hs =>
        simp only [Option.some.injEq] at hg
        subst hg
        have hBWF : b.WF := generateLoop_WF perm solved hWF hperm b hloop
        have hsub := solve_ok_subset b s0 hBWF hs
        cases perm with
        | nil => exact absurd rfl hne
        | cons c rest =>
          have hc := hperm c (List.mem_cons_self ..)
          have hrem := remove_first solved c.1 c.2 hc.1 hc.2 hWF hfill hconf hvals
          simp only [generateLoop, hrem] at hloop
          have hb0 : b.field c.1 c.2 = 0 :=
            generateLoop_keeps_empty rest (solved.setField c.1 c.2 0) c.1 c.2 hc.1 hc.2
              (fun c' hc' => hperm c' (List.mem_cons_of_mem _ hc'))
              (Board.field_setField_same solved c.1 c.2 0 hc.1 hc.2 (by omega)) b hloop
          exact ⟨⟨s0, hs, hsub⟩, num_empty_pos b c.1 c.2 hc.1 hc.2 hb0⟩
      · exact absurd hg (by simp)
  · obtain ⟨hreach, hbound, s0, hsolve⟩ := hg
    have hBWF : B.WF := by
      clear hbound hsolve
      induction hreach with
      | root => exact hWF
      | step hr hx hy hrem ih => exact remove_WF _ _ _ hx hy ih _ _ hrem
    have hrem0 := remove_first solved 0 0 (by omega) (by omega) hWF hfill hconf hvals
    have hb := depth1_bound_at solved B hbound 0 0 (by omega) (by omega) _ hrem0
    have hcleared : 1 ≤ (solved.setField 0 0 0).num_empty :=
      num_empty_pos _ 0 0 (by omega) (by omega)
        (Board.field_setField_same solved 0 0 0 (by omega) (by omega) (by omega))
    exact ⟨⟨s0, hsolve, solve_ok_subset B s0 hBWF hsolve⟩, by omega⟩


/-- Witness for C6: removing the first cell of the shuffle from the
scenario-1 solution board yields a one-empty puzzle on which `generate`
succeeds with all the claimed properties. -/
theorem claim_C6_generated_puzzles_witness :
    (∃ s, solve (expectedSolution.setField 0 0 0) = some (.ok s) ∧
      (expectedSolution.setField 0 0 0).is_subset_of s = true) ∧
      1 ≤ (expectedSolution.setField 0 0 0).num_empty := by
  have hWF : expectedSolution.WF := by unfold Board.WF; decide
  have hfill : expectedSolution.is_filled = true := by decide
  have hconf : expectedSolution.has_conflicts = false := by decide
  have hvals' : ∀ c ∈ allCoords, expectedSolution.field c.1 c.2 ≤ 9 := by decide
  have hvals : ∀ x y : Nat, x < 9 → y < 9 → expectedSolution.field x y ≤ 9 :=
    fun x y hx hy => hvals' (x, y) ((mem_allCoords x y).mpr ⟨hx, hy⟩)
  refine claim_C6_generated_puzzles expectedSolution (expectedSolution.setField 0 0 0)
    [(0, 0)] hWF hfill hconf hvals' (by decide) (by decide) (Or.inl ?_)
  have hrem := remove_first expectedSolution 0 0 (by omega) (by omega) hWF hfill hconf hvals
  simp only [generate, generateLoop, hrem]
  simp only [solve_minus_one expectedSolution 0 0 (by omega) (by omega) hWF hfill hconf hvals]

/-! ## Stepping lemmas for verifying concrete solver runs piecewise -/

theorem guessLoop_cons_notsolvable
    (f : Board → PossibleValues → Option (Board × Except SolverError Board))
    (b : Board) (pv : PossibleValues) (x y v : Nat) (rest : List Nat)
    (sol : Option Board) (b2 : Board) (res : Option (Board × Except SolverError Board))
    (hempty : b.field x y = 0)
    (h1 : f (b.setField x y v) (pv.remove_conflicting x y v) = some (b2, .error .NotSolvable))
    (h2 : solveGuessLoop f (b2.setField x y 0) pv x y rest sol = res) :
    solveGuessLoop f b pv x y (v :: rest) sol = res := by
  simp only [solveGuessLoop]
  rw [if_neg (fun hc => hc hempty), h1]
  exact h2

theorem guessLoop_cons_ok_first
    (f : Board → PossibleValues → Option (Board × Except SolverError Board))
    (b : Board) (pv : PossibleValues) (x y v : Nat) (rest : List Nat)
    (b2 newSol : Board) (res : Option (Board × Except SolverError Board))
    (hempty : b.field x y = 0)
    (h1 : f (b.setField x y v) (pv.remove_conflicting x y v) = some (b2, .ok newSol))
    (h2 : solveGuessLoop f (b2.setField x y 0) pv x y rest (some newSol) = res) :
    solveGuessLoop f b pv x y (v :: rest) none = res := by
  simp only [solveGuessLoop]
  rw [if_neg (fun hc => hc hempty), h1]
  exact h2

theorem guessLoop_cons_ok_second
    (f : Board → PossibleValues → Option (Board × Except SolverError Board))
    (b : Board) (pv : PossibleValues) (x y v : Nat) (rest : List Nat)
    (b2 newSol : Board) (s0 : Board)
    (hempty : b.field x y = 0)
    (h1 : f (b.setField x y v) (pv.remove_conflicting x y v) = some (b2, .ok newSol)) :
    solveGuessLoop f b pv x y (v :: rest) (some s0) =
      some (b2.setField x y 0, .error .Ambigious) := by
  simp only [solveGuessLoop]
  rw [if_neg (fun hc => hc hempty), h1]

theorem guessLoop_cons_ambigious
    (f : Board → PossibleValues → Option (Board × Except SolverError Board))
    (b : Board) (pv : PossibleValues) (x y v : Nat) (rest : List Nat)
    (sol : Option Board) (b2 : Board)
    (hempty : b.field x y = 0)
    (h1 : f (b.setField x y v) (pv.remove_conflicting x y v) = some (b2, .error .Ambigious)) :
    solveGuessLoop f b pv x y (v :: rest) sol =
      some (b2.setField x y 0, .error .Ambigious) := by
  simp only [solveGuessLoop]
  rw [if_neg (fun hc => hc hempty), h1]

theorem solve_node_guess (fuel : Nat) (b : Board) (pv : PossibleValues) (x y : Nat)
    (cands : List Nat) (res : Option (Board × Except SolverError Board))
    (h1 : _solve_fast b pv = some (.ok none))
    (h2 : b.first_empty_field_index = some (x, y))
    (h3 : pv.possible_values_for_field x y = cands)
    (h4 : solveGuessLoop (_solve fuel) b pv x y cands none = res) :
    _solve (fuel + 1) b pv = res := by
  rw [solve_step]
  simp only [h1, h2, h3]
  exact h4

theorem solve_top_ok (b b1 s : Board)
    (h : _solve SOLVE_FUEL b (PossibleValues.from_board b) = some (b1, .ok s))
    (hf : s.is_filled = true) (hc : s.has_conflicts = false) :
    solve b = some (.ok s) := by
  simp only [solve, h, hf, hc]
  rfl

theorem solve_top_err (b b1 : Board) (e : SolverError)
    (h : _solve SOLVE_FUEL b (PossibleValues.from_board b) = some (b1, .error e)) :
    solve b = some (.error e) := by
  simp only [solve, h]

theorem solve_node_fast (fuel : Nat) (b b' : Board) (pv pv' : PossibleValues)
    (r : Except SolverError Board) (b2 : Board)
    (h1 : _solve_fast b pv = some (.ok (some (b', pv'))))
    (h2 : _solve fuel b' pv' = some (b2, r)) :
    _solve (fuel + 1) b pv = some (b, r) := by
  rw [solve_step]
  simp only [h1, h2]

theorem c7n_7 : _solve 75 (Board.mk 58932004316118820238984158372723002187577817551251382756399296846119739866559391387533375989010) (PossibleValues.mk 904912463627472612787961967446539501849756489534591341300518854929485079401300949971326701736145005604499318243193716209332562527150430770016959451768823032677518232785479198923291143706416147146596010358232907855691776) = some ((Board.mk 58932004316118820238984158372723002187577817551251382756399296846119739866559391387533375989010), (.error .NotSolvable)) := by rfl

theorem c7n_10 : _solve 73 (Board.mk 58932004316118820238984158372723002187577817551251382756399296846119745911188489460679249717522) (PossibleValues.mk 904912463627151559571314727852591687393065733477277597646015896683732529447377479368019085789253147246766662995096150642027827035467747617546806143977492757880407718766130632615302691016071968490436787051353011977715712) = some ((Board.mk 58932004316118820238984158372723002187577817551251382756399296846119745911188489460679249717522), (.error .NotSolvable)) := by rfl

theorem c7n_12 : _solve 72 (Board.mk 58932004316118820238984158372723002187577817551251382756399296846119745911188489460679252928786) (PossibleValues.mk 904912463463093365864575295345258499758520391781571040850210019991182627237932002503853162605231505603553916237146133122723624276152269584599109125315250479326192103206677139334846045655231521198361841959688126628626432) = some ((Board.mk 58932004316118820238984158372723002187577817551251382756399296846119745911188489460679252928786), (.ok (Board.mk 17947921207978287274076134429137620188911756639759194834696723929627466382311627650795888509741330))) := by rfl

theorem c7n_13 : _solve 72 (Board.mk 58932004316118820238984158372723002187577817551251382756399296846119745911188489460679255025938) (PossibleValues.mk 904912463627472612787961967446539229641535170941453262886450414107687430985502411694315699751992483728093206590923902242231740280767036809440372926242610184476962546671719134395399783694198666297608564093511976855011328) = some ((Board.mk 58932004316118820238984158372723002187577817551251382756399296846119745911188489460679255025938), (.error .NotSolvable)) := by rfl

theorem c7n_14 : _solve 72 (Board.mk 58932004316118820238984158372723002187577817551251382756399296846119745911188489460679257123090) (PossibleValues.mk 904912463627472612787961967446539501584187493126207791955724641816488203646748951397352527413862984762673403263099703582748196017686043649317602487878213416160644122495622695620714585651669574981841382197774461177954304) = some ((Board.mk 58932004316118820238984158372723002187577817551251382756399296846119745911188489460679257123090), (.error .NotSolvable)) := by rfl

theorem c7n_11 : _solve 73 (Board.mk 58932004316118820238984158372723002187577817551251382756399296846119745911188489460679249783058) (PossibleValues.mk 904912463627472612787961967446539501584187493126207791955724641816488203646748951397352527413862984762673403263099703582748196017686043649317602487878213429324680581065271032860468046110473614844031129019379183779840000) = some ((Board.mk 58932004316118820238984158372723002187577817551251382756399296846119745911188489460679249783058), (.ok (Board.mk 17947921207978287274076134429137620188911756639759194834696723929627466382311627650795888509741330))) := by
  have hf : _solve_fast (Board.mk 58932004316118820238984158372723002187577817551251382756399296846119745911188489460679249783058) (PossibleValues.mk 904912463627472612787961967446539501584187493126207791955724641816488203646748951397352527413862984762673403263099703582748196017686043649317602487878213429324680581065271032860468046110473614844031129019379183779840000) = some (.ok none) := by rfl
  have he : Board.first_empty_field_index (Board.mk 58932004316118820238984158372723002187577817551251382756399296846119745911188489460679249783058) = some (0, 5) := by rfl
  have hc : PossibleValues.possible_values_for_field (PossibleValues.mk 904912463627472612787961967446539501584187493126207791955724641816488203646748951397352527413862984762673403263099703582748196017686043649317602487878213429324680581065271032860468046110473614844031129019379183779840000) 0 5 = [3, 5, 7] := by rfl
  have hemp : Board.field (Board.mk 58932004316118820238984158372723002187577817551251382756399296846119745911188489460679249783058) 0 5 = 0 := by rfl
  have g3 : solveGuessLoop (_solve 72) (Board.mk 58932004316118820238984158372723002187577817551251382756399296846119745911188489460679249783058) (PossibleValues.mk 904912463627472612787961967446539501584187493126207791955724641816488203646748951397352527413862984762673403263099703582748196017686043649317602487878213429324680581065271032860468046110473614844031129019379183779840000) 0 5 [] (some (Board.mk 17947921207978287274076134429137620188911756639759194834696723929627466382311627650795888509741330)) = some ((Board.mk 58932004316118820238984158372723002187577817551251382756399296846119745911188489460679249783058), (.ok (Board.mk 17947921207978287274076134429137620188911756639759194834696723929627466382311627650795888509741330))) := by rfl
  have g2 : solveGuessLoop (_solve 72) (Board.mk 58932004316118820238984158372723002187577817551251382756399296846119745911188489460679249783058) (PossibleValues.mk 904912463627472612787961967446539501584187493126207791955724641816488203646748951397352527413862984762673403263099703582748196017686043649317602487878213429324680581065271032860468046110473614844031129019379183779840000) 0 5 [7] (some (Board.mk 17947921207978287274076134429137620188911756639759194834696723929627466382311627650795888509741330)) = some ((Board.mk 58932004316118820238984158372723002187577817551251382756399296846119745911188489460679249783058), (.ok (Board.mk 17947921207978287274076134429137620188911756639759194834696723929627466382311627650795888509741330))) := by
    exact guessLoop_cons_notsolvable (_solve 72) (Board.mk 58932004316118820238984158372723002187577817551251382756399296846119745911188489460679249783058) (PossibleValues.mk 904912463627472612787961967446539501584187493126207791955724641816488203646748951397352527413862984762673403263099703582748196017686043649317602487878213429324680581065271032860468046110473614844031129019379183779840000) 0 5 7 [] (some (Board.mk 17947921207978287274076134429137620188911756639759194834696723929627466382311627650795888509741330)) (Board.mk 58932004316118820238984158372723002187577817551251382756399296846119745911188489460679257123090) (some ((Board.mk 58932004316118820238984158372723002187577817551251382756399296846119745911188489460679249783058), (.ok (Board.mk 17947921207978287274076134429137620188911756639759194834696723929627466382311627650795888509741330)))) hemp c7n_14 g3
  have g1 : solveGuessLoop (_solve 72) (Board.mk 58932004316118820238984158372723002187577817551251382756399296846119745911188489460679249783058) (PossibleValues.mk 904912463627472612787961967446539501584187493126207791955724641816488203646748951397352527413862984762673403263099703582748196017686043649317602487878213429324680581065271032860468046110473614844031129019379183779840000) 0 5 [5, 7] (some (Board.mk 17947921207978287274076134429137620188911756639759194834696723929627466382311627650795888509741330)) = some ((Board.mk 58932004316118820238984158372723002187577817551251382756399296846119745911188489460679249783058), (.ok (Board.mk 17947921207978287274076134429137620188911756639759194834696723929627466382311627650795888509741330))) := by
    exact guessLoop_cons_notsolvable (_solve 72) (Board.mk 58932004316118820238984158372723002187577817551251382756399296846119745911188489460679249783058) (PossibleValues.mk 904912463627472612787961967446539501584187493126207791955724641816488203646748951397352527413862984762673403263099703582748196017686043649317602487878213429324680581065271032860468046110473614844031129019379183779840000) 0 5 5 [7] (some (Board.mk 17947921207978287274076134429137620188911756639759194834696723929627466382311627650795888509741330)) (Board.mk 58932004316118820238984158372723002187577817551251382756399296846119745911188489460679255025938) (some ((Board.mk 58932004316118820238984158372723002187577817551251382756399296846119745911188489460679249783058), (.ok (Board.mk 17947921207978287274076134429137620188911756639759194834696723929627466382311627650795888509741330)))) hemp c7n_13 g2
  have g0 : solveGuessLoop (_solve 72) (Board.mk 58932004316118820238984158372723002187577817551251382756399296846119745911188489460679249783058) (PossibleValues.mk 904912463627472612787961967446539501584187493126207791955724641816488203646748951397352527413862984762673403263099703582748196017686043649317602487878213429324680581065271032860468046110473614844031129019379183779840000) 0 5 [3, 5, 7] none = some ((Board.mk 58932004316118820238984158372723002187577817551251382756399296846119745911188489460679249783058), (.ok (Board.mk 17947921207978287274076134429137620188911756639759194834696723929627466382311627650795888509741330))) := by
    exact guessLoop_cons_ok_first (_solve 72) (Board.mk 58932004316118820238984158372723002187577817551251382756399296846119745911188489460679249783058) (PossibleValues.mk 904912463627472612787961967446539501584187493126207791955724641816488203646748951397352527413862984762673403263099703582748196017686043649317602487878213429324680581065271032860468046110473614844031129019379183779840000) 0 5 3 [5, 7] (Board.mk 58932004316118820238984158372723002187577817551251382756399296846119745911188489460679252928786) (Board.mk 17947921207978287274076134429137620188911756639759194834696723929627466382311627650795888509741330) (some ((Board.mk 58932004316118820238984158372723002187577817551251382756399296846119745911188489460679249783058), (.ok (Board.mk 17947921207978287274076134429137620188911756639759194834696723929627466382311627650795888509741330)))) hemp c7n_12 g1
  exact solve_node_guess 72 (Board.mk 58932004316118820238984158372723002187577817551251382756399296846119745911188489460679249783058) (PossibleValues.mk 904912463627472612787961967446539501584187493126207791955724641816488203646748951397352527413862984762673403263099703582748196017686043649317602487878213429324680581065271032860468046110473614844031129019379183779840000) 0 5 [3, 5, 7] (some ((Board.mk 58932004316118820238984158372723002187577817551251382756399296846119745911188489460679249783058), (.ok (Board.mk 17947921207978287274076134429137620188911756639759194834696723929627466382311627650795888509741330)))) hf he hc g0

theorem c7n_15 : _solve 73 (Board.mk 58932004316118820238984158372723002187577817551251382756399296846119745911188489460679249848594) (PossibleValues.mk 904912463627472612787961967446539501318618496717824242610930428703491327892196952823469207932117914782166153796568372847339366324539260834782824237338679007304530317288523292761904314188586169283863027626549758677483520) = some ((Board.mk 58932004316118820238984158372723002187577817551251382756399296846119745911188489460679249848594), (.error .NotSolvable)) := by rfl

theorem c7n_9 : _solve 74 (Board.mk 58932004316118820238984158372723002187577817551251382756399296846119745911188489460679249520914) (PossibleValues.mk 904912463627472612787961967446539501849756489534591341300518854929485079401300949971326701736145005604499318243193716209332562527150430770016959451326248544892123516574448198813595261768075498841870344437946834634145792) = some ((Board.mk 58932004316118820238984158372723002187577817551251382756399296846119745911188489460679249520914), (.ok (Board.mk 17947921207978287274076134429137620188911756639759194834696723929627466382311627650795888509741330))) := by
  have hf : _solve_fast (Board.mk 58932004316118820238984158372723002187577817551251382756399296846119745911188489460679249520914) (PossibleValues.mk 904912463627472612787961967446539501849756489534591341300518854929485079401300949971326701736145005604499318243193716209332562527150430770016959451326248544892123516574448198813595261768075498841870344437946834634145792) = some (.ok none) := by rfl
  have he : Board.first_empty_field_index (Board.mk 58932004316118820238984158372723002187577817551251382756399296846119745911188489460679249520914) = some (0, 4) := by rfl
  have hc : PossibleValues.possible_values_for_field (PossibleValues.mk 904912463627472612787961967446539501849756489534591341300518854929485079401300949971326701736145005604499318243193716209332562527150430770016959451326248544892123516574448198813595261768075498841870344437946834634145792) 0 4 = [3, 4, 5] := by rfl
  have hemp : Board.field (Board.mk 58932004316118820238984158372723002187577817551251382756399296846119745911188489460679249520914) 0 4 = 0 := by rfl
  have g3 : solveGuessLoop (_solve 73) (Board.mk 58932004316118820238984158372723002187577817551251382756399296846119745911188489460679249520914) (PossibleValues.mk 904912463627472612787961967446539501849756489534591341300518854929485079401300949971326701736145005604499318243193716209332562527150430770016959451326248544892123516574448198813595261768075498841870344437946834634145792) 0 4 [] (some (Board.mk 17947921207978287274076134429137620188911756639759194834696723929627466382311627650795888509741330)) = some ((Board.mk 58932004316118820238984158372723002187577817551251382756399296846119745911188489460679249520914), (.ok (Board.mk 17947921207978287274076134429137620188911756639759194834696723929627466382311627650795888509741330))) := by rfl
  have g2 : solveGuessLoop (_solve 73) (Board.mk 58932004316118820238984158372723002187577817551251382756399296846119745911188489460679249520914) (PossibleValues.mk 904912463627472612787961967446539501849756489534591341300518854929485079401300949971326701736145005604499318243193716209332562527150430770016959451326248544892123516574448198813595261768075498841870344437946834634145792) 0 4 [5] (some (Board.mk 17947921207978287274076134429137620188911756639759194834696723929627466382311627650795888509741330)) = some ((Board.mk 58932004316118820238984158372723002187577817551251382756399296846119745911188489460679249520914), (.ok (Board.mk 17947921207978287274076134429137620188911756639759194834696723929627466382311627650795888509741330))) := by
    exact guessLoop_cons_notsolvable (_solve 73) (Board.mk 58932004316118820238984158372723002187577817551251382756399296846119745911188489460679249520914) (PossibleValues.mk 904912463627472612787961967446539501849756489534591341300518854929485079401300949971326701736145005604499318243193716209332562527150430770016959451326248544892123516574448198813595261768075498841870344437946834634145792) 0 4 5 [] (some (Board.mk 17947921207978287274076134429137620188911756639759194834696723929627466382311627650795888509741330)) (Board.mk 58932004316118820238984158372723002187577817551251382756399296846119745911188489460679249848594) (some ((Board.mk 58932004316118820238984158372723002187577817551251382756399296846119745911188489460679249520914), (.ok (Board.mk 17947921207978287274076134429137620188911756639759194834696723929627466382311627650795888509741330)))) hemp c7n_15 g3
  have g1 : solveGuessLoop (_solve 73) (Board.mk 58932004316118820238984158372723002187577817551251382756399296846119745911188489460679249520914) (PossibleValues.mk 904912463627472612787961967446539501849756489534591341300518854929485079401300949971326701736145005604499318243193716209332562527150430770016959451326248544892123516574448198813595261768075498841870344437946834634145792) 0 4 [4, 5] none = some ((Board.mk 58932004316118820238984158372723002187577817551251382756399296846119745911188489460679249520914), (.ok (Board.mk 17947921207978287274076134429137620188911756639759194834696723929627466382311627650795888509741330))) := by
    exact guessLoop_cons_ok_first (_solve 73) (Board.mk 58932004316118820238984158372723002187577817551251382756399296846119745911188489460679249520914) (PossibleValues.mk 904912463627472612787961967446539501849756489534591341300518854929485079401300949971326701736145005604499318243193716209332562527150430770016959451326248544892123516574448198813595261768075498841870344437946834634145792) 0 4 4 [5] (Board.mk 58932004316118820238984158372723002187577817551251382756399296846119745911188489460679249783058) (Board.mk 17947921207978287274076134429137620188911756639759194834696723929627466382311627650795888509741330) (some ((Board.mk 58932004316118820238984158372723002187577817551251382756399296846119745911188489460679249520914), (.ok (Board.mk 17947921207978287274076134429137620188911756639759194834696723929627466382311627650795888509741330)))) hemp c7n_11 g2
  have g0 : solveGuessLoop (_solve 73) (Board.mk 58932004316118820238984158372723002187577817551251382756399296846119745911188489460679249520914) (PossibleValues.mk 904912463627472612787961967446539501849756489534591341300518854929485079401300949971326701736145005604499318243193716209332562527150430770016959451326248544892123516574448198813595261768075498841870344437946834634145792) 0 4 [3, 4, 5] none = some ((Board.mk 58932004316118820238984158372723002187577817551251382756399296846119745911188489460679249520914), (.ok (Board.mk 17947921207978287274076134429137620188911756639759194834696723929627466382311627650795888509741330))) := by
    exact guessLoop_cons_notsolvable (_solve 73) (Board.mk 58932004316118820238984158372723002187577817551251382756399296846119745911188489460679249520914) (PossibleValues.mk 904912463627472612787961967446539501849756489534591341300518854929485079401300949971326701736145005604499318243193716209332562527150430770016959451326248544892123516574448198813595261768075498841870344437946834634145792) 0 4 3 [4, 5] none (Board.mk 58932004316118820238984158372723002187577817551251382756399296846119745911188489460679249717522) (some ((Board.mk 58932004316118820238984158372723002187577817551251382756399296846119745911188489460679249520914), (.ok (Board.mk 17947921207978287274076134429137620188911756639759194834696723929627466382311627650795888509741330)))) hemp c7n_10 g1
  exact solve_node_guess 73 (Board.mk 58932004316118820238984158372723002187577817551251382756399296846119745911188489460679249520914) (PossibleValues.mk 904912463627472612787961967446539501849756489534591341300518854929485079401300949971326701736145005604499318243193716209332562527150430770016959451326248544892123516574448198813595261768075498841870344437946834634145792) 0 4 [3, 4, 5] (some ((Board.mk 58932004316118820238984158372723002187577817551251382756399296846119745911188489460679249520914), (.ok (Board.mk 17947921207978287274076134429137620188911756639759194834696723929627466382311627650795888509741330)))) hf he hc g0

theorem c7n_8 : _solve 75 (Board.mk 58932004316118820238984158372723002187577817551251382756399296846119739866559391387533375990034) (PossibleValues.mk 904912463627472612787961967446539501849756489534591341300518854929485079401300949971326701736145005604499318243193716209332562527150430770016959451768823032677517864986549391109965137702977513000437893975961455160197120) = some ((Board.mk 58932004316118820238984158372723002187577817551251382756399296846119739866559391387533375990034), (.ok (Board.mk 17947921207978287274076134429137620188911756639759194834696723929627466382311627650795888509741330))) := by
  exact solve_node_fast 74 (Board.mk 58932004316118820238984158372723002187577817551251382756399296846119739866559391387533375990034) (Board.mk 58932004316118820238984158372723002187577817551251382756399296846119745911188489460679249520914) (PossibleValues.mk 904912463627472612787961967446539501849756489534591341300518854929485079401300949971326701736145005604499318243193716209332562527150430770016959451768823032677517864986549391109965137702977513000437893975961455160197120) (PossibleValues.mk 904912463627472612787961967446539501849756489534591341300518854929485079401300949971326701736145005604499318243193716209332562527150430770016959451326248544892123516574448198813595261768075498841870344437946834634145792) (.ok (Board.mk 17947921207978287274076134429137620188911756639759194834696723929627466382311627650795888509741330)) (Board.mk 58932004316118820238984158372723002187577817551251382756399296846119745911188489460679249520914) (by rfl) c7n_9

theorem c7n_6 : _solve 76 (Board.mk 58932004316118820238984158372723002187577817551251382756399296846119739866559391387533375987730) (PossibleValues.mk 904912463627472612787961967446539501849756489534591341300518854929485079401300949971326701736145005604499318243193716209332562527150430770016959451768823032677518257305407852777512877439978722756420479531513392035528704) = some ((Board.mk 58932004316118820238984158372723002187577817551251382756399296846119739866559391387533375987730), (.ok (Board.mk 17947921207978287274076134429137620188911756639759194834696723929627466382311627650795888509741330))) := by
  have hf : _solve_fast (Board.mk 58932004316118820238984158372723002187577817551251382756399296846119739866559391387533375987730) (PossibleValues.mk 904912463627472612787961967446539501849756489534591341300518854929485079401300949971326701736145005604499318243193716209332562527150430770016959451768823032677518257305407852777512877439978722756420479531513392035528704) = some (.ok none) := by rfl
  have he : Board.first_empty_field_index (Board.mk 58932004316118820238984158372723002187577817551251382756399296846119739866559391387533375987730) = some (0, 2) := by rfl
  have hc : PossibleValues.possible_values_for_field (PossibleValues.mk 904912463627472612787961967446539501849756489534591341300518854929485079401300949971326701736145005604499318243193716209332562527150430770016959451768823032677518257305407852777512877439978722756420479531513392035528704) 0 2 = [5, 9] := by rfl
  have hemp : Board.field (Board.mk 58932004316118820238984158372723002187577817551251382756399296846119739866559391387533375987730) 0 2 = 0 := by rfl
  have g2 : solveGuessLoop (_solve 75) (Board.mk 58932004316118820238984158372723002187577817551251382756399296846119739866559391387533375987730) (PossibleValues.mk 904912463627472612787961967446539501849756489534591341300518854929485079401300949971326701736145005604499318243193716209332562527150430770016959451768823032677518257305407852777512877439978722756420479531513392035528704) 0 2 [] (some (Board.mk 17947921207978287274076134429137620188911756639759194834696723929627466382311627650795888509741330)) = some ((Board.mk 58932004316118820238984158372723002187577817551251382756399296846119739866559391387533375987730), (.ok (Board.mk 17947921207978287274076134429137620188911756639759194834696723929627466382311627650795888509741330))) := by rfl
  have g1 : solveGuessLoop (_solve 75) (Board.mk 58932004316118820238984158372723002187577817551251382756399296846119739866559391387533375987730) (PossibleValues.mk 904912463627472612787961967446539501849756489534591341300518854929485079401300949971326701736145005604499318243193716209332562527150430770016959451768823032677518257305407852777512877439978722756420479531513392035528704) 0 2 [9] none = some ((Board.mk 58932004316118820238984158372723002187577817551251382756399296846119739866559391387533375987730), (.ok (Board.mk 17947921207978287274076134429137620188911756639759194834696723929627466382311627650795888509741330))) := by
    exact guessLoop_cons_ok_first (_solve 75) (Board.mk 58932004316118820238984158372723002187577817551251382756399296846119739866559391387533375987730) (PossibleValues.mk 904912463627472612787961967446539501849756489534591341300518854929485079401300949971326701736145005604499318243193716209332562527150430770016959451768823032677518257305407852777512877439978722756420479531513392035528704) 0 2 9 [] (Board.mk 58932004316118820238984158372723002187577817551251382756399296846119739866559391387533375990034) (Board.mk 17947921207978287274076134429137620188911756639759194834696723929627466382311627650795888509741330) (some ((Board.mk 58932004316118820238984158372723002187577817551251382756399296846119739866559391387533375987730), (.ok (Board.mk 17947921207978287274076134429137620188911756639759194834696723929627466382311627650795888509741330)))) hemp c7n_8 g2
  have g0 : solveGuessLoop (_solve 75) (Board.mk 58932004316118820238984158372723002187577817551251382756399296846119739866559391387533375987730) (PossibleValues.mk 904912463627472612787961967446539501849756489534591341300518854929485079401300949971326701736145005604499318243193716209332562527150430770016959451768823032677518257305407852777512877439978722756420479531513392035528704) 0 2 [5, 9] none = some ((Board.mk 58932004316118820238984158372723002187577817551251382756399296846119739866559391387533375987730), (.ok (Board.mk 17947921207978287274076134429137620188911756639759194834696723929627466382311627650795888509741330))) := by
    exact guessLoop_cons_notsolvable (_solve 75) (Board.mk 58932004316118820238984158372723002187577817551251382756399296846119739866559391387533375987730) (PossibleValues.mk 904912463627472612787961967446539501849756489534591341300518854929485079401300949971326701736145005604499318243193716209332562527150430770016959451768823032677518257305407852777512877439978722756420479531513392035528704) 0 2 5 [9] none (Board.mk 58932004316118820238984158372723002187577817551251382756399296846119739866559391387533375989010) (some ((Board.mk 58932004316118820238984158372723002187577817551251382756399296846119739866559391387533375987730), (.ok (Board.mk 17947921207978287274076134429137620188911756639759194834696723929627466382311627650795888509741330)))) hemp c7n_7 g1
  exact solve_node_guess 75 (Board.mk 58932004316118820238984158372723002187577817551251382756399296846119739866559391387533375987730) (PossibleValues.mk 904912463627472612787961967446539501849756489534591341300518854929485079401300949971326701736145005604499318243193716209332562527150430770016959451768823032677518257305407852777512877439978722756420479531513392035528704) 0 2 [5, 9] (some ((Board.mk 58932004316118820238984158372723002187577817551251382756399296846119739866559391387533375987730), (.ok (Board.mk 17947921207978287274076134429137620188911756639759194834696723929627466382311627650795888509741330)))) hf he hc g0

theorem c7n_5 : _solve 77 (Board.mk 58932004316118820238984158372723002187577817551251382756399296846119739866559391387533375987714) (PossibleValues.mk 904912463627472612787961967446539501849756489534591341300518854929485079401300949971326701736145005604499318243193716226830568325414526164996984505715371287765087677637670387177918558093644953949920484818700394895245824) = some ((Board.mk 58932004316118820238984158372723002187577817551251382756399296846119739866559391387533375987714), (.ok (Board.mk 17947921207978287274076134429137620188911756639759194834696723929627466382311627650795888509741330))) := by
  have hf : _solve_fast (Board.mk 58932004316118820238984158372723002187577817551251382756399296846119739866559391387533375987714) (PossibleValues.mk 904912463627472612787961967446539501849756489534591341300518854929485079401300949971326701736145005604499318243193716226830568325414526164996984505715371287765087677637670387177918558093644953949920484818700394895245824) = some (.ok none) := by rfl
  have he : Board.first_empty_field_index (Board.mk 58932004316118820238984158372723002187577817551251382756399296846119739866559391387533375987714) = some (0, 1) := by rfl
  have hc : PossibleValues.possible_values_for_field (PossibleValues.mk 904912463627472612787961967446539501849756489534591341300518854929485079401300949971326701736145005604499318243193716226830568325414526164996984505715371287765087677637670387177918558093644953949920484818700394895245824) 0 1 = [1] := by rfl
  have hemp : Board.field (Board.mk 58932004316118820238984158372723002187577817551251382756399296846119739866559391387533375987714) 0 1 = 0 := by rfl
  have g1 : solveGuessLoop (_solve 76) (Board.mk 58932004316118820238984158372723002187577817551251382756399296846119739866559391387533375987714) (PossibleValues.mk 904912463627472612787961967446539501849756489534591341300518854929485079401300949971326701736145005604499318243193716226830568325414526164996984505715371287765087677637670387177918558093644953949920484818700394895245824) 0 1 [] (some (Board.mk 17947921207978287274076134429137620188911756639759194834696723929627466382311627650795888509741330)) = some ((Board.mk 58932004316118820238984158372723002187577817551251382756399296846119739866559391387533375987714), (.ok (Board.mk 17947921207978287274076134429137620188911756639759194834696723929627466382311627650795888509741330))) := by rfl
  have g0 : solveGuessLoop (_solve 76) (Board.mk 58932004316118820238984158372723002187577817551251382756399296846119739866559391387533375987714) (PossibleValues.mk 904912463627472612787961967446539501849756489534591341300518854929485079401300949971326701736145005604499318243193716226830568325414526164996984505715371287765087677637670387177918558093644953949920484818700394895245824) 0 1 [1] none = some ((Board.mk 58932004316118820238984158372723002187577817551251382756399296846119739866559391387533375987714), (.ok (Board.mk 17947921207978287274076134429137620188911756639759194834696723929627466382311627650795888509741330))) := by
    exact guessLoop_cons_ok_first (_solve 76) (Board.mk 58932004316118820238984158372723002187577817551251382756399296846119739866559391387533375987714) (PossibleValues.mk 904912463627472612787961967446539501849756489534591341300518854929485079401300949971326701736145005604499318243193716226830568325414526164996984505715371287765087677637670387177918558093644953949920484818700394895245824) 0 1 1 [] (Board.mk 58932004316118820238984158372723002187577817551251382756399296846119739866559391387533375987730) (Board.mk 17947921207978287274076134429137620188911756639759194834696723929627466382311627650795888509741330) (some ((Board.mk 58932004316118820238984158372723002187577817551251382756399296846119739866559391387533375987714), (.ok (Board.mk 17947921207978287274076134429137620188911756639759194834696723929627466382311627650795888509741330)))) hemp c7n_6 g1
  exact solve_node_guess 76 (Board.mk 58932004316118820238984158372723002187577817551251382756399296846119739866559391387533375987714) (PossibleValues.mk 904912463627472612787961967446539501849756489534591341300518854929485079401300949971326701736145005604499318243193716226830568325414526164996984505715371287765087677637670387177918558093644953949920484818700394895245824) 0 1 [1] (some ((Board.mk 58932004316118820238984158372723002187577817551251382756399296846119739866559391387533375987714), (.ok (Board.mk 17947921207978287274076134429137620188911756639759194834696723929627466382311627650795888509741330)))) hf he hc g0

theorem c7n_4 : _solve 78 (Board.mk 58932004316118820238984158372723002187570155073547053312107505110983988320641297691922457976834) (PossibleValues.mk 904912463627472612787961967446539501849756489534591341300518854929485079401300950017935412729046255070165158387019468998116368983095912064210640673461472031908703889241843415267682441902378382468245618153271705118966288) = some ((Board.mk 58932004316118820238984158372723002187570155073547053312107505110983988320641297691922457976834), (.ok (Board.mk 17947921207978287274076134429137620188911756639759194834696723929627466382311627650795888509741330))) := by
  exact solve_node_fast 77 (Board.mk 58932004316118820238984158372723002187570155073547053312107505110983988320641297691922457976834) (Board.mk 58932004316118820238984158372723002187577817551251382756399296846119739866559391387533375987714) (PossibleValues.mk 904912463627472612787961967446539501849756489534591341300518854929485079401300950017935412729046255070165158387019468998116368983095912064210640673461472031908703889241843415267682441902378382468245618153271705118966288) (PossibleValues.mk 904912463627472612787961967446539501849756489534591341300518854929485079401300949971326701736145005604499318243193716226830568325414526164996984505715371287765087677637670387177918558093644953949920484818700394895245824) (.ok (Board.mk 17947921207978287274076134429137620188911756639759194834696723929627466382311627650795888509741330)) (Board.mk 58932004316118820238984158372723002187577817551251382756399296846119739866559391387533375987714) (by rfl) c7n_5

theorem c7n_3 : _solve 79 (Board.mk 58932004316118820238984158372723002187570155073547053312107505110983988320641297691441421639682) (PossibleValues.mk 904912463627472612787961967446539501849756489534591341300518854929485079401300950017935412729046255070165158387019469000303619707878923988583143805204790563794650066975313051273197773101229900994514876804268253514072656) = some ((Board.mk 58932004316118820238984158372723002187570155073547053312107505110983988320641297691441421639682), (.ok (Board.mk 17947921207978287274076134429137620188911756639759194834696723929627466382311627650795888509741330))) := by
  exact solve_node_fast 78 (Board.mk 58932004316118820238984158372723002187570155073547053312107505110983988320641297691441421639682) (Board.mk 58932004316118820238984158372723002187570155073547053312107505110983988320641297691922457976834) (PossibleValues.mk 904912463627472612787961967446539501849756489534591341300518854929485079401300950017935412729046255070165158387019469000303619707878923988583143805204790563794650066975313051273197773101229900994514876804268253514072656) (PossibleValues.mk 904912463627472612787961967446539501849756489534591341300518854929485079401300950017935412729046255070165158387019468998116368983095912064210640673461472031908703889241843415267682441902378382468245618153271705118966288) (.ok (Board.mk 17947921207978287274076134429137620188911756639759194834696723929627466382311627650795888509741330)) (Board.mk 58932004316118820238984158372723002187570155073547053312107505110983988320641297691922457976834) (by rfl) c7n_4

theorem c7n_16 : _solve 79 (Board.mk 58932004316118820238984158372723002187570155073547053312107505110983988320641297691441421639685) (PossibleValues.mk 904912463627472612787961967446539501849756489534591341300518854929485079401300950017935412729045098222219775451971303148582913943708693403024596809781596840891161466771722895635300703174787052703164940151564105203614274) = some ((Board.mk 58932004316118820238984158372723002187570155073547053312107505110983988320641297691441421639685), (.error .NotSolvable)) := by rfl

theorem c7n_17 : _solve 79 (Board.mk 58932004316118820238984158372723002187570155073547053312107505110983988320641297691441421639687) (PossibleValues.mk 904912463627472612787961967446539501849756489534591341300518854929485079401300950017935412729046420334157355949169206977011728761005338288018022466633271898228958311802828899552088490510371094219436360836176023261020690) = some ((Board.mk 58932004316118820238984158372723002187570155073547053312107505110983988320641297691441421639687), (.error .NotSolvable)) := by rfl

theorem c7n_2 : _solve 80 (Board.mk 58932004316118820238984158372723002187570155073547053312107505110983988320641297691441421639680) (PossibleValues.mk 904912463627472612787961967446539501849756489534591341300518854929485079401300950017935412729046420334157355949169206979198979485788350212390525598376590430114904489536297803379532019033932894829890699655414514828739154) = some ((Board.mk 58932004316118820238984158372723002187570155073547053312107505110983988320641297691441421639680), (.ok (Board.mk 17947921207978287274076134429137620188911756639759194834696723929627466382311627650795888509741330))) := by
  have hf : _solve_fast (Board.mk 58932004316118820238984158372723002187570155073547053312107505110983988320641297691441421639680) (PossibleValues.mk 904912463627472612787961967446539501849756489534591341300518854929485079401300950017935412729046420334157355949169206979198979485788350212390525598376590430114904489536297803379532019033932894829890699655414514828739154) = some (.ok none) := by rfl
  have he : Board.first_empty_field_index (Board.mk 58932004316118820238984158372723002187570155073547053312107505110983988320641297691441421639680) = some (0, 0) := by rfl
  have hc : PossibleValues.possible_values_for_field (PossibleValues.mk 904912463627472612787961967446539501849756489534591341300518854929485079401300950017935412729046420334157355949169206979198979485788350212390525598376590430114904489536297803379532019033932894829890699655414514828739154) 0 0 = [2, 5, 7] := by rfl
  have hemp : Board.field (Board.mk 58932004316118820238984158372723002187570155073547053312107505110983988320641297691441421639680) 0 0 = 0 := by rfl
  have g3 : solveGuessLoop (_solve 79) (Board.mk 58932004316118820238984158372723002187570155073547053312107505110983988320641297691441421639680) (PossibleValues.mk 904912463627472612787961967446539501849756489534591341300518854929485079401300950017935412729046420334157355949169206979198979485788350212390525598376590430114904489536297803379532019033932894829890699655414514828739154) 0 0 [] (some (Board.mk 17947921207978287274076134429137620188911756639759194834696723929627466382311627650795888509741330)) = some ((Board.mk 58932004316118820238984158372723002187570155073547053312107505110983988320641297691441421639680), (.ok (Board.mk 17947921207978287274076134429137620188911756639759194834696723929627466382311627650795888509741330))) := by rfl
  have g2 : solveGuessLoop (_solve 79) (Board.mk 58932004316118820238984158372723002187570155073547053312107505110983988320641297691441421639680) (PossibleValues.mk 904912463627472612787961967446539501849756489534591341300518854929485079401300950017935412729046420334157355949169206979198979485788350212390525598376590430114904489536297803379532019033932894829890699655414514828739154) 0 0 [7] (some (Board.mk 17947921207978287274076134429137620188911756639759194834696723929627466382311627650795888509741330)) = some ((Board.mk 58932004316118820238984158372723002187570155073547053312107505110983988320641297691441421639680), (.ok (Board.mk 17947921207978287274076134429137620188911756639759194834696723929627466382311627650795888509741330))) := by
    exact guessLoop_cons_notsolvable (_solve 79) (Board.mk 58932004316118820238984158372723002187570155073547053312107505110983988320641297691441421639680) (PossibleValues.mk 904912463627472612787961967446539501849756489534591341300518854929485079401300950017935412729046420334157355949169206979198979485788350212390525598376590430114904489536297803379532019033932894829890699655414514828739154) 0 0 7 [] (some (Board.mk 17947921207978287274076134429137620188911756639759194834696723929627466382311627650795888509741330)) (Board.mk 58932004316118820238984158372723002187570155073547053312107505110983988320641297691441421639687) (some ((Board.mk 58932004316118820238984158372723002187570155073547053312107505110983988320641297691441421639680), (.ok (Board.mk 17947921207978287274076134429137620188911756639759194834696723929627466382311627650795888509741330)))) hemp c7n_17 g3
  have g1 : solveGuessLoop (_solve 79) (Board.mk 58932004316118820238984158372723002187570155073547053312107505110983988320641297691441421639680) (PossibleValues.mk 904912463627472612787961967446539501849756489534591341300518854929485079401300950017935412729046420334157355949169206979198979485788350212390525598376590430114904489536297803379532019033932894829890699655414514828739154) 0 0 [5, 7] (some (Board.mk 17947921207978287274076134429137620188911756639759194834696723929627466382311627650795888509741330)) = some ((Board.mk 58932004316118820238984158372723002187570155073547053312107505110983988320641297691441421639680), (.ok (Board.mk 17947921207978287274076134429137620188911756639759194834696723929627466382311627650795888509741330))) := by
    exact guessLoop_cons_notsolvable (_solve 79) (Board.mk 58932004316118820238984158372723002187570155073547053312107505110983988320641297691441421639680) (PossibleValues.mk 904912463627472612787961967446539501849756489534591341300518854929485079401300950017935412729046420334157355949169206979198979485788350212390525598376590430114904489536297803379532019033932894829890699655414514828739154) 0 0 5 [7] (some (Board.mk 17947921207978287274076134429137620188911756639759194834696723929627466382311627650795888509741330)) (Board.mk 58932004316118820238984158372723002187570155073547053312107505110983988320641297691441421639685) (some ((Board.mk 58932004316118820238984158372723002187570155073547053312107505110983988320641297691441421639680), (.ok (Board.mk 17947921207978287274076134429137620188911756639759194834696723929627466382311627650795888509741330)))) hemp c7n_16 g2
  have g0 : solveGuessLoop (_solve 79) (Board.mk 58932004316118820238984158372723002187570155073547053312107505110983988320641297691441421639680) (PossibleValues.mk 904912463627472612787961967446539501849756489534591341300518854929485079401300950017935412729046420334157355949169206979198979485788350212390525598376590430114904489536297803379532019033932894829890699655414514828739154) 0 0 [2, 5, 7] none = some ((Board.mk 58932004316118820238984158372723002187570155073547053312107505110983988320641297691441421639680), (.ok (Board.mk 17947921207978287274076134429137620188911756639759194834696723929627466382311627650795888509741330))) := by
    exact guessLoop_cons_ok_first (_solve 79) (Board.mk 58932004316118820238984158372723002187570155073547053312107505110983988320641297691441421639680) (PossibleValues.mk 904912463627472612787961967446539501849756489534591341300518854929485079401300950017935412729046420334157355949169206979198979485788350212390525598376590430114904489536297803379532019033932894829890699655414514828739154) 0 0 2 [5, 7] (Board.mk 58932004316118820238984158372723002187570155073547053312107505110983988320641297691441421639682) (Board.mk 17947921207978287274076134429137620188911756639759194834696723929627466382311627650795888509741330) (some ((Board.mk 58932004316118820238984158372723002187570155073547053312107505110983988320641297691441421639680), (.ok (Board.mk 17947921207978287274076134429137620188911756639759194834696723929627466382311627650795888509741330)))) hemp c7n_3 g1
  exact solve_node_guess 79 (Board.mk 58932004316118820238984158372723002187570155073547053312107505110983988320641297691441421639680) (PossibleValues.mk 904912463627472612787961967446539501849756489534591341300518854929485079401300950017935412729046420334157355949169206979198979485788350212390525598376590430114904489536297803379532019033932894829890699655414514828739154) 0 0 [2, 5, 7] (some ((Board.mk 58932004316118820238984158372723002187570155073547053312107505110983988320641297691441421639680), (.ok (Board.mk 17947921207978287274076134429137620188911756639759194834696723929627466382311627650795888509741330)))) hf he hc g0

theorem c7n_1 : _solve 81 (Board.mk 58932004316118820238984158372407065312564483513453299229056493814027303034439650348882395684864) (PossibleValues.mk 904912463627472614012687467050067556214623484979323739185837395253413323657393692357838800379956642625949644694600648119754771516372614375057390347211588956416275591494497678214988055464383971399981604118992946086052434) = some ((Board.mk 58932004316118820238984158372407065312564483513453299229056493814027303034439650348882395684864), (.ok (Board.mk 17947921207978287274076134429137620188911756639759194834696723929627466382311627650795888509741330))) := by
  exact solve_node_fast 80 (Board.mk 58932004316118820238984158372407065312564483513453299229056493814027303034439650348882395684864) (Board.mk 58932004316118820238984158372723002187570155073547053312107505110983988320641297691441421639680) (PossibleValues.mk 904912463627472614012687467050067556214623484979323739185837395253413323657393692357838800379956642625949644694600648119754771516372614375057390347211588956416275591494497678214988055464383971399981604118992946086052434) (PossibleValues.mk 904912463627472612787961967446539501849756489534591341300518854929485079401300950017935412729046420334157355949169206979198979485788350212390525598376590430114904489536297803379532019033932894829890699655414514828739154) (.ok (Board.mk 17947921207978287274076134429137620188911756639759194834696723929627466382311627650795888509741330)) (Board.mk 58932004316118820238984158372723002187570155073547053312107505110983988320641297691441421639680) (by rfl) c7n_2

theorem c7n_0 : _solve 82 (Board.mk 58932004316118806575515861306351653609653550833443308928525430395446715379162035960102923558912) (PossibleValues.mk 904912463627472653299435340111988436748464414378613084141213645326829717262180805311603412438433207311368503066894403213260393906761565477773296543730873563468281408831085643182976844329727038108674930991438699676074578) = some ((Board.mk 58932004316118806575515861306351653609653550833443308928525430395446715379162035960102923558912), (.ok (Board.mk 17947921207978287274076134429137620188911756639759194834696723929627466382311627650795888509741330))) := by
  exact solve_node_fast 81 (Board.mk 58932004316118806575515861306351653609653550833443308928525430395446715379162035960102923558912) (Board.mk 58932004316118820238984158372407065312564483513453299229056493814027303034439650348882395684864) (PossibleValues.mk 904912463627472653299435340111988436748464414378613084141213645326829717262180805311603412438433207311368503066894403213260393906761565477773296543730873563468281408831085643182976844329727038108674930991438699676074578) (PossibleValues.mk 904912463627472614012687467050067556214623484979323739185837395253413323657393692357838800379956642625949644694600648119754771516372614375057390347211588956416275591494497678214988055464383971399981604118992946086052434) (.ok (Board.mk 17947921207978287274076134429137620188911756639759194834696723929627466382311627650795888509741330)) (Board.mk 58932004316118820238984158372407065312564483513453299229056493814027303034439650348882395684864) (by rfl) c7n_1


theorem c8n_6 : _solve 76 (Board.mk 58932004316118820238984158156727501616995329152395274261861217220255443814261064881849558394130) (PossibleValues.mk 904567060748599405495375620422544419001388920361166946303688672436053298766048059986483470749603327690252616285542730120993250058670988229055563626586264131991402003906106543221710222003090828380687527545613818324353088) = some ((Board.mk 58932004316118820238984158156727501616995329152395274261861217220255443814261064881849558394130), (.error .NotSolvable)) := by rfl

theorem c8n_5 : _solve 77 (Board.mk 58932004316118820238984158156727491975367027633821329571229652016492814932545335128508640290066) (PossibleValues.mk 904912463627472653280448469592461330490115784261564536981352259094459245767302933334662884426430692977300727949783409851136327675082801905870660301148776354536869709568404541769741087772705318416194934353198735421374528) = some ((Board.mk 58932004316118820238984158156727491975367027633821329571229652016492814932545335128508640290066), (.error .NotSolvable)) := by
  exact solve_node_fast 76 (Board.mk 58932004316118820238984158156727491975367027633821329571229652016492814932545335128508640290066) (Board.mk 58932004316118820238984158156727501616995329152395274261861217220255443814261064881849558394130) (PossibleValues.mk 904912463627472653280448469592461330490115784261564536981352259094459245767302933334662884426430692977300727949783409851136327675082801905870660301148776354536869709568404541769741087772705318416194934353198735421374528) (PossibleValues.mk 904567060748599405495375620422544419001388920361166946303688672436053298766048059986483470749603327690252616285542730120993250058670988229055563626586264131991402003906106543221710222003090828380687527545613818324353088) (.error .NotSolvable) (Board.mk 58932004316118820238984158156727501616995329152395274261861217220255443814261064881849558394130) (by rfl) c8n_6

theorem c8n_4 : _solve 78 (Board.mk 58932004316118820238984158156727491975359365156117000126937860179945015368368889313161465849106) (PossibleValues.mk 904912463627472653280448506091986271467677533390952478433382144405696269974106331090375405951831234108997307518810862640157432227756374478703928143917801762084975466437895306539938735555600304997556645307241999974301760) = some ((Board.mk 58932004316118820238984158156727491975359365156117000126937860179945015368368889313161465849106), (.error .NotSolvable)) := by
  exact solve_node_fast 77 (Board.mk 58932004316118820238984158156727491975359365156117000126937860179945015368368889313161465849106) (Board.mk 58932004316118820238984158156727491975367027633821329571229652016492814932545335128508640290066) (PossibleValues.mk 904912463627472653280448506091986271467677533390952478433382144405696269974106331090375405951831234108997307518810862640157432227756374478703928143917801762084975466437895306539938735555600304997556645307241999974301760) (PossibleValues.mk 904912463627472653280448469592461330490115784261564536981352259094459245767302933334662884426430692977300727949783409851136327675082801905870660301148776354536869709568404541769741087772705318416194934353198735421374528) (.error .NotSolvable) (Board.mk 58932004316118820238984158156727491975367027633821329571229652016492814932545335128508640290066) (by rfl) c8n_5

theorem c8n_14 : _solve 71 (Board.mk 7268148991402822780746118098604773557528672791919052016268355299803737244125879590312454681487634) (PossibleValues.mk 55901123707800876784471096417513626918647055938850784523038473443874400767305327743343433843126911140460589745672209682189089702198875868365330980903528521212656617346239858630458027504996220992) = some ((Board.mk 7268148991402822780746118098604773557528672791919052016268355299803737244125879590312454681487634), (.error .NotSolvable)) := by rfl

theorem c8n_18 : _solve 68 (Board.mk 7268148991403067511497045630321517378821413511256433172631895330302055182990009915240212815112466) (PossibleValues.mk 1214126392239275515502041451360998387198028718721882541971429296531631073312267928058381161409449253447058805118037132007374568425046250727738308192366921691205641809382606337340856095043747840) = some ((Board.mk 7268148991403067511497045630321517378821413511256433172631895330302055182990009915240212815112466), (.ok (Board.mk 7268148991420589563207345082519818039118040228127765561694670643609260255979702979613384480352530))) := by rfl

theorem c8n_19 : _solve 68 (Board.mk 7268148991403067511497045630321517378821413511256433172631895330302055182990009915240418973542674) (PossibleValues.mk 1214126392239275515502041451360998387198028693148518417782820937053587888958587131863063080528621651150924648676357776384449601988722397258216477839136836443054948127460724747988010941976412160) = some ((Board.mk 7268148991403067511497045630321517378821413511256433172631895330302055182990009915240418973542674), (.error .Ambigious)) := by rfl

theorem c8n_17 : _solve 69 (Board.mk 7268148991403067511497045630321517378821413511256433172631895330302055182990009915239869217728786) (PossibleValues.mk 1214126392239275515502041451360998387198028718721882541971429296531632395424205508555579065240065318989138461927403060795969562014269993750502883100111154370857903623691476818341038293015068672) = some ((Board.mk 7268148991403067511497045630321517378821413511256433172631895330302055182990009915239869217728786), (.error .Ambigious)) := by
  have hf : _solve_fast (Board.mk 7268148991403067511497045630321517378821413511256433172631895330302055182990009915239869217728786) (PossibleValues.mk 1214126392239275515502041451360998387198028718721882541971429296531632395424205508555579065240065318989138461927403060795969562014269993750502883100111154370857903623691476818341038293015068672) = some (.ok none) := by rfl
  have he : Board.first_empty_field_index (Board.mk 7268148991403067511497045630321517378821413511256433172631895330302055182990009915239869217728786) = some (1, 0) := by rfl
  have hc : PossibleValues.possible_values_for_field (PossibleValues.mk 1214126392239275515502041451360998387198028718721882541971429296531632395424205508555579065240065318989138461927403060795969562014269993750502883100111154370857903623691476818341038293015068672) 1 0 = [5, 8] := by rfl
  have hemp : Board.field (Board.mk 7268148991403067511497045630321517378821413511256433172631895330302055182990009915239869217728786) 1 0 = 0 := by rfl
  have g1 : solveGuessLoop (_solve 68) (Board.mk 7268148991403067511497045630321517378821413511256433172631895330302055182990009915239869217728786) (PossibleValues.mk 1214126392239275515502041451360998387198028718721882541971429296531632395424205508555579065240065318989138461927403060795969562014269993750502883100111154370857903623691476818341038293015068672) 1 0 [8] (some (Board.mk 7268148991420589563207345082519818039118040228127765561694670643609260255979702979613384480352530)) = some ((Board.mk 7268148991403067511497045630321517378821413511256433172631895330302055182990009915239869217728786), (.error .Ambigious)) := by
    exact guessLoop_cons_ambigious (_solve 68) (Board.mk 7268148991403067511497045630321517378821413511256433172631895330302055182990009915239869217728786) (PossibleValues.mk 1214126392239275515502041451360998387198028718721882541971429296531632395424205508555579065240065318989138461927403060795969562014269993750502883100111154370857903623691476818341038293015068672) 1 0 8 [] (some (Board.mk 7268148991420589563207345082519818039118040228127765561694670643609260255979702979613384480352530)) (Board.mk 7268148991403067511497045630321517378821413511256433172631895330302055182990009915240418973542674) hemp c8n_19
  have g0 : solveGuessLoop (_solve 68) (Board.mk 7268148991403067511497045630321517378821413511256433172631895330302055182990009915239869217728786) (PossibleValues.mk 1214126392239275515502041451360998387198028718721882541971429296531632395424205508555579065240065318989138461927403060795969562014269993750502883100111154370857903623691476818341038293015068672) 1 0 [5, 8] none = some ((Board.mk 7268148991403067511497045630321517378821413511256433172631895330302055182990009915239869217728786), (.error .Ambigious)) := by
    exact guessLoop_cons_ok_first (_solve 68) (Board.mk 7268148991403067511497045630321517378821413511256433172631895330302055182990009915239869217728786) (PossibleValues.mk 1214126392239275515502041451360998387198028718721882541971429296531632395424205508555579065240065318989138461927403060795969562014269993750502883100111154370857903623691476818341038293015068672) 1 0 5 [8] (Board.mk 7268148991403067511497045630321517378821413511256433172631895330302055182990009915240212815112466) (Board.mk 7268148991420589563207345082519818039118040228127765561694670643609260255979702979613384480352530) (some ((Board.mk 7268148991403067511497045630321517378821413511256433172631895330302055182990009915239869217728786), (.error .Ambigious))) hemp c8n_18 g1
  exact solve_node_guess 68 (Board.mk 7268148991403067511497045630321517378821413511256433172631895330302055182990009915239869217728786) (PossibleValues.mk 1214126392239275515502041451360998387198028718721882541971429296531632395424205508555579065240065318989138461927403060795969562014269993750502883100111154370857903623691476818341038293015068672) 1 0 [5, 8] (some ((Board.mk 7268148991403067511497045630321517378821413511256433172631895330302055182990009915239869217728786), (.error .Ambigious))) hf he hc g0

theorem c8n_16 : _solve 70 (Board.mk 7268148991403067511497045630321517375607537422738446912557200114088331403408620988473884847335698) (PossibleValues.mk 1214126392239275515502041451360998387198041812284314126544724059128107524915846697770134282933700086651623956796624946991601716058001380989623826217838372037402801286342979496021506184546615296) = some ((Board.mk 7268148991403067511497045630321517375607537422738446912557200114088331403408620988473884847335698), (.error .Ambigious)) := by
  exact solve_node_fast 69 (Board.mk 7268148991403067511497045630321517375607537422738446912557200114088331403408620988473884847335698) (Board.mk 7268148991403067511497045630321517378821413511256433172631895330302055182990009915239869217728786) (PossibleValues.mk 1214126392239275515502041451360998387198041812284314126544724059128107524915846697770134282933700086651623956796624946991601716058001380989623826217838372037402801286342979496021506184546615296) (PossibleValues.mk 1214126392239275515502041451360998387198028718721882541971429296531632395424205508555579065240065318989138461927403060795969562014269993750502883100111154370857903623691476818341038293015068672) (.error .Ambigious) (Board.mk 7268148991403067511497045630321517378821413511256433172631895330302055182990009915239869217728786) (by rfl) c8n_17

theorem c8n_15 : _solve 71 (Board.mk 7268148991402822780746118098604773557528672791919052016268355299803737244125879590312455218358546) (PossibleValues.mk 55972411842451223584762364753336775414516804448663688435924624037255023976276230347024146478115996960395821049347906299392189060693554510524977120183960383280480475452530734396744939879234797584) = some ((Board.mk 7268148991402822780746118098604773557528672791919052016268355299803737244125879590312455218358546), (.error .Ambigious)) := by
  exact solve_node_fast 70 (Board.mk 7268148991402822780746118098604773557528672791919052016268355299803737244125879590312455218358546) (Board.mk 7268148991403067511497045630321517375607537422738446912557200114088331403408620988473884847335698) (PossibleValues.mk 55972411842451223584762364753336775414516804448663688435924624037255023976276230347024146478115996960395821049347906299392189060693554510524977120183960383280480475452530734396744939879234797584) (PossibleValues.mk 1214126392239275515502041451360998387198041812284314126544724059128107524915846697770134282933700086651623956796624946991601716058001380989623826217838372037402801286342979496021506184546615296) (.error .Ambigious) (Board.mk 7268148991403067511497045630321517375607537422738446912557200114088331403408620988473884847335698) (by rfl) c8n_16

theorem c8n_13 : _solve 72 (Board.mk 7268148991402822780746118098604773557528672791919052016268355299803737244125879590312453339310354) (PossibleValues.mk 55972411842451223584762364753336775414516804448663688435924624037255023976296404174196700451472683837270793938682162135254220909112356984414765470918819904077313279313478620184806800917815918672) = some ((Board.mk 7268148991402822780746118098604773557528672791919052016268355299803737244125879590312453339310354), (.error .Ambigious)) := by
  have hf : _solve_fast (Board.mk 7268148991402822780746118098604773557528672791919052016268355299803737244125879590312453339310354) (PossibleValues.mk 55972411842451223584762364753336775414516804448663688435924624037255023976296404174196700451472683837270793938682162135254220909112356984414765470918819904077313279313478620184806800917815918672) = some (.ok none) := by rfl
  have he : Board.first_empty_field_index (Board.mk 7268148991402822780746118098604773557528672791919052016268355299803737244125879590312453339310354) = some (0, 7) := by rfl
  have hc : PossibleValues.possible_values_for_field (PossibleValues.mk 55972411842451223584762364753336775414516804448663688435924624037255023976296404174196700451472683837270793938682162135254220909112356984414765470918819904077313279313478620184806800917815918672) 0 7 = [5, 7] := by rfl
  have hemp : Board.field (Board.mk 7268148991402822780746118098604773557528672791919052016268355299803737244125879590312453339310354) 0 7 = 0 := by rfl
  have g1 : solveGuessLoop (_solve 71) (Board.mk 7268148991402822780746118098604773557528672791919052016268355299803737244125879590312453339310354) (PossibleValues.mk 55972411842451223584762364753336775414516804448663688435924624037255023976296404174196700451472683837270793938682162135254220909112356984414765470918819904077313279313478620184806800917815918672) 0 7 [7] none = some ((Board.mk 7268148991402822780746118098604773557528672791919052016268355299803737244125879590312453339310354), (.error .Ambigious)) := by
    exact guessLoop_cons_ambigious (_solve 71) (Board.mk 7268148991402822780746118098604773557528672791919052016268355299803737244125879590312453339310354) (PossibleValues.mk 55972411842451223584762364753336775414516804448663688435924624037255023976296404174196700451472683837270793938682162135254220909112356984414765470918819904077313279313478620184806800917815918672) 0 7 7 [] none (Board.mk 7268148991402822780746118098604773557528672791919052016268355299803737244125879590312455218358546) hemp c8n_15
  have g0 : solveGuessLoop (_solve 71) (Board.mk 7268148991402822780746118098604773557528672791919052016268355299803737244125879590312453339310354) (PossibleValues.mk 55972411842451223584762364753336775414516804448663688435924624037255023976296404174196700451472683837270793938682162135254220909112356984414765470918819904077313279313478620184806800917815918672) 0 7 [5, 7] none = some ((Board.mk 7268148991402822780746118098604773557528672791919052016268355299803737244125879590312453339310354), (.error .Ambigious)) := by
    exact guessLoop_cons_notsolvable (_solve 71) (Board.mk 7268148991402822780746118098604773557528672791919052016268355299803737244125879590312453339310354) (PossibleValues.mk 55972411842451223584762364753336775414516804448663688435924624037255023976296404174196700451472683837270793938682162135254220909112356984414765470918819904077313279313478620184806800917815918672) 0 7 5 [7] none (Board.mk 7268148991402822780746118098604773557528672791919052016268355299803737244125879590312454681487634) (some ((Board.mk 7268148991402822780746118098604773557528672791919052016268355299803737244125879590312453339310354), (.error .Ambigious))) hemp c8n_14 g1
  exact solve_node_guess 71 (Board.mk 7268148991402822780746118098604773557528672791919052016268355299803737244125879590312453339310354) (PossibleValues.mk 55972411842451223584762364753336775414516804448663688435924624037255023976296404174196700451472683837270793938682162135254220909112356984414765470918819904077313279313478620184806800917815918672) 0 7 [5, 7] (some ((Board.mk 7268148991402822780746118098604773557528672791919052016268355299803737244125879590312453339310354), (.error .Ambigious))) hf he hc g0

theorem c8n_12 : _solve 73 (Board.mk 7268148991402822780746118098604773557528672791919050589020662593843856185839910140817316956563730) (PossibleValues.mk 55972411842451223584762364753336775414516804448663688435924624037255023977587534038490929295750529004538425156958580867067813859749220711584422912917665183988691707505871475332310335018728718416) = some ((Board.mk 7268148991402822780746118098604773557528672791919050589020662593843856185839910140817316956563730), (.error .Ambigious)) := by
  exact solve_node_fast 72 (Board.mk 7268148991402822780746118098604773557528672791919050589020662593843856185839910140817316956563730) (Board.mk 7268148991402822780746118098604773557528672791919052016268355299803737244125879590312453339310354) (PossibleValues.mk 55972411842451223584762364753336775414516804448663688435924624037255023977587534038490929295750529004538425156958580867067813859749220711584422912917665183988691707505871475332310335018728718416) (PossibleValues.mk 55972411842451223584762364753336775414516804448663688435924624037255023976296404174196700451472683837270793938682162135254220909112356984414765470918819904077313279313478620184806800917815918672) (.error .Ambigious) (Board.mk 7268148991402822780746118098604773557528672791919052016268355299803737244125879590312453339310354) (by rfl) c8n_13

theorem c8n_11 : _solve 74 (Board.mk 7268148991402822780746118098604773557503564384977503865965319436029295781262471063157942685755666) (PossibleValues.mk 55972411842451742274208474877456589465714290770689768305755737265930526131593749937702579737681362816063732866803611812924937585460711961771706968216024497721659096774987885828650393483138334800) = some ((Board.mk 7268148991402822780746118098604773557503564384977503865965319436029295781262471063157942685755666), (.error .Ambigious)) := by
  exact solve_node_fast 73 (Board.mk 7268148991402822780746118098604773557503564384977503865965319436029295781262471063157942685755666) (Board.mk 7268148991402822780746118098604773557528672791919050589020662593843856185839910140817316956563730) (PossibleValues.mk 55972411842451742274208474877456589465714290770689768305755737265930526131593749937702579737681362816063732866803611812924937585460711961771706968216024497721659096774987885828650393483138334800) (PossibleValues.mk 55972411842451223584762364753336775414516804448663688435924624037255023977587534038490929295750529004538425156958580867067813859749220711584422912917665183988691707505871475332310335018728718416) (.error .Ambigious) (Board.mk 7268148991402822780746118098604773557528672791919050589020662593843856185839910140817316956563730) (by rfl) c8n_12

theorem c8n_10 : _solve 75 (Board.mk 6467153852683819881643091637713500236188087520180464549808144109624121553516663705244953026455826) (PossibleValues.mk 176846275300705267077570416527900037811689054225020468903626317396351057700732439986686847074339037578808565999084273560486570697405872914404267333516769648030664625943790742678305484477715597781157458055682144482656336) = some ((Board.mk 6467153852683819881643091637713500236188087520180464549808144109624121553516663705244953026455826), (.error .Ambigious)) := by
  exact solve_node_fast 74 (Board.mk 6467153852683819881643091637713500236188087520180464549808144109624121553516663705244953026455826) (Board.mk 7268148991402822780746118098604773557503564384977503865965319436029295781262471063157942685755666) (PossibleValues.mk 176846275300705267077570416527900037811689054225020468903626317396351057700732439986686847074339037578808565999084273560486570697405872914404267333516769648030664625943790742678305484477715597781157458055682144482656336) (PossibleValues.mk 55972411842451742274208474877456589465714290770689768305755737265930526131593749937702579737681362816063732866803611812924937585460711961771706968216024497721659096774987885828650393483138334800) (.error .Ambigious) (Board.mk 7268148991402822780746118098604773557503564384977503865965319436029295781262471063157942685755666) (by rfl) c8n_11

theorem c8n_9 : _solve 76 (Board.mk 6466893112078849067424049276665383835783472932226075309968062683646604192710293998146561551591698) (PossibleValues.mk 882849770248189350889734292842919578341559948950105833518995574745872422372201447849277372779955679276584055406170646150366660759290251969552300015326916545714459792506775459251613010396908948265439454072210542513127504) = some ((Board.mk 6466893112078849067424049276665383835783472932226075309968062683646604192710293998146561551591698), (.error .Ambigious)) := by
  exact solve_node_fast 75 (Board.mk 6466893112078849067424049276665383835783472932226075309968062683646604192710293998146561551591698) (Board.mk 6467153852683819881643091637713500236188087520180464549808144109624121553516663705244953026455826) (PossibleValues.mk 882849770248189350889734292842919578341559948950105833518995574745872422372201447849277372779955679276584055406170646150366660759290251969552300015326916545714459792506775459251613010396908948265439454072210542513127504) (PossibleValues.mk 176846275300705267077570416527900037811689054225020468903626317396351057700732439986686847074339037578808565999084273560486570697405872914404267333516769648030664625943790742678305484477715597781157458055682144482656336) (.error .Ambigious) (Board.mk 6467153852683819881643091637713500236188087520180464549808144109624121553516663705244953026455826) (by rfl) c8n_10

theorem c8n_8 : _solve 77 (Board.mk 58932004316118820238984158156727491975359365156117000126937860179945015368368889313161466046738) (PossibleValues.mk 904912463627151600063801266498038457010986777333638734778879131241562438975305140631861397700377349360884108571571794935030486181282858567021715302091374152321351302487901425603920034777274409596897592474574509972684880) = some ((Board.mk 58932004316118820238984158156727491975359365156117000126937860179945015368368889313161466046738), (.error .Ambigious)) := by
  exact solve_node_fast 76 (Board.mk 58932004316118820238984158156727491975359365156117000126937860179945015368368889313161466046738) (Board.mk 6466893112078849067424049276665383835783472932226075309968062683646604192710293998146561551591698) (PossibleValues.mk 904912463627151600063801266498038457010986777333638734778879131241562438975305140631861397700377349360884108571571794935030486181282858567021715302091374152321351302487901425603920034777274409596897592474574509972684880) (PossibleValues.mk 882849770248189350889734292842919578341559948950105833518995574745872422372201447849277372779955679276584055406170646150366660759290251969552300015326916545714459792506775459251613010396908948265439454072210542513127504) (.error .Ambigious) (Board.mk 6466893112078849067424049276665383835783472932226075309968062683646604192710293998146561551591698) (by rfl) c8n_9

theorem c8n_7 : _solve 78 (Board.mk 58932004316118820238984158156727491975359365156117000126937860179945015368368889313161465850130) (PossibleValues.mk 904912463627472653280448506091986271467677533390952478433382144405696269974106331090375406298414945874099164966112635658042895157311008900740285589917255230969506918666710123649076902505181937681481650453394661549572176) = some ((Board.mk 58932004316118820238984158156727491975359365156117000126937860179945015368368889313161465850130), (.error .Ambigious)) := by
  have hf : _solve_fast (Board.mk 58932004316118820238984158156727491975359365156117000126937860179945015368368889313161465850130) (PossibleValues.mk 904912463627472653280448506091986271467677533390952478433382144405696269974106331090375406298414945874099164966112635658042895157311008900740285589917255230969506918666710123649076902505181937681481650453394661549572176) = some (.ok none) := by rfl
  have he : Board.first_empty_field_index (Board.mk 58932004316118820238984158156727491975359365156117000126937860179945015368368889313161465850130) = some (0, 4) := by rfl
  have hc : PossibleValues.possible_values_for_field (PossibleValues.mk 904912463627472653280448506091986271467677533390952478433382144405696269974106331090375406298414945874099164966112635658042895157311008900740285589917255230969506918666710123649076902505181937681481650453394661549572176) 0 4 = [3, 4, 5] := by rfl
  have hemp : Board.field (Board.mk 58932004316118820238984158156727491975359365156117000126937860179945015368368889313161465850130) 0 4 = 0 := by rfl
  have g0 : solveGuessLoop (_solve 77) (Board.mk 58932004316118820238984158156727491975359365156117000126937860179945015368368889313161465850130) (PossibleValues.mk 904912463627472653280448506091986271467677533390952478433382144405696269974106331090375406298414945874099164966112635658042895157311008900740285589917255230969506918666710123649076902505181937681481650453394661549572176) 0 4 [3, 4, 5] none = some ((Board.mk 58932004316118820238984158156727491975359365156117000126937860179945015368368889313161465850130), (.error .Ambigious)) := by
    exact guessLoop_cons_ambigious (_solve 77) (Board.mk 58932004316118820238984158156727491975359365156117000126937860179945015368368889313161465850130) (PossibleValues.mk 904912463627472653280448506091986271467677533390952478433382144405696269974106331090375406298414945874099164966112635658042895157311008900740285589917255230969506918666710123649076902505181937681481650453394661549572176) 0 4 3 [4, 5] none (Board.mk 58932004316118820238984158156727491975359365156117000126937860179945015368368889313161466046738) hemp c8n_8
  exact solve_node_guess 77 (Board.mk 58932004316118820238984158156727491975359365156117000126937860179945015368368889313161465850130) (PossibleValues.mk 904912463627472653280448506091986271467677533390952478433382144405696269974106331090375406298414945874099164966112635658042895157311008900740285589917255230969506918666710123649076902505181937681481650453394661549572176) 0 4 [3, 4, 5] (some ((Board.mk 58932004316118820238984158156727491975359365156117000126937860179945015368368889313161465850130), (.error .Ambigious))) hf he hc g0

theorem c8n_3 : _solve 79 (Board.mk 58932004316118820238984158156727491975359365156117000126937860179945015368368889313161465847826) (PossibleValues.mk 904912463627472653280448506091986271467677533390952478433382144405696269974106331090375406298414945874099164966112635658042895157311008900740285589917255230969507310985568585316624642242183147437464236008946598424903760) = some ((Board.mk 58932004316118820238984158156727491975359365156117000126937860179945015368368889313161465847826), (.error .Ambigious)) := by
  have hf : _solve_fast (Board.mk 58932004316118820238984158156727491975359365156117000126937860179945015368368889313161465847826) (PossibleValues.mk 904912463627472653280448506091986271467677533390952478433382144405696269974106331090375406298414945874099164966112635658042895157311008900740285589917255230969507310985568585316624642242183147437464236008946598424903760) = some (.ok none) := by rfl
  have he : Board.first_empty_field_index (Board.mk 58932004316118820238984158156727491975359365156117000126937860179945015368368889313161465847826) = some (0, 2) := by rfl
  have hc : PossibleValues.possible_values_for_field (PossibleValues.mk 904912463627472653280448506091986271467677533390952478433382144405696269974106331090375406298414945874099164966112635658042895157311008900740285589917255230969507310985568585316624642242183147437464236008946598424903760) 0 2 = [5, 9] := by rfl
  have hemp : Board.field (Board.mk 58932004316118820238984158156727491975359365156117000126937860179945015368368889313161465847826) 0 2 = 0 := by rfl
  have g1 : solveGuessLoop (_solve 78) (Board.mk 58932004316118820238984158156727491975359365156117000126937860179945015368368889313161465847826) (PossibleValues.mk 904912463627472653280448506091986271467677533390952478433382144405696269974106331090375406298414945874099164966112635658042895157311008900740285589917255230969507310985568585316624642242183147437464236008946598424903760) 0 2 [9] none = some ((Board.mk 58932004316118820238984158156727491975359365156117000126937860179945015368368889313161465847826), (.error .Ambigious)) := by
    exact guessLoop_cons_ambigious (_solve 78) (Board.mk 58932004316118820238984158156727491975359365156117000126937860179945015368368889313161465847826) (PossibleValues.mk 904912463627472653280448506091986271467677533390952478433382144405696269974106331090375406298414945874099164966112635658042895157311008900740285589917255230969507310985568585316624642242183147437464236008946598424903760) 0 2 9 [] none (Board.mk 58932004316118820238984158156727491975359365156117000126937860179945015368368889313161465850130) hemp c8n_7
  have g0 : solveGuessLoop (_solve 78) (Board.mk 58932004316118820238984158156727491975359365156117000126937860179945015368368889313161465847826) (PossibleValues.mk 904912463627472653280448506091986271467677533390952478433382144405696269974106331090375406298414945874099164966112635658042895157311008900740285589917255230969507310985568585316624642242183147437464236008946598424903760) 0 2 [5, 9] none = some ((Board.mk 58932004316118820238984158156727491975359365156117000126937860179945015368368889313161465847826), (.error .Ambigious)) := by
    exact guessLoop_cons_notsolvable (_solve 78) (Board.mk 58932004316118820238984158156727491975359365156117000126937860179945015368368889313161465847826) (PossibleValues.mk 904912463627472653280448506091986271467677533390952478433382144405696269974106331090375406298414945874099164966112635658042895157311008900740285589917255230969507310985568585316624642242183147437464236008946598424903760) 0 2 5 [9] none (Board.mk 58932004316118820238984158156727491975359365156117000126937860179945015368368889313161465849106) (some ((Board.mk 58932004316118820238984158156727491975359365156117000126937860179945015368368889313161465847826), (.error .Ambigious))) hemp c8n_4 g1
  exact solve_node_guess 78 (Board.mk 58932004316118820238984158156727491975359365156117000126937860179945015368368889313161465847826) (PossibleValues.mk 904912463627472653280448506091986271467677533390952478433382144405696269974106331090375406298414945874099164966112635658042895157311008900740285589917255230969507310985568585316624642242183147437464236008946598424903760) 0 2 [5, 9] (some ((Board.mk 58932004316118820238984158156727491975359365156117000126937860179945015368368889313161465847826), (.error .Ambigious))) hf he hc g0

theorem c8n_2 : _solve 80 (Board.mk 58932004316118820238984158156727491975359365156117000126937860179945015368368889313161465847810) (PossibleValues.mk 904912463627472653280448506091986271467677533390952478433382144405696269974106331090375406298414945874099164966112635675540900955575104295720310643863803486057076731317831119717030322895849378630964241296133601284620880) = some ((Board.mk 58932004316118820238984158156727491975359365156117000126937860179945015368368889313161465847810), (.error .Ambigious)) := by
  have hf : _solve_fast (Board.mk 58932004316118820238984158156727491975359365156117000126937860179945015368368889313161465847810) (PossibleValues.mk 904912463627472653280448506091986271467677533390952478433382144405696269974106331090375406298414945874099164966112635675540900955575104295720310643863803486057076731317831119717030322895849378630964241296133601284620880) = some (.ok none) := by rfl
  have he : Board.first_empty_field_index (Board.mk 58932004316118820238984158156727491975359365156117000126937860179945015368368889313161465847810) = some (0, 1) := by rfl
  have hc : PossibleValues.possible_values_for_field (PossibleValues.mk 904912463627472653280448506091986271467677533390952478433382144405696269974106331090375406298414945874099164966112635675540900955575104295720310643863803486057076731317831119717030322895849378630964241296133601284620880) 0 1 = [1, 7] := by rfl
  have hemp : Board.field (Board.mk 58932004316118820238984158156727491975359365156117000126937860179945015368368889313161465847810) 0 1 = 0 := by rfl
  have g0 : solveGuessLoop (_solve 79) (Board.mk 58932004316118820238984158156727491975359365156117000126937860179945015368368889313161465847810) (PossibleValues.mk 904912463627472653280448506091986271467677533390952478433382144405696269974106331090375406298414945874099164966112635675540900955575104295720310643863803486057076731317831119717030322895849378630964241296133601284620880) 0 1 [1, 7] none = some ((Board.mk 58932004316118820238984158156727491975359365156117000126937860179945015368368889313161465847810), (.error .Ambigious)) := by
    exact guessLoop_cons_ambigious (_solve 79) (Board.mk 58932004316118820238984158156727491975359365156117000126937860179945015368368889313161465847810) (PossibleValues.mk 904912463627472653280448506091986271467677533390952478433382144405696269974106331090375406298414945874099164966112635675540900955575104295720310643863803486057076731317831119717030322895849378630964241296133601284620880) 0 1 1 [7] none (Board.mk 58932004316118820238984158156727491975359365156117000126937860179945015368368889313161465847826) hemp c8n_3
  exact solve_node_guess 79 (Board.mk 58932004316118820238984158156727491975359365156117000126937860179945015368368889313161465847810) (PossibleValues.mk 904912463627472653280448506091986271467677533390952478433382144405696269974106331090375406298414945874099164966112635675540900955575104295720310643863803486057076731317831119717030322895849378630964241296133601284620880) 0 1 [1, 7] (some ((Board.mk 58932004316118820238984158156727491975359365156117000126937860179945015368368889313161465847810), (.error .Ambigious))) hf he hc g0

theorem c8n_1 : _solve 81 (Board.mk 58932004316118820238984158156727491975359365156117000126937860179945015368368889313161465847808) (PossibleValues.mk 904912463627472653280448506091986271467677533390952478433382144405696269974106331090375406298415111138091362528262373654436260733484530519527692437035603352377331153878815871823364568828552372466340064147279862599287378) = some ((Board.mk 58932004316118820238984158156727491975359365156117000126937860179945015368368889313161465847808), (.error .Ambigious)) := by
  have hf : _solve_fast (Board.mk 58932004316118820238984158156727491975359365156117000126937860179945015368368889313161465847808) (PossibleValues.mk 904912463627472653280448506091986271467677533390952478433382144405696269974106331090375406298415111138091362528262373654436260733484530519527692437035603352377331153878815871823364568828552372466340064147279862599287378) = some (.ok none) := by rfl
  have he : Board.first_empty_field_index (Board.mk 58932004316118820238984158156727491975359365156117000126937860179945015368368889313161465847808) = some (0, 0) := by rfl
  have hc : PossibleValues.possible_values_for_field (PossibleValues.mk 904912463627472653280448506091986271467677533390952478433382144405696269974106331090375406298415111138091362528262373654436260733484530519527692437035603352377331153878815871823364568828552372466340064147279862599287378) 0 0 = [2, 5, 7] := by rfl
  have hemp : Board.field (Board.mk 58932004316118820238984158156727491975359365156117000126937860179945015368368889313161465847808) 0 0 = 0 := by rfl
  have g0 : solveGuessLoop (_solve 80) (Board.mk 58932004316118820238984158156727491975359365156117000126937860179945015368368889313161465847808) (PossibleValues.mk 904912463627472653280448506091986271467677533390952478433382144405696269974106331090375406298415111138091362528262373654436260733484530519527692437035603352377331153878815871823364568828552372466340064147279862599287378) 0 0 [2, 5, 7] none = some ((Board.mk 58932004316118820238984158156727491975359365156117000126937860179945015368368889313161465847808), (.error .Ambigious)) := by
    exact guessLoop_cons_ambigious (_solve 80) (Board.mk 58932004316118820238984158156727491975359365156117000126937860179945015368368889313161465847808) (PossibleValues.mk 904912463627472653280448506091986271467677533390952478433382144405696269974106331090375406298415111138091362528262373654436260733484530519527692437035603352377331153878815871823364568828552372466340064147279862599287378) 0 0 2 [5, 7] none (Board.mk 58932004316118820238984158156727491975359365156117000126937860179945015368368889313161465847810) hemp c8n_2
  exact solve_node_guess 80 (Board.mk 58932004316118820238984158156727491975359365156117000126937860179945015368368889313161465847808) (PossibleValues.mk 904912463627472653280448506091986271467677533390952478433382144405696269974106331090375406298415111138091362528262373654436260733484530519527692437035603352377331153878815871823364568828552372466340064147279862599287378) 0 0 [2, 5, 7] (some ((Board.mk 58932004316118820238984158156727491975359365156117000126937860179945015368368889313161465847808), (.error .Ambigious))) hf he hc g0

theorem c8n_0 : _solve 82 (Board.mk 58932004316118806575515861306351653609653550833443130522563842150461583093415854773210875715584) (PossibleValues.mk 904912463627472653299584842166146680841388848351621271655623880153680893902261945989421132640459767696103823748924381727470748193706904077002147313420632762945618427003329525109911701428882468112119014991772425659384402) = some ((Board.mk 58932004316118806575515861306351653609653550833443130522563842150461583093415854773210875715584), (.error .Ambigious)) := by
  exact solve_node_fast 81 (Board.mk 58932004316118806575515861306351653609653550833443130522563842150461583093415854773210875715584) (Board.mk 58932004316118820238984158156727491975359365156117000126937860179945015368368889313161465847808) (PossibleValues.mk 904912463627472653299584842166146680841388848351621271655623880153680893902261945989421132640459767696103823748924381727470748193706904077002147313420632762945618427003329525109911701428882468112119014991772425659384402) (PossibleValues.mk 904912463627472653280448506091986271467677533390952478433382144405696269974106331090375406298415111138091362528262373654436260733484530519527692437035603352377331153878815871823364568828552372466340064147279862599287378) (.error .Ambigious) (Board.mk 58932004316118820238984158156727491975359365156117000126937860179945015368368889313161465847808) (by rfl) c8n_1

/-! ## Claim C7 — the literal scenario-1 board -/

/-- C7: `solve` on the scenario-1 board returns `Ok` with exactly the
expected solution. -/
theorem claim_C7_difficult_board : solve difficultBoard = some (.ok expectedSolution) := by
  have h : _solve SOLVE_FUEL difficultBoard (PossibleValues.from_board difficultBoard) =
      some (difficultBoard, .ok expectedSolution) := c7n_0
  exact solve_top_ok difficultBoard difficultBoard expectedSolution h (by rfl) (by rfl)

theorem c8_solve_ambigious : solve ambiguousBoard = some (.error .Ambigious) := by
  have h : _solve SOLVE_FUEL ambiguousBoard (PossibleValues.from_board ambiguousBoard) =
      some (ambiguousBoard, .error .Ambigious) := c8n_0
  exact solve_top_err ambiguousBoard ambiguousBoard .Ambigious h

/-! ## Claim C8 — the literal scenario-3 (ambiguous) board -/

theorem all_solutions_cons (fuel : Nat) (stack stack' : BoardStack) (b : Board)
    (l : List Board)
    (h1 : SolverImpl.next_solution NEXT_SOLUTION_FUEL stack = some (some b, stack'))
    (h2 : SolverImpl.all_solutions fuel stack' = some l) :
    SolverImpl.all_solutions (fuel + 1) stack = some (b :: l) := by
  simp only [SolverImpl.all_solutions, h1, h2]

theorem all_solutions_nil (fuel : Nat) (stack rest : BoardStack)
    (h1 : SolverImpl.next_solution NEXT_SOLUTION_FUEL stack = some (none, rest)) :
    SolverImpl.all_solutions (fuel + 1) stack = some [] := by
  simp only [SolverImpl.all_solutions, h1]

theorem c8_step0 : SolverImpl.new ambiguousBoard = some c8Stack0 := by rfl

theorem c8_step1 : SolverImpl.next_solution NEXT_SOLUTION_FUEL c8Stack0 =
    some (some c8Sol1, c8Stack1) := by rfl

theorem c8_step2 : SolverImpl.next_solution NEXT_SOLUTION_FUEL c8Stack1 =
    some (some c8Sol2, c8Stack2) := by rfl

theorem c8_step3 : SolverImpl.next_solution NEXT_SOLUTION_FUEL c8Stack2 =
    some (some c8Sol3, c8Stack3) := by rfl

theorem c8_step4 : SolverImpl.next_solution NEXT_SOLUTION_FUEL c8Stack3 =
    some (some c8Sol4, c8Stack4) := by rfl

theorem c8_step5 : SolverImpl.next_solution NEXT_SOLUTION_FUEL c8Stack4 =
    some (some c8Sol5, c8Stack5) := by rfl

theorem c8_step6 : SolverImpl.next_solution NEXT_SOLUTION_FUEL c8Stack5 =
    some (some c8Sol6, c8Stack6) := by rfl

theorem c8_step7 : SolverImpl.next_solution NEXT_SOLUTION_FUEL c8Stack6 =
    some (some c8Sol7, c8Stack7) := by rfl

theorem c8_step8 : SolverImpl.next_solution NEXT_SOLUTION_FUEL c8Stack7 =
    some (some c8Sol8, c8Stack8) := by rfl

theorem c8_step9 : SolverImpl.next_solution NEXT_SOLUTION_FUEL c8Stack8 =
    some (some c8Sol9, c8Stack9) := by rfl

theorem c8_step10 : SolverImpl.next_solution NEXT_SOLUTION_FUEL c8Stack9 =
    some (some c8Sol10, c8Stack10) := by rfl

theorem c8_step11 : SolverImpl.next_solution NEXT_SOLUTION_FUEL c8Stack10 =
    some (none, []) := by rfl

theorem c8_enumeration_eq : c8Enumeration = some c8ExpectedSolutions := by
  have h11 : SolverImpl.all_solutions 1 c8Stack10 = some [] :=
    all_solutions_nil 0 c8Stack10 [] c8_step11
  have h10 : SolverImpl.all_solutions 2 c8Stack9 = some [c8Sol10] :=
    all_solutions_cons 1 c8Stack9 c8Stack10 c8Sol10 [] c8_step10 h11
  have h9 : SolverImpl.all_solutions 3 c8Stack8 = some [c8Sol9, c8Sol10] :=
    all_solutions_cons 2 c8Stack8 c8Stack9 c8Sol9 [c8Sol10] c8_step9 h10
  have h8 : SolverImpl.all_solutions 4 c8Stack7 = some [c8Sol8, c8Sol9, c8Sol10] :=
    all_solutions_cons 3 c8Stack7 c8Stack8 c8Sol8 [c8Sol9, c8Sol10] c8_step8 h9
  have h7 : SolverImpl.all_solutions 5 c8Stack6 = some [c8Sol7, c8Sol8, c8Sol9, c8Sol10] :=
    all_solutions_cons 4 c8Stack6 c8Stack7 c8Sol7 [c8Sol8, c8Sol9, c8Sol10] c8_step7 h8
  have h6 : SolverImpl.all_solutions 6 c8Stack5 = some [c8Sol6, c8Sol7, c8Sol8, c8Sol9, c8Sol10] :=
    all_solutions_cons 5 c8Stack5 c8Stack6 c8Sol6 [c8Sol7, c8Sol8, c8Sol9, c8Sol10] c8_step6 h7
  have h5 : SolverImpl.all_solutions 7 c8Stack4 = some [c8Sol5, c8Sol6, c8Sol7, c8Sol8, c8Sol9, c8Sol10] :=
    all_solutions_cons 6 c8Stack4 c8Stack5 c8Sol5 [c8Sol6, c8Sol7, c8Sol8, c8Sol9, c8Sol10] c8_step5 h6
  have h4 : SolverImpl.all_solutions 8 c8Stack3 = some [c8Sol4, c8Sol5, c8Sol6, c8Sol7, c8Sol8, c8Sol9, c8Sol10] :=
    all_solutions_cons 7 c8Stack3 c8Stack4 c8Sol4 [c8Sol5, c8Sol6, c8Sol7, c8Sol8, c8Sol9, c8Sol10] c8_step4 h5
  have h3 : SolverImpl.all_solutions 9 c8Stack2 = some [c8Sol3, c8Sol4, c8Sol5, c8Sol6, c8Sol7, c8Sol8, c8Sol9, c8Sol10] :=
    all_solutions_cons 8 c8Stack2 c8Stack3 c8Sol3 [c8Sol4, c8Sol5, c8Sol6, c8Sol7, c8Sol8, c8Sol9, c8Sol10] c8_step3 h4
  have h2 : SolverImpl.all_solutions 10 c8Stack1 = some [c8Sol2, c8Sol3, c8Sol4, c8Sol5, c8Sol6, c8Sol7, c8Sol8, c8Sol9, c8Sol10] :=
    all_solutions_cons 9 c8Stack1 c8Stack2 c8Sol2 [c8Sol3, c8Sol4, c8Sol5, c8Sol6, c8Sol7, c8Sol8, c8Sol9, c8Sol10] c8_step2 h3
  have h1 : SolverImpl.all_solutions 11 c8Stack0 = some [c8Sol1, c8Sol2, c8Sol3, c8Sol4, c8Sol5, c8Sol6, c8Sol7, c8Sol8, c8Sol9, c8Sol10] :=
    all_solutions_cons 10 c8Stack0 c8Stack1 c8Sol1 [c8Sol2, c8Sol3, c8Sol4, c8Sol5, c8Sol6, c8Sol7, c8Sol8, c8Sol9, c8Sol10] c8_step1 h2
  simp only [c8Enumeration, c8_step0, h1]
  rfl

set_option maxHeartbeats 4000000000 in
/-- C8: `solve` on the scenario-3 board returns `Ambigious`, and
enumerating all of its solutions through the Search Engine (repeated
`next_solution` with the first-candidate policy until exhaustion) yields
exactly the ten boards of `c8ExpectedSolutions`, which are pairwise
distinct and each a superset of the input's fixed cells. -/
theorem claim_C8_ambiguous_enumeration :
    solve ambiguousBoard = some (.error .Ambigious) ∧
    c8Enumeration = some c8ExpectedSolutions ∧
    c8ExpectedSolutions.length = 10 ∧
    c8ExpectedSolutions.Pairwise (· ≠ ·) ∧
    c8ExpectedSolutions.all (fun s => ambiguousBoard.is_subset_of s) = true := by
  refine ⟨c8_solve_ambigious, c8_enumeration_eq, by rfl, by decide, by decide⟩

/-- Witness for C1: `solve` on the already-complete `expectedSolution`
returns it, and the three conclusions hold there. -/
theorem claim_C1_solve_ok_properties_witness :
    expectedSolution.is_filled = true ∧ expectedSolution.has_conflicts = false ∧
      expectedSolution.is_subset_of expectedSolution = true := by
  have hvals9 : ∀ c ∈ allCoords, expectedSolution.field c.1 c.2 ≤ 9 := by decide
  have hvals : ∀ x y : Nat, x < 9 → y < 9 → expectedSolution.field x y ≤ 9 :=
    fun x y hx hy => hvals9 (x, y) ((mem_allCoords x y).mpr ⟨hx, hy⟩)
  have hstep : _solve SOLVE_FUEL expectedSolution (PossibleValues.from_board expectedSolution) =
      some (expectedSolution, .ok expectedSolution) :=
    solve_complete_step 81 expectedSolution (PossibleValues.from_board expectedSolution)
      (by decide) (by decide) hvals
  exact claim_C1_solve_ok_properties expectedSolution expectedSolution
    (by unfold Board.WF; decide)
    (solve_top_ok expectedSolution expectedSolution expectedSolution hstep (by decide) (by decide))

/-- Witness for C9 at a concrete input. -/
theorem claim_C9_solve_restores_board_witness :
    ((expectedSolution, Except.ok expectedSolution) : Board × Except SolverError Board).1 =
      expectedSolution := by
  have hvals9 : ∀ c ∈ allCoords, expectedSolution.field c.1 c.2 ≤ 9 := by decide
  have hvals : ∀ x y : Nat, x < 9 → y < 9 → expectedSolution.field x y ≤ 9 :=
    fun x y hx hy => hvals9 (x, y) ((mem_allCoords x y).mpr ⟨hx, hy⟩)
  exact claim_C9_solve_restores_board 1 expectedSolution
    (PossibleValues.from_board expectedSolution)
    (expectedSolution, Except.ok expectedSolution) (by unfold Board.WF; decide)
    (solve_complete_step 0 expectedSolution (PossibleValues.from_board expectedSolution)
      (by decide) (by decide) hvals)
